import Mathlib

/-!
# Verification of the phone-tv-remote command-dispatch and discovery engine

This development is a shallow embedding, in Lean 4, of the TypeScript core of
the `phone-tv-remote` application: the brand protocol adapters
(`src/services/remotes/*.ts`), the dispatch router (`src/services/wifiRemote.ts`),
the credential caches, and the bounded-concurrency network scanner.

Modelling conventions:

* Asynchronous network effects are modelled by a read-only environment `Env`
  (a deterministic oracle assigning an outcome to every request) together with
  explicit state passing over a `World` (in-memory credential caches plus a
  trace recording every network operation issued, in order).
* A JavaScript exception is an `Err` value; `TvM α = Env → World → Except Err α × World`
  threads the world through both normal and exceptional control flow, exactly
  as a thrown exception does not roll back mutations or un-issue requests.
  A TypeScript `try { .. } catch (e) { .. }` is modelled with `attempt`.
* WebSocket interactions (Samsung, LG) are event races inside callbacks; each
  whole connection attempt is modelled as one oracle verdict
  (success, possibly carrying a token, or a failure `Err`), recorded in the trace.
* Request timeouts are part of the oracle's verdict (a timed-out request is an
  `Err` outcome), so timeout durations do not appear in the model.
* Response bodies are modelled as the raw text plus an optional already-parsed
  JSON value (`JsVal`); `JSON.parse` succeeds exactly when the parsed value is
  present.  Numeric JSON values are modelled as integers.
* `AsyncStorage` persistence is modelled by initial stored maps in `Env`
  (consumed by the `ensure*Loaded` functions) ; the mirror writes performed by
  the `persist*` functions are external effects outside the model.
-/

/-! ## Data model (`src/types/tv.ts`, `src/services/remotes/remoteTypes.ts`) -/

inductive TVBrand
  | samsung | sony | roku | panasonic | vizio | tcl | lg | philips | firetv | other
  deriving DecidableEq, Repr

structure SavedTV where
  id : String
  nickname : String
  brand : TVBrand
  host : Option String := none
  port : Option Int := none
  deriving DecidableEq, Repr

inductive RemoteCommand
  | power | input | up | down | left | right | ok | back | home | settings
  | volumeUp | volumeDown | channelUp | channelDown | mute
  | previous | playPause | next | numpad
  | digit0 | digit1 | digit2 | digit3 | digit4
  | digit5 | digit6 | digit7 | digit8 | digit9
  | numpadBackspace | numpadEnter
  deriving DecidableEq, Repr

structure VizioPairingChallenge where
  challengeType : Int
  pairingReqToken : Int
  deviceId : String
  deriving DecidableEq, Repr

/-- The only Sony challenge kind is the pre-shared key prompt (`{type: "psk"}`). -/
inductive SonyPairingChallenge
  | psk
  deriving DecidableEq, Repr

inductive RemotePairing
  | vizio (challenge : VizioPairingChallenge)
  | sony (challenge : SonyPairingChallenge)
  deriving DecidableEq, Repr

structure DispatchResult where
  ok : Bool
  message : String
  pairing : Option RemotePairing := none
  deriving DecidableEq, Repr

/-! ## JavaScript string helpers -/

/-- JS `Array.prototype.includes`-style membership hidden inside `[...new Set(xs)]`:
dedupe keeping the first occurrence, preserving insertion order. -/
def dedupFirst {α : Type} [DecidableEq α] (l : List α) : List α :=
  l.foldl (fun acc x => if x ∈ acc then acc else acc ++ [x]) []

/-- JS `String.prototype.includes`: substring containment. -/
def strContains (s pat : String) : Bool :=
  (List.range (s.data.length + 1)).any fun i => pat.data.isPrefixOf (s.data.drop i)

/-- JS truthiness fallback `a || b` for an optional string (empty string is falsy). -/
def jsOr (a : Option String) (b : String) : String :=
  match a with
  | some s => if s = "" then b else s
  | none => b

/-- JS truthiness fallback `a || b` for two strings. -/
def jsOrStr (a b : String) : String := if a = "" then b else a

/-- JS truthiness of a `string | undefined` value (empty string is falsy). -/
def jsTruthy (o : Option String) : Bool :=
  match o with
  | some s => s ≠ ""
  | none => false

/-! Structural (kernel-computable) counterparts of the JS string methods used
by the source: `trim`, `toLowerCase`, `toUpperCase`, `startsWith`,
`split(".")` and `Number(..)` parsing of digit strings. -/

def String.jsTrim (s : String) : String :=
  String.mk (((s.data.dropWhile Char.isWhitespace).reverse.dropWhile
    Char.isWhitespace).reverse)

def String.jsLower (s : String) : String := String.mk (s.data.map Char.toLower)

def String.jsUpper (s : String) : String := String.mk (s.data.map Char.toUpper)

def String.jsStartsWith (s pat : String) : Bool := pat.data.isPrefixOf s.data

def splitOnDotGo : List Char → List Char → List String
  | [], acc => [String.mk acc.reverse]
  | c :: cs, acc =>
    if c = '.' then String.mk acc.reverse :: splitOnDotGo cs []
    else splitOnDotGo cs (c :: acc)

/-- JS `host.split(".")`. -/
def splitOnDot (s : String) : List String := splitOnDotGo s.data []

/-- `Number(s)` for a plain digit string (callers have checked `^\d{1,3}$`). -/
def digitStrToNat (s : String) : Nat :=
  s.data.foldl (fun acc c => acc * 10 + (c.toNat - 48)) 0

/-- `Number(s)` on a trimmed candidate, at integer precision: an optional
sign followed by digits. -/
def jsParseInt (s : String) : Option Int :=
  match s.data with
  | [] => none
  | '-' :: ds =>
    if ds ≠ [] && ds.all Char.isDigit then some (-(digitStrToNat (String.mk ds) : Int))
    else none
  | '+' :: ds =>
    if ds ≠ [] && ds.all Char.isDigit then some ((digitStrToNat (String.mk ds) : Int))
    else none
  | ds =>
    if ds.all Char.isDigit then some ((digitStrToNat (String.mk ds) : Int))
    else none

/-! ## JSON values

`JSON.parse` output is modelled as a `JsVal`; a response body carries the raw
text together with its optional parse.  Numbers are modelled as integers. -/

inductive JsVal
  | jnull
  | jbool (b : Bool)
  | jnum (n : Int)
  | jstr (s : String)
  | jarr (xs : List JsVal)
  | jobj (fields : List (String × JsVal))

/-- Property access `v?.key` on a JSON value. -/
def jGet (v : Option JsVal) (key : String) : Option JsVal :=
  match v with
  | some (JsVal.jobj fields) => (fields.find? (fun p => p.1 = key)).map (·.2)
  | _ => none

/-- Array index access `v?.[i]`. -/
def jIdx (v : Option JsVal) (i : Nat) : Option JsVal :=
  match v with
  | some (JsVal.jarr xs) => xs.get? i
  | _ => none

def jAsStr (v : Option JsVal) : Option String :=
  match v with
  | some (JsVal.jstr s) => some s
  | _ => none

mutual

/-- JS `String(value)` coercion on a JSON value. -/
def jsToString : JsVal → String
  | JsVal.jnull => "null"
  | JsVal.jbool b => if b then "true" else "false"
  | JsVal.jnum n => toString n
  | JsVal.jstr s => s
  | JsVal.jarr xs => String.intercalate "," (jsToStringList xs)
  | JsVal.jobj _ => "[object Object]"

def jsToStringList : List JsVal → List String
  | [] => []
  | x :: xs => jsToString x :: jsToStringList xs

end

/-! ## Network requests, responses, exceptions -/

/-- Structured body of an outgoing request (the semantic content of the
JSON / XML payloads serialized by the adapters). -/
inductive ReqBody
  | vizioPairingStart (deviceId deviceName : String)
  | vizioPairingPair (deviceId : String) (challengeType : Int) (pin : String)
      (pairingReqToken : Int)
  | vizioKeyCommand (codeset code : Int) (action : String)
  | sonyRpc (service method : String)
  | sonyIrcc (irccCode : String)
  | philipsKey (key : String)
  | panasonicSendKey (keyEvent : String)
  | bridgeCommand (brand : TVBrand) (command nickname : String)
  deriving DecidableEq, Repr

structure HttpReq where
  url : String
  method : String
  auth : Option String := none
  body : Option ReqBody := none
  deriving DecidableEq, Repr

structure HttpResp where
  status : Nat
  raw : String := ""
  json : Option JsVal := none

/-- `Response.ok`: status in the 2xx range. -/
def respOk (r : HttpResp) : Bool := 200 ≤ r.status && r.status < 300

/-- A thrown JavaScript `Error`.  `sonyAuth` models the `SONY_AUTH_REQUIRED`
code attached by `createSonyAuthError`. -/
structure Err where
  message : String
  sonyAuth : Bool := false
  deriving DecidableEq, Repr

/-- One Samsung WebSocket connection attempt (`sendSamsungViaUrl`). -/
structure SamsungAttempt where
  url : String
  key : String
  hasToken : Bool
  deriving DecidableEq, Repr

/-- Payload of an LG ssap request (`LgCommandRequest.payload`). -/
inductive LgPayload
  | appId (id : String)
  | buttonName (name : String)
  deriving DecidableEq, Repr

structure LgCommandRequest where
  uri : String
  payload : Option LgPayload := none
  deriving DecidableEq, Repr

/-- One LG WebSocket connection attempt (`sendLgViaUrl`). -/
structure LgAttempt where
  url : String
  request : LgCommandRequest
  clientKey : Option String
  deriving DecidableEq, Repr

/-- One call into the native iOS pinned-TLS Samsung module. -/
structure NativeSamsungReq where
  host : String
  key : String
  token : Option String
  pinnedFingerprint : Option String
  deriving DecidableEq, Repr

structure NativeSamsungResult where
  token : Option String := none
  certificateFingerprintSha256 : Option String := none
  deriving DecidableEq, Repr

/-- A network operation recorded in the trace. -/
inductive NetOp
  | http (req : HttpReq)
  | wsSamsung (a : SamsungAttempt)
  | wsLg (a : LgAttempt)
  | native (r : NativeSamsungReq)
  deriving DecidableEq, Repr

/-! ## Environment and world -/

/-- The deterministic oracle for all asynchronous effects, plus the persisted
credential stores as they would be read back by `AsyncStorage.getItem`. -/
structure Env where
  fetch : HttpReq → Except Err HttpResp
  samsungSocket : SamsungAttempt → Except Err (Option String)
  lgSocket : LgAttempt → Except Err (Option String)
  native : NativeSamsungReq → Except Err NativeSamsungResult
  /-- Verdict of `canOpenWebSocket` for a given URL (scanner probes). -/
  wsProbe : String → Bool := fun _ => false
  /-- `Network.getIpAddressAsync`; `none` models a rejection. -/
  localIp : Option String := none
  useNativeIOS : Bool := false
  now : Nat := 0
  storedSamsungTokens : List (String × String) := []
  storedSamsungCerts : List (String × String) := []
  storedLgKeys : List (String × String) := []
  storedSonyPsk : List (String × String) := []
  storedVizioTokens : List (String × String) := []

/-- In-memory module state: the per-brand credential caches (JS `Map`s in
insertion order), the load-once flags, and the trace of issued network
operations. -/
structure World where
  samsungTokens : List (String × String) := []
  samsungCerts : List (String × String) := []
  samsungAuthLoaded : Bool := false
  lgKeys : List (String × String) := []
  lgLoaded : Bool := false
  sonyPsk : List (String × String) := []
  sonyCodes : List (String × List (String × String)) := []
  sonyLoaded : Bool := false
  vizioTokens : List (String × String) := []
  vizioChallenges : List (String × VizioPairingChallenge) := []
  vizioLoaded : Bool := false
  trace : List NetOp := []
  deriving Repr

/-! ## JS `Map` operations on association lists (insertion order preserved) -/

def mapGet {β : Type} (m : List (String × β)) (k : String) : Option β :=
  (m.find? (fun p => p.1 = k)).map (·.2)

def mapSet {β : Type} (m : List (String × β)) (k : String) (v : β) :
    List (String × β) :=
  if m.any (fun p => p.1 = k) then
    m.map (fun p => if p.1 = k then (k, v) else p)
  else
    m ++ [(k, v)]

/-- JS `Map.delete` returns whether the key was present. -/
def mapDelete {β : Type} (m : List (String × β)) (k : String) :
    Bool × List (String × β) :=
  (m.any (fun p => p.1 = k), m.filter (fun p => p.1 ≠ k))

/-- Merging a persisted record into a cache (`ensure*Loaded`): every entry whose
value is a nonempty string is `set` into the map. -/
def mergeStored (m : List (String × String)) (stored : List (String × String)) :
    List (String × String) :=
  stored.foldl (fun acc p => if p.2 ≠ "" then mapSet acc p.1 p.2 else acc) m

/-! ## The effect monad -/

def TvM (α : Type) : Type := Env → World → Except Err α × World

def tvPure {α : Type} (a : α) : TvM α := fun _ w => (Except.ok a, w)

def tvBind {α β : Type} (m : TvM α) (f : α → TvM β) : TvM β := fun env w =>
  match m env w with
  | (Except.ok a, w2) => f a env w2
  | (Except.error e, w2) => (Except.error e, w2)

instance : Monad TvM where
  pure := tvPure
  bind := tvBind

@[simp] theorem tv_bind_eq {α β : Type} (m : TvM α) (f : α → TvM β) :
    m >>= f = tvBind m f := rfl

@[simp] theorem tv_pure_eq {α : Type} (a : α) : (pure a : TvM α) = tvPure a := rfl

/-- `throw new Error(..)`. -/
def throwM {α : Type} (e : Err) : TvM α := fun _ w => (Except.error e, w)

/-- `try { m } ..`: reflect the outcome of `m` into a value (the world, caches
and trace included, is kept as mutated by `m`). -/
def attempt {α : Type} (m : TvM α) : TvM (Except Err α) := fun env w =>
  match m env w with
  | (Except.ok a, w2) => (Except.ok (Except.ok a), w2)
  | (Except.error e, w2) => (Except.ok (Except.error e), w2)

def getWorld : TvM World := fun _ w => (Except.ok w, w)

def readEnv : TvM Env := fun env w => (Except.ok env, w)

def modifyWorld (f : World → World) : TvM Unit := fun _ w => (Except.ok (), f w)

/-- Issue an HTTP(S) request (`fetchWithTimeout`): the request is recorded in
the trace, then the oracle decides the outcome; a rejection is a throw. -/
def fetchWithTimeout (req : HttpReq) : TvM HttpResp := fun env w =>
  match env.fetch req with
  | Except.ok r => (Except.ok r, { w with trace := w.trace ++ [NetOp.http req] })
  | Except.error e => (Except.error e, { w with trace := w.trace ++ [NetOp.http req] })

/-- `describeError` (`remoteUtils.ts`); `none` models a `null`/non-`Error` value. -/
def describeError (e : Option Err) : String :=
  match e with
  | some err => if err.message.jsTrim ≠ "" then err.message else "connection failed"
  | none => "connection failed"

/-! ## More string machinery: `encodeURIComponent`, regex-shaped scanners -/

def hexDigitUpper (n : Nat) : Char :=
  if n < 10 then Char.ofNat (48 + n) else Char.ofNat (55 + n)

def isUnreservedURIChar (c : Char) : Bool :=
  c.isAlphanum || c = '-' || c = '_' || c = '.' || c = '!' || c = '~' ||
    c = '*' || c = Char.ofNat 39 || c = '(' || c = ')'

def encodeURIComponent (s : String) : String :=
  String.mk (s.data.flatMap fun c =>
    if isUnreservedURIChar c then [c]
    else (String.singleton c).toUTF8.toList.flatMap fun b =>
      ['%', hexDigitUpper (b.toNat / 16), hexDigitUpper (b.toNat % 16)])

/-- Case-insensitively strip `pat` from the head of `s`, returning the rest. -/
def ciStrip : List Char → List Char → Option (List Char)
  | [], s => some s
  | _ :: _, [] => none
  | p :: ps, c :: cs => if p.toLower = c.toLower then ciStrip ps cs else none

/-- The lazy group `(.*?)` up to the closing pattern: the shortest chunk of text
(excluding line breaks unless `dotAll`) followed by `closePat`. -/
def grabUntil (closePat : List Char) (dotAll : Bool) : List Char → Option (List Char)
  | [] =>
    match ciStrip closePat [] with
    | some _ => some []
    | none => none
  | c :: cs =>
    match ciStrip closePat (c :: cs) with
    | some _ => some []
    | none =>
      if !dotAll && (c = '\n' || c = '\r') then none
      else (grabUntil closePat dotAll cs).map (fun g => c :: g)

/-- Leftmost match of `openPat (.*?) closePat` (case-insensitive), returning
the group, as `String.prototype.match` does for these adapter regexes. -/
def scanFirstMatch (openPat closePat : List Char) (dotAll : Bool) :
    List Char → Option (List Char)
  | [] => none
  | c :: cs =>
    match ciStrip openPat (c :: cs) with
    | some rest =>
      match grabUntil closePat dotAll rest with
      | some g => some g
      | none => scanFirstMatch openPat closePat dotAll cs
    | none => scanFirstMatch openPat closePat dotAll cs

/-- `parseTag` / `parseXmlTag`: first `<tag>(.*?)</tag>` match (case-insensitive,
no dot-all), group trimmed. -/
def parseTag (xml : String) (tag : String) : Option String :=
  (scanFirstMatch (('<' :: tag.data) ++ ['>']) (('<' :: '/' :: tag.data) ++ ['>'])
      false xml.data).map
    (fun g => (String.mk g).jsTrim)

/-- Collapse every whitespace run to a single space (`replace(/\s+/g, " ")`). -/
def collapseWsGo : List Char → Bool → List Char
  | [], _ => []
  | c :: cs, prevWs =>
    if c.isWhitespace then
      if prevWs then collapseWsGo cs true else ' ' :: collapseWsGo cs true
    else c :: collapseWsGo cs false

def collapseWs (s : String) : String := String.mk (collapseWsGo s.data false)

def isJsWordChar (c : Char) : Bool := c.isAlphanum || c = '_'

/-- The pattern `<\s*(?:\w+:)?fault` anchored at the head of `s` (case-insensitive). -/
def soapFaultAt (s : List Char) : Bool :=
  match s with
  | '<' :: rest =>
    let r2 := rest.dropWhile Char.isWhitespace
    (ciStrip "fault".data r2).isSome ||
      (let w := r2.takeWhile isJsWordChar
       decide (w ≠ []) &&
         (match r2.drop w.length with
          | ':' :: r3 => (ciStrip "fault".data r3).isSome
          | _ => false))
  | _ => false

/-- `isSoapFault`: does `/<\s*(?:\w+:)?fault/i` match anywhere in the body? -/
def isSoapFault (body : String) : Bool := body.data.tails.any soapFaultAt

/-- `extractFaultString`: first `<faultstring>(.*?)</faultstring>` match
(case-insensitive, dot-all), whitespace collapsed and trimmed; empty → `null`. -/
def extractFaultString (body : String) : Option String :=
  match scanFirstMatch "<faultstring>".data "</faultstring>".data true body.data with
  | some g =>
    let value := (collapseWs (String.mk g)).jsTrim
    if value ≠ "" then some value else none
  | none => none

/-- JS truthiness of the optional `tv.host` (`if (!tv.host)`): absent or empty
means unconfigured. -/
def hostOf (tv : SavedTV) : Option String :=
  match tv.host with
  | some h => if h = "" then none else some h
  | none => none

/-! ## Roku adapter (`RokuRemote.ts`) -/

def rokuKeyMap : RemoteCommand → Option String
  | RemoteCommand.power => some "Power"
  | RemoteCommand.input => some "InputTuner"
  | RemoteCommand.up => some "Up"
  | RemoteCommand.down => some "Down"
  | RemoteCommand.left => some "Left"
  | RemoteCommand.right => some "Right"
  | RemoteCommand.ok => some "Select"
  | RemoteCommand.back => some "Back"
  | RemoteCommand.home => some "Home"
  | RemoteCommand.settings => some "Info"
  | RemoteCommand.volumeUp => some "VolumeUp"
  | RemoteCommand.volumeDown => some "VolumeDown"
  | RemoteCommand.channelUp => some "ChannelUp"
  | RemoteCommand.channelDown => some "ChannelDown"
  | RemoteCommand.mute => some "VolumeMute"
  | RemoteCommand.previous => some "Rev"
  | RemoteCommand.playPause => some "Play"
  | RemoteCommand.next => some "Fwd"
  | RemoteCommand.digit0 => some "Lit_0"
  | RemoteCommand.digit1 => some "Lit_1"
  | RemoteCommand.digit2 => some "Lit_2"
  | RemoteCommand.digit3 => some "Lit_3"
  | RemoteCommand.digit4 => some "Lit_4"
  | RemoteCommand.digit5 => some "Lit_5"
  | RemoteCommand.digit6 => some "Lit_6"
  | RemoteCommand.digit7 => some "Lit_7"
  | RemoteCommand.digit8 => some "Lit_8"
  | RemoteCommand.digit9 => some "Lit_9"
  | RemoteCommand.numpadBackspace => some "Backspace"
  | RemoteCommand.numpadEnter => some "Enter"
  | RemoteCommand.numpad => none

def sendRokuCommand (tv : SavedTV) (command : RemoteCommand) : TvM DispatchResult :=
  match hostOf tv with
  | none => tvPure { ok := false, message := "No TV host configured yet." }
  | some host =>
    match rokuKeyMap command with
    | none => tvPure { ok := false, message := "This command is not mapped for Roku yet." }
    | some rokuKey => do
      let endpoint := "http://" ++ host ++ ":8060/keypress/" ++ encodeURIComponent rokuKey
      match ← attempt (fetchWithTimeout { url := endpoint, method := "POST" }) with
      | Except.ok response =>
        if !respOk response then
          pure { ok := false
                 message := "Roku rejected command (" ++ toString response.status ++ ")." }
        else
          pure { ok := true, message := "Command sent to Roku TV." }
      | Except.error error =>
        pure { ok := false
               message := "Unable to send Roku command. " ++ describeError (some error) }

def isLikelyRokuHost (host : String) : TvM Bool := do
  match ← attempt (fetchWithTimeout
      { url := "http://" ++ host ++ ":8060/query/device-info", method := "GET" }) with
  | Except.ok response => pure (respOk response)
  | Except.error _ => pure false

/-! ## Bridge adapter (`BridgeRemote.ts`) -/

def bridgeCommandMap : RemoteCommand → String
  | RemoteCommand.power => "POWER"
  | RemoteCommand.input => "INPUT"
  | RemoteCommand.up => "UP"
  | RemoteCommand.down => "DOWN"
  | RemoteCommand.left => "LEFT"
  | RemoteCommand.right => "RIGHT"
  | RemoteCommand.ok => "OK"
  | RemoteCommand.back => "BACK"
  | RemoteCommand.home => "HOME"
  | RemoteCommand.settings => "SETTINGS"
  | RemoteCommand.volumeUp => "VOLUME_UP"
  | RemoteCommand.volumeDown => "VOLUME_DOWN"
  | RemoteCommand.channelUp => "CHANNEL_UP"
  | RemoteCommand.channelDown => "CHANNEL_DOWN"
  | RemoteCommand.mute => "MUTE"
  | RemoteCommand.previous => "PREVIOUS"
  | RemoteCommand.playPause => "PLAY_PAUSE"
  | RemoteCommand.next => "NEXT"
  | RemoteCommand.numpad => "NUMPAD"
  | RemoteCommand.digit0 => "DIGIT_0"
  | RemoteCommand.digit1 => "DIGIT_1"
  | RemoteCommand.digit2 => "DIGIT_2"
  | RemoteCommand.digit3 => "DIGIT_3"
  | RemoteCommand.digit4 => "DIGIT_4"
  | RemoteCommand.digit5 => "DIGIT_5"
  | RemoteCommand.digit6 => "DIGIT_6"
  | RemoteCommand.digit7 => "DIGIT_7"
  | RemoteCommand.digit8 => "DIGIT_8"
  | RemoteCommand.digit9 => "DIGIT_9"
  | RemoteCommand.numpadBackspace => "NUMPAD_BACKSPACE"
  | RemoteCommand.numpadEnter => "NUMPAD_ENTER"

def sendBridgeCommand (tv : SavedTV) (command : RemoteCommand) : TvM DispatchResult :=
  match hostOf tv with
  | none => tvPure { ok := false, message := "No TV host configured yet." }
  | some host => do
    let port := tv.port.getD 8080
    let baseUrl := "http://" ++ host ++ ":" ++ toString port
    let payload := ReqBody.bridgeCommand tv.brand (bridgeCommandMap command) tv.nickname
    match ← attempt (fetchWithTimeout
        { url := baseUrl ++ "/remote/ping", method := "GET" }) with
    | Except.error _ =>
      pure { ok := false, message := "Unable to reach TV bridge ping endpoint over Wi-Fi." }
    | Except.ok pingResponse =>
      if !respOk pingResponse && pingResponse.status ≠ 404 then
        pure { ok := false
               message := "TV bridge ping failed (" ++ toString pingResponse.status ++ ")." }
      else
        match ← attempt (fetchWithTimeout
            { url := baseUrl ++ "/remote/command", method := "POST", body := some payload }) with
        | Except.error error =>
          pure { ok := false
                 message := "Unable to reach TV bridge over Wi-Fi. " ++ describeError (some error) }
        | Except.ok response =>
          if !respOk response then
            pure { ok := false
                   message := "TV bridge rejected command (" ++ toString response.status ++ ")." }
          else
            pure { ok := true, message := "Command sent." }

/-! ## Fire TV adapter (`FireTvRemote.ts`) -/

def looksLikeFireTvText (value : String) : Bool :=
  let normalized := value.jsLower
  strContains normalized "fire tv" || strContains normalized "amazon" ||
    strContains normalized "<modelname>aft"

def sendFireTvCommand (tv : SavedTV) (command : RemoteCommand) : TvM DispatchResult := do
  let bridgeResult ← sendBridgeCommand tv command
  if bridgeResult.ok then
    pure { ok := true, message := "Command sent to Fire TV." }
  else
    pure { ok := false
           message := "Fire TV control requires bridge/ADB integration. " ++ bridgeResult.message }

def isLikelyFireTvHost (host : String) : TvM Bool := do
  let firstPass ←
    match ← attempt (fetchWithTimeout
        { url := "http://" ++ host ++ ":8009/ssdp/device-desc.xml", method := "GET" }) with
    | Except.ok descriptorResponse =>
      if respOk descriptorResponse then
        let xml := descriptorResponse.raw
        let manufacturer := (parseTag xml "manufacturer").getD ""
        let modelName := (parseTag xml "modelName").getD ""
        let friendlyName := (parseTag xml "friendlyName").getD ""
        let merged := manufacturer ++ " " ++ modelName ++ " " ++ friendlyName
        pure (looksLikeFireTvText merged || (modelName.jsTrim.jsLower).jsStartsWith "aft")
      else
        pure false
    | Except.error _ => pure false
  if firstPass then
    pure true
  else
    match ← attempt (fetchWithTimeout
        { url := "http://" ++ host ++ ":8008/setup/eureka_info", method := "GET" }) with
    | Except.ok castResponse =>
      if !respOk castResponse then
        pure false
      else
        pure (looksLikeFireTvText castResponse.raw.jsLower)
    | Except.error _ => pure false

/-! ## Philips adapter (`PhilipsRemote.ts`) -/

def philipsKeyMap : RemoteCommand → Option String
  | RemoteCommand.power => some "Standby"
  | RemoteCommand.input => some "Source"
  | RemoteCommand.up => some "CursorUp"
  | RemoteCommand.down => some "CursorDown"
  | RemoteCommand.left => some "CursorLeft"
  | RemoteCommand.right => some "CursorRight"
  | RemoteCommand.ok => some "Confirm"
  | RemoteCommand.back => some "Back"
  | RemoteCommand.home => some "Home"
  | RemoteCommand.settings => some "Options"
  | RemoteCommand.volumeUp => some "VolumeUp"
  | RemoteCommand.volumeDown => some "VolumeDown"
  | RemoteCommand.channelUp => some "ChannelStepUp"
  | RemoteCommand.channelDown => some "ChannelStepDown"
  | RemoteCommand.mute => some "Mute"
  | RemoteCommand.previous => some "Previous"
  | RemoteCommand.playPause => some "PlayPause"
  | RemoteCommand.next => some "Next"
  | RemoteCommand.digit0 => some "Digit0"
  | RemoteCommand.digit1 => some "Digit1"
  | RemoteCommand.digit2 => some "Digit2"
  | RemoteCommand.digit3 => some "Digit3"
  | RemoteCommand.digit4 => some "Digit4"
  | RemoteCommand.digit5 => some "Digit5"
  | RemoteCommand.digit6 => some "Digit6"
  | RemoteCommand.digit7 => some "Digit7"
  | RemoteCommand.digit8 => some "Digit8"
  | RemoteCommand.digit9 => some "Digit9"
  | RemoteCommand.numpadBackspace => some "Back"
  | RemoteCommand.numpadEnter => some "Confirm"
  | RemoteCommand.numpad => none

def buildPhilipsCommandUrls (host : String) (preferredPort : Option Int) : List String :=
  let ports := (match preferredPort with | some p => [p] | none => []) ++ [1925, 1926]
  let uniquePorts := dedupFirst ports
  uniquePorts.flatMap fun port =>
    let protocol := if port = 1926 then "https" else "http"
    [protocol ++ "://" ++ host ++ ":" ++ toString port ++ "/6/input/key",
     protocol ++ "://" ++ host ++ ":" ++ toString port ++ "/1/input/key"]

def buildPhilipsSystemUrls (host : String) : List String :=
  ["http://" ++ host ++ ":1925/6/system", "http://" ++ host ++ ":1925/1/system"]

structure PhilipsAcc where
  unauthorized : Bool := false
  lastStatus : Option Nat := none
  lastError : Option Err := none

/-- The `for (url of urls) for (method of ["POST","PUT"])` loop body of
`sendPhilipsCommand`, over the flattened url×method list. -/
def philipsLoop (key : String) : List (String × String) → PhilipsAcc → TvM DispatchResult
  | [], acc =>
    if acc.unauthorized then
      tvPure { ok := false
               message := "Philips TV denied the command. Enable JointSpace/IP control and pairing on the TV." }
    else
      match acc.lastStatus with
      | some lastStatus =>
        tvPure { ok := false
                 message := "Philips TV rejected command (" ++ toString lastStatus ++ ")." }
      | none =>
        tvPure { ok := false
                 message := "Unable to send Philips command. " ++ describeError acc.lastError }
  | (url, method) :: rest, acc => do
    match ← attempt (fetchWithTimeout
        { url := url, method := method, body := some (ReqBody.philipsKey key) }) with
    | Except.error error => philipsLoop key rest { acc with lastError := some error }
    | Except.ok response =>
      if respOk response then
        pure { ok := true, message := "Command sent to Philips TV." }
      else
        let acc2 := { acc with lastStatus := some response.status }
        if response.status = 401 || response.status = 403 then
          philipsLoop key rest { acc2 with unauthorized := true }
        else
          philipsLoop key rest acc2

def sendPhilipsCommand (tv : SavedTV) (command : RemoteCommand) : TvM DispatchResult :=
  match hostOf tv with
  | none => tvPure { ok := false, message := "No TV host configured yet." }
  | some host =>
    match philipsKeyMap command with
    | none => tvPure { ok := false, message := "This command is not mapped for Philips yet." }
    | some key =>
      let urls := buildPhilipsCommandUrls host tv.port
      philipsLoop key (urls.flatMap fun u => [(u, "POST"), (u, "PUT")]) {}

def philipsProbeLoop : List String → TvM Bool
  | [] => tvPure false
  | url :: rest => do
    match ← attempt (fetchWithTimeout { url := url, method := "GET" }) with
    | Except.error _ => philipsProbeLoop rest
    | Except.ok response =>
      if response.status = 401 || response.status = 403 then
        pure true
      else if !respOk response && 500 ≤ response.status then
        philipsProbeLoop rest
      else
        let body := response.raw.jsLower
        if strContains body "philips" || strContains body "jointspace" ||
            strContains body "ambilight" || strContains body "featuring" then
          pure true
        else
          philipsProbeLoop rest

def isLikelyPhilipsHost (host : String) : TvM Bool :=
  philipsProbeLoop (buildPhilipsSystemUrls host)

/-! ## Panasonic adapter (`PanasonicRemote.ts`) -/

def panasonicKeyMap : RemoteCommand → Option String
  | RemoteCommand.power => some "NRC_POWER-ONOFF"
  | RemoteCommand.input => some "NRC_CHG_INPUT-ONOFF"
  | RemoteCommand.up => some "NRC_UP-ONOFF"
  | RemoteCommand.down => some "NRC_DOWN-ONOFF"
  | RemoteCommand.left => some "NRC_LEFT-ONOFF"
  | RemoteCommand.right => some "NRC_RIGHT-ONOFF"
  | RemoteCommand.ok => some "NRC_ENTER-ONOFF"
  | RemoteCommand.back => some "NRC_RETURN-ONOFF"
  | RemoteCommand.home => some "NRC_HOME-ONOFF"
  | RemoteCommand.settings => some "NRC_SUBMENU-ONOFF"
  | RemoteCommand.volumeUp => some "NRC_VOLUP-ONOFF"
  | RemoteCommand.volumeDown => some "NRC_VOLDOWN-ONOFF"
  | RemoteCommand.channelUp => some "NRC_CH_UP-ONOFF"
  | RemoteCommand.channelDown => some "NRC_CH_DOWN-ONOFF"
  | RemoteCommand.mute => some "NRC_MUTE-ONOFF"
  | RemoteCommand.previous => some "NRC_REW-ONOFF"
  | RemoteCommand.playPause => some "NRC_PLAY-ONOFF"
  | RemoteCommand.next => some "NRC_FF-ONOFF"
  | RemoteCommand.digit0 => some "NRC_D0-ONOFF"
  | RemoteCommand.digit1 => some "NRC_D1-ONOFF"
  | RemoteCommand.digit2 => some "NRC_D2-ONOFF"
  | RemoteCommand.digit3 => some "NRC_D3-ONOFF"
  | RemoteCommand.digit4 => some "NRC_D4-ONOFF"
  | RemoteCommand.digit5 => some "NRC_D5-ONOFF"
  | RemoteCommand.digit6 => some "NRC_D6-ONOFF"
  | RemoteCommand.digit7 => some "NRC_D7-ONOFF"
  | RemoteCommand.digit8 => some "NRC_D8-ONOFF"
  | RemoteCommand.digit9 => some "NRC_D9-ONOFF"
  | RemoteCommand.numpadBackspace => some "NRC_RETURN-ONOFF"
  | RemoteCommand.numpadEnter => some "NRC_ENTER-ONOFF"
  | RemoteCommand.numpad => none

def buildPanasonicControlUrls (host : String) (preferredPort : Option Int) : List String :=
  let ports := (match preferredPort with | some p => [p] | none => []) ++ [55000]
  let uniquePorts := dedupFirst ports
  uniquePorts.map fun port => "http://" ++ host ++ ":" ++ toString port ++ "/nrc/control_0"

def buildPanasonicProbeUrls (host : String) : List String :=
  ["http://" ++ host ++ ":55000/nrc/sdd_0.xml", "http://" ++ host ++ ":55000/nrc/ddd.xml"]

/-- `/auth|forbid|denied|not allowed|session|authorize/i` on a fault message. -/
def panasonicAuthKeyword (m : String) : Bool :=
  let lower := m.jsLower
  strContains lower "auth" || strContains lower "forbid" || strContains lower "denied" ||
    strContains lower "not allowed" || strContains lower "session" ||
    strContains lower "authorize"

structure PanasonicAcc where
  unauthorized : Bool := false
  lastStatus : Option Nat := none
  lastFaultMessage : Option String := none
  lastError : Option Err := none

def panasonicLoop (keyEvent : String) : List String → PanasonicAcc → TvM DispatchResult
  | [], acc =>
    if acc.unauthorized then
      tvPure { ok := false
               message := "Panasonic TV denied the command. Enable TV Remote App / Network Remote Control in TV settings." }
    else
      match acc.lastFaultMessage with
      | some m =>
        tvPure { ok := false, message := "Panasonic TV returned a SOAP fault: " ++ m }
      | none =>
        match acc.lastStatus with
        | some lastStatus =>
          tvPure { ok := false
                   message := "Panasonic TV rejected command (" ++ toString lastStatus ++ ")." }
        | none =>
          tvPure { ok := false
                   message := "Unable to send Panasonic command. " ++ describeError acc.lastError }
  | url :: rest, acc => do
    match ← attempt (fetchWithTimeout
        { url := url, method := "POST", body := some (ReqBody.panasonicSendKey keyEvent) }) with
    | Except.error error => panasonicLoop keyEvent rest { acc with lastError := some error }
    | Except.ok response =>
      let body := response.raw
      if respOk response && !isSoapFault body then
        pure { ok := true, message := "Command sent to Panasonic TV." }
      else
        let acc2 := { acc with lastStatus := some response.status }
        let acc3 :=
          if response.status = 401 || response.status = 403 then
            { acc2 with unauthorized := true }
          else acc2
        match extractFaultString body with
        | some faultMessage =>
          let acc4 := { acc3 with lastFaultMessage := some faultMessage }
          let acc5 :=
            if panasonicAuthKeyword faultMessage then { acc4 with unauthorized := true }
            else acc4
          panasonicLoop keyEvent rest acc5
        | none => panasonicLoop keyEvent rest acc3

def sendPanasonicCommand (tv : SavedTV) (command : RemoteCommand) : TvM DispatchResult :=
  match hostOf tv with
  | none => tvPure { ok := false, message := "No TV host configured yet." }
  | some host =>
    match panasonicKeyMap command with
    | none => tvPure { ok := false, message := "This command is not mapped for Panasonic yet." }
    | some keyEvent =>
      panasonicLoop keyEvent (buildPanasonicControlUrls host tv.port) {}

def panasonicProbeLoop : List String → TvM Bool
  | [] => tvPure false
  | url :: rest => do
    match ← attempt (fetchWithTimeout { url := url, method := "GET" }) with
    | Except.error _ => panasonicProbeLoop rest
    | Except.ok response =>
      if response.status = 401 || response.status = 403 then
        pure true
      else if !respOk response && 500 ≤ response.status then
        panasonicProbeLoop rest
      else
        let body := response.raw.jsLower
        if strContains body "panasonic" || strContains body "viera" ||
            strContains body "p00networkcontrol" || strContains body "x_sendkey" then
          pure true
        else
          panasonicProbeLoop rest

def isLikelyPanasonicHost (host : String) : TvM Bool :=
  panasonicProbeLoop (buildPanasonicProbeUrls host)

/-! ## `base64EncodeAscii` (`remoteUtils.ts`) -/

def b64chars : List Char :=
  "ABCDEFGHIJKLMNOPQRSTUVWXYZabcdefghijklmnopqrstuvwxyz0123456789+/=".data

def b64CharAt (i : Nat) : Char := b64chars.getD i 'A'

/-- Encode one 1-3 byte chunk; a missing code unit is `NaN` in the source,
which shifts to `0` inside `e2`/`e3` and selects the pad index 64 for `e3`/`e4`. -/
def b64EncodeChunk (c1 : Nat) (c2 c3 : Option Nat) : List Char :=
  let e1 := c1 / 4
  let e2 := (c1 % 4) * 16 + (c2.getD 0) / 16
  let e3 := match c2 with
    | none => 64
    | some v2 => (v2 % 16) * 4 + (c3.getD 0) / 64
  let e4 := match c3 with
    | none => 64
    | some v3 => v3 % 64
  [b64CharAt e1, b64CharAt e2, b64CharAt e3, b64CharAt e4]

def b64Go : List Char → List Char
  | [] => []
  | [a] => b64EncodeChunk a.toNat none none
  | [a, b] => b64EncodeChunk a.toNat (some b.toNat) none
  | a :: b :: c :: rest =>
    b64EncodeChunk a.toNat (some b.toNat) (some c.toNat) ++ b64Go rest

def base64EncodeAscii (value : String) : String := String.mk (b64Go value.data)

/-! ## Samsung adapter (`SamsungRemote.ts`) -/

def samsungKeyMap : RemoteCommand → Option String
  | RemoteCommand.power => some "KEY_POWER"
  | RemoteCommand.input => some "KEY_SOURCE"
  | RemoteCommand.up => some "KEY_UP"
  | RemoteCommand.down => some "KEY_DOWN"
  | RemoteCommand.left => some "KEY_LEFT"
  | RemoteCommand.right => some "KEY_RIGHT"
  | RemoteCommand.ok => some "KEY_ENTER"
  | RemoteCommand.back => some "KEY_RETURN"
  | RemoteCommand.home => some "KEY_HOME"
  | RemoteCommand.settings => some "KEY_MENU"
  | RemoteCommand.volumeUp => some "KEY_VOLUP"
  | RemoteCommand.volumeDown => some "KEY_VOLDOWN"
  | RemoteCommand.channelUp => some "KEY_CHUP"
  | RemoteCommand.channelDown => some "KEY_CHDOWN"
  | RemoteCommand.mute => some "KEY_MUTE"
  | RemoteCommand.previous => some "KEY_REWIND"
  | RemoteCommand.playPause => some "KEY_PLAY"
  | RemoteCommand.next => some "KEY_FF"
  | RemoteCommand.digit0 => some "KEY_0"
  | RemoteCommand.digit1 => some "KEY_1"
  | RemoteCommand.digit2 => some "KEY_2"
  | RemoteCommand.digit3 => some "KEY_3"
  | RemoteCommand.digit4 => some "KEY_4"
  | RemoteCommand.digit5 => some "KEY_5"
  | RemoteCommand.digit6 => some "KEY_6"
  | RemoteCommand.digit7 => some "KEY_7"
  | RemoteCommand.digit8 => some "KEY_8"
  | RemoteCommand.digit9 => some "KEY_9"
  | RemoteCommand.numpadBackspace => some "KEY_RETURN"
  | RemoteCommand.numpadEnter => some "KEY_ENTER"
  | RemoteCommand.numpad => none

def getSamsungTokenKey (tv : SavedTV) : String := tv.id ++ ":" ++ tv.host.getD ""

def buildSamsungUrls (host : String) (token : Option String) : List String :=
  let appName := base64EncodeAscii "PhoneRemote"
  let tokenParam :=
    if jsTruthy token then "&token=" ++ encodeURIComponent (token.getD "") else ""
  let path := "/api/v2/channels/samsung.remote.control?name=" ++ appName ++ tokenParam
  ["ws://" ++ host ++ ":8001" ++ path, "wss://" ++ host ++ ":8002" ++ path]

def ensureSamsungAuthLoaded : TvM Unit := do
  let w ← getWorld
  if w.samsungAuthLoaded then
    pure ()
  else do
    let env ← readEnv
    modifyWorld fun w2 =>
      { w2 with
        samsungTokens := mergeStored w2.samsungTokens env.storedSamsungTokens
        samsungCerts := mergeStored w2.samsungCerts env.storedSamsungCerts
        samsungAuthLoaded := true }

/-- `persistSamsungAuthCache`: the `AsyncStorage` mirror write is an external
effect outside the model. -/
def persistSamsungAuthCache : TvM Unit := tvPure ()

def upsertSamsungAuth (tokenKey : String)
    (token certificateFingerprintSha256 : Option String) : TvM Unit := do
  let w ← getWorld
  let tokens2 :=
    match token with
    | some t =>
      if t ≠ "" && mapGet w.samsungTokens tokenKey ≠ some t then
        mapSet w.samsungTokens tokenKey t
      else w.samsungTokens
    | none => w.samsungTokens
  let certs2 :=
    match certificateFingerprintSha256 with
    | some f =>
      if f ≠ "" && mapGet w.samsungCerts tokenKey ≠ some f then
        mapSet w.samsungCerts tokenKey f
      else w.samsungCerts
    | none => w.samsungCerts
  modifyWorld fun w2 => { w2 with samsungTokens := tokens2, samsungCerts := certs2 }
  persistSamsungAuthCache

def clearSamsungAuth (tokenKey : String) (includeCert : Bool) : TvM Unit := do
  modifyWorld fun w =>
    { w with
      samsungTokens := (mapDelete w.samsungTokens tokenKey).2
      samsungCerts :=
        if includeCert then (mapDelete w.samsungCerts tokenKey).2 else w.samsungCerts }
  persistSamsungAuthCache

/-- `sendSamsungViaUrl`: the WebSocket open/message/error/close race is
abstracted as one oracle verdict — an error (unauthorized, timeout, send
failure, connection failure) or success with an optional fresh token. -/
def sendSamsungViaUrl (url : String) (key : String) (hasToken : Bool) :
    TvM (Option String) := fun env w =>
  let a : SamsungAttempt := { url := url, key := key, hasToken := hasToken }
  match env.samsungSocket a with
  | Except.ok token => (Except.ok token, { w with trace := w.trace ++ [NetOp.wsSamsung a] })
  | Except.error e => (Except.error e, { w with trace := w.trace ++ [NetOp.wsSamsung a] })

/-- `sendSamsungKeyWithNativeIOS` (`samsungNativeModule.ts`): the pinned-TLS
native call, abstracted as one oracle verdict. -/
def sendSamsungKeyWithNativeIOS (host key : String) (token pinned : Option String) :
    TvM NativeSamsungResult := fun env w =>
  let r : NativeSamsungReq :=
    { host := host, key := key, token := token, pinnedFingerprint := pinned }
  match env.native r with
  | Except.ok res => (Except.ok res, { w with trace := w.trace ++ [NetOp.native r] })
  | Except.error e => (Except.error e, { w with trace := w.trace ++ [NetOp.native r] })

/-- The `for (url of urls)` loop of `tryWithToken` in `sendSamsungKey`. -/
def samsungUrlLoop (key tokenKey : String) (hasToken : Bool) :
    List String → Option Err → TvM Unit
  | [], lastError =>
    throwM (lastError.getD { message := "Samsung adapter failed to connect." })
  | url :: rest, lastError => do
    match ← attempt (sendSamsungViaUrl url key hasToken) with
    | Except.ok result => upsertSamsungAuth tokenKey result none
    | Except.error error => samsungUrlLoop key tokenKey hasToken rest (some error)

/-- The `tryWithToken` closure of `sendSamsungKey`. -/
def samsungTryWithToken (useNativeIOS : Bool) (host key tokenKey : String)
    (token : Option String) : TvM Unit := do
  if useNativeIOS then do
    let w ← getWorld
    let pinnedFingerprint := mapGet w.samsungCerts tokenKey
    let result ← sendSamsungKeyWithNativeIOS host key token pinnedFingerprint
    upsertSamsungAuth tokenKey result.token result.certificateFingerprintSha256
  else
    samsungUrlLoop key tokenKey (jsTruthy token) (buildSamsungUrls host token) none

def sendSamsungKey (tv : SavedTV) (key : String) : TvM DispatchResult :=
  match hostOf tv with
  | none => tvPure { ok := false, message := "No TV host configured yet." }
  | some host => do
    ensureSamsungAuthLoaded
    let tokenKey := getSamsungTokenKey tv
    let env ← readEnv
    let useNativeIOS := env.useNativeIOS
    let w ← getWorld
    let cachedToken := mapGet w.samsungTokens tokenKey
    match ← attempt (samsungTryWithToken useNativeIOS host key tokenKey cachedToken) with
    | Except.ok _ => pure { ok := true, message := "Command sent to Samsung TV." }
    | Except.error errorWithToken =>
      if jsTruthy cachedToken then do
        clearSamsungAuth tokenKey useNativeIOS
        match ← attempt (samsungTryWithToken useNativeIOS host key tokenKey none) with
        | Except.ok _ => pure { ok := true, message := "Command sent to Samsung TV." }
        | Except.error errorWithoutToken =>
          pure { ok := false
                 message := "Unable to send Samsung command. " ++
                   describeError (some errorWithoutToken) }
      else do
        let w2 ← getWorld
        if useNativeIOS && (mapGet w2.samsungCerts tokenKey).isSome then do
          clearSamsungAuth tokenKey true
          match ← attempt (samsungTryWithToken useNativeIOS host key tokenKey none) with
          | Except.ok _ => pure { ok := true, message := "Command sent to Samsung TV." }
          | Except.error errorWithoutPin =>
            pure { ok := false
                   message := "Unable to send Samsung command. " ++
                     describeError (some errorWithoutPin) }
        else
          pure { ok := false
                 message := "Unable to send Samsung command. " ++
                   describeError (some errorWithToken) }

def sendSamsungCommand (tv : SavedTV) (command : RemoteCommand) : TvM DispatchResult :=
  match samsungKeyMap command with
  | none => tvPure { ok := false, message := "This command is not mapped for Samsung yet." }
  | some samsungKey => sendSamsungKey tv samsungKey

def isLikelySamsungHost (host : String) : TvM Bool := do
  match ← attempt (fetchWithTimeout
      { url := "http://" ++ host ++ ":8001/api/v2/", method := "GET" }) with
  | Except.error _ => pure false
  | Except.ok response =>
    if !respOk response && 500 ≤ response.status then
      pure false
    else
      let body := response.raw.jsLower
      pure (strContains body "samsung" || strContains body "tizen" ||
        strContains body "smarttv" || strContains body "ms.channel")

/-! ## LG adapter (`LGRemote.ts`) -/

def lgButtonMap : RemoteCommand → Option String
  | RemoteCommand.up => some "UP"
  | RemoteCommand.down => some "DOWN"
  | RemoteCommand.left => some "LEFT"
  | RemoteCommand.right => some "RIGHT"
  | RemoteCommand.ok => some "ENTER"
  | RemoteCommand.back => some "BACK"
  | RemoteCommand.home => some "HOME"
  | RemoteCommand.volumeUp => some "VOLUMEUP"
  | RemoteCommand.volumeDown => some "VOLUMEDOWN"
  | RemoteCommand.channelUp => some "CHANNELUP"
  | RemoteCommand.channelDown => some "CHANNELDOWN"
  | RemoteCommand.mute => some "MUTE"
  | RemoteCommand.previous => some "REWIND"
  | RemoteCommand.playPause => some "PLAY"
  | RemoteCommand.next => some "FASTFORWARD"
  | RemoteCommand.digit0 => some "0"
  | RemoteCommand.digit1 => some "1"
  | RemoteCommand.digit2 => some "2"
  | RemoteCommand.digit3 => some "3"
  | RemoteCommand.digit4 => some "4"
  | RemoteCommand.digit5 => some "5"
  | RemoteCommand.digit6 => some "6"
  | RemoteCommand.digit7 => some "7"
  | RemoteCommand.digit8 => some "8"
  | RemoteCommand.digit9 => some "9"
  | RemoteCommand.numpadBackspace => some "DELETE"
  | RemoteCommand.numpadEnter => some "ENTER"
  | _ => none

def getLgClientKeyKey (tv : SavedTV) : String := tv.id ++ ":" ++ tv.host.getD ""

def buildLgUrls (host : String) : List String :=
  ["ws://" ++ host ++ ":3000", "wss://" ++ host ++ ":3001"]

def getLgCommandRequest : RemoteCommand → Option LgCommandRequest
  | RemoteCommand.power => some { uri := "ssap://system/turnOff" }
  | RemoteCommand.input =>
    some { uri := "ssap://com.webos.applicationManager/launch"
           payload := some (LgPayload.appId "com.webos.app.inputpicker") }
  | RemoteCommand.settings =>
    some { uri := "ssap://com.webos.applicationManager/launch"
           payload := some (LgPayload.appId "com.palm.app.settings") }
  | command =>
    match lgButtonMap command with
    | none => none
    | some buttonName =>
      some { uri := "ssap://com.webos.service.networkinput/sendButton"
             payload := some (LgPayload.buttonName buttonName) }

def ensureLgClientKeysLoaded : TvM Unit := do
  let w ← getWorld
  if w.lgLoaded then
    pure ()
  else do
    let env ← readEnv
    modifyWorld fun w2 =>
      { w2 with lgKeys := mergeStored w2.lgKeys env.storedLgKeys, lgLoaded := true }

/-- `persistLgClientKeys`: external `AsyncStorage` write, outside the model. -/
def persistLgClientKeys : TvM Unit := tvPure ()

/-- `sendLgViaUrl`: the register/response/registered/error envelope exchange on
the socket is abstracted as one oracle verdict — an error (denied registration,
rejected command, timeout, socket failure) or success with the optional
discovered client key. -/
def sendLgViaUrl (url : String) (request : LgCommandRequest)
    (clientKey : Option String) : TvM (Option String) := fun env w =>
  let a : LgAttempt := { url := url, request := request, clientKey := clientKey }
  match env.lgSocket a with
  | Except.ok k => (Except.ok k, { w with trace := w.trace ++ [NetOp.wsLg a] })
  | Except.error e => (Except.error e, { w with trace := w.trace ++ [NetOp.wsLg a] })

/-- The `for (url of urls)` loop of `tryWithClientKey` in `sendLgCommand`. -/
def lgUrlLoop (request : LgCommandRequest) (clientKey : Option String) :
    List String → Option Err → TvM (Option String)
  | [], lastError => throwM (lastError.getD { message := "LG adapter failed to connect." })
  | url :: rest, lastError => do
    match ← attempt (sendLgViaUrl url request clientKey) with
    | Except.ok result => pure result
    | Except.error error => lgUrlLoop request clientKey rest (some error)

def sendLgCommand (tv : SavedTV) (command : RemoteCommand) : TvM DispatchResult :=
  match hostOf tv with
  | none => tvPure { ok := false, message := "No TV host configured yet." }
  | some host =>
    match getLgCommandRequest command with
    | none => tvPure { ok := false, message := "This command is not mapped for LG yet." }
    | some request => do
      ensureLgClientKeysLoaded
      let clientKeyId := getLgClientKeyKey tv
      let w ← getWorld
      let cachedClientKey := mapGet w.lgKeys clientKeyId
      match ← attempt (lgUrlLoop request cachedClientKey (buildLgUrls host) none) with
      | Except.ok discoveredClientKey => do
        if jsTruthy discoveredClientKey && discoveredClientKey ≠ cachedClientKey then do
          modifyWorld fun w2 =>
            { w2 with lgKeys := mapSet w2.lgKeys clientKeyId (discoveredClientKey.getD "") }
          persistLgClientKeys
        else
          pure ()
        pure { ok := true, message := "Command sent to LG TV." }
      | Except.error errorWithCachedKey =>
        if jsTruthy cachedClientKey then do
          modifyWorld fun w2 => { w2 with lgKeys := (mapDelete w2.lgKeys clientKeyId).2 }
          persistLgClientKeys
          match ← attempt (lgUrlLoop request none (buildLgUrls host) none) with
          | Except.ok discoveredClientKey => do
            if jsTruthy discoveredClientKey then do
              modifyWorld fun w2 =>
                { w2 with lgKeys := mapSet w2.lgKeys clientKeyId (discoveredClientKey.getD "") }
              persistLgClientKeys
            else
              pure ()
            pure { ok := true, message := "Command sent to LG TV." }
          | Except.error errorWithoutCachedKey =>
            pure { ok := false
                   message := "Unable to send LG command. " ++
                     describeError (some errorWithoutCachedKey) }
        else
          pure { ok := false
                 message := "Unable to send LG command. " ++
                   describeError (some errorWithCachedKey) }

def isLikelyLgHost (host : String) : TvM Bool := do
  match ← attempt (fetchWithTimeout
      { url := "http://" ++ host ++ ":3000/", method := "GET" }) with
  | Except.ok response => pure (respOk response || response.status < 500)
  | Except.error _ => pure false

/-! ## Sony adapter (`SonyRemote.ts`) -/

structure SonyIrccInfo where
  name : String
  value : String
  deriving DecidableEq, Repr

def sonyKeyNameCandidates : RemoteCommand → Option (List String)
  | RemoteCommand.power => some ["Power", "PowerOff", "TvPower"]
  | RemoteCommand.input => some ["Input", "TvInput", "InputSelect"]
  | RemoteCommand.up => some ["Up"]
  | RemoteCommand.down => some ["Down"]
  | RemoteCommand.left => some ["Left"]
  | RemoteCommand.right => some ["Right"]
  | RemoteCommand.ok => some ["Confirm", "Enter", "Select"]
  | RemoteCommand.back => some ["Return", "Back"]
  | RemoteCommand.home => some ["Home"]
  | RemoteCommand.settings => some ["Options", "ActionMenu", "Display"]
  | RemoteCommand.volumeUp => some ["VolumeUp", "AudioVolumeUp"]
  | RemoteCommand.volumeDown => some ["VolumeDown", "AudioVolumeDown"]
  | RemoteCommand.channelUp => some ["ChannelUp", "ProgramUp", "ProgUp"]
  | RemoteCommand.channelDown => some ["ChannelDown", "ProgramDown", "ProgDown"]
  | RemoteCommand.mute => some ["Mute", "AudioMute"]
  | RemoteCommand.previous => some ["Rewind", "Prev", "PrevChapter"]
  | RemoteCommand.playPause => some ["Play", "Pause"]
  | RemoteCommand.next => some ["Forward", "Next", "NextChapter"]
  | RemoteCommand.digit0 => some ["Num0", "0"]
  | RemoteCommand.digit1 => some ["Num1", "1"]
  | RemoteCommand.digit2 => some ["Num2", "2"]
  | RemoteCommand.digit3 => some ["Num3", "3"]
  | RemoteCommand.digit4 => some ["Num4", "4"]
  | RemoteCommand.digit5 => some ["Num5", "5"]
  | RemoteCommand.digit6 => some ["Num6", "6"]
  | RemoteCommand.digit7 => some ["Num7", "7"]
  | RemoteCommand.digit8 => some ["Num8", "8"]
  | RemoteCommand.digit9 => some ["Num9", "9"]
  | RemoteCommand.numpadBackspace => some ["Return", "Back"]
  | RemoteCommand.numpadEnter => some ["Enter", "Confirm"]
  | RemoteCommand.numpad => none

def getSonyAuthKey (tv : SavedTV) : String := tv.id ++ ":" ++ tv.host.getD ""

/-- `value.jsLowerCase().replace(/[^a-z0-9]/g, "")`. -/
def normalizeSonyCodeName (value : String) : String :=
  String.mk (value.jsLower.data.filter fun c => ('a' ≤ c && c ≤ 'z') || c.isDigit)

def buildSonyBaseUrls (host : String) (preferredPort : Option Int) : List String :=
  let ports := (match preferredPort with | some p => [p] | none => []) ++ [80, 10000, 443]
  let uniquePorts := dedupFirst ports
  uniquePorts.map fun port =>
    if port = 443 then "https://" ++ host ++ ":" ++ toString port
    else "http://" ++ host ++ ":" ++ toString port

def ensureSonyAuthLoaded : TvM Unit := do
  let w ← getWorld
  if w.sonyLoaded then
    pure ()
  else do
    let env ← readEnv
    modifyWorld fun w2 =>
      { w2 with sonyPsk := mergeStored w2.sonyPsk env.storedSonyPsk, sonyLoaded := true }

/-- `persistSonyAuthTokens`: external `AsyncStorage` write, outside the model. -/
def persistSonyAuthTokens : TvM Unit := tvPure ()

def setSonyPsk (sonyKey psk : String) : TvM Unit := do
  if psk = "" then
    pure ()
  else do
    let w ← getWorld
    if mapGet w.sonyPsk sonyKey = some psk then
      pure ()
    else do
      modifyWorld fun w2 => { w2 with sonyPsk := mapSet w2.sonyPsk sonyKey psk }
      persistSonyAuthTokens

def clearSonyPsk (sonyKey : String) : TvM Unit := do
  let w ← getWorld
  let (removed, psk2) := mapDelete w.sonyPsk sonyKey
  if !removed then
    pure ()
  else do
    modifyWorld fun w2 =>
      { w2 with sonyPsk := psk2, sonyCodes := (mapDelete w2.sonyCodes sonyKey).2 }
    persistSonyAuthTokens

def createSonyPairingRequiredResult (message : Option String) : DispatchResult :=
  { ok := false
    message := message.getD
      "Enter your Sony TV Pre-Shared Key (IP Control) to authorize this remote."
    pairing := some (RemotePairing.sony SonyPairingChallenge.psk) }

def createSonyAuthError (message : Option String) : Err :=
  { message := message.getD "Sony TV authentication required.", sonyAuth := true }

def isSonyAuthError (e : Err) : Bool := e.sonyAuth

def isSonyUnauthorizedResponse (status : Nat) (body : Option JsVal) : Bool :=
  if status = 401 || status = 403 then true
  else
    match jGet body "error" with
    | some (JsVal.jarr (code :: _)) =>
      match code with
      | JsVal.jnum n => n = 401 || n = 403
      | _ => false
    | _ => false

structure SonyRpcResp where
  status : Nat
  body : Option JsVal

/-- The `for (baseUrl of baseUrls)` loop of `sonyJsonRpcRequest`. -/
def sonyRpcLoop (service method : String) (psk : Option String) :
    List String → Option Err → TvM SonyRpcResp
  | [], lastError => throwM (lastError.getD { message := "Sony TV is unreachable." })
  | baseUrl :: rest, lastError => do
    let auth :=
      match psk with
      | some p => if p.jsTrim ≠ "" then some p.jsTrim else none
      | none => none
    match ← attempt (fetchWithTimeout
        { url := baseUrl ++ "/sony/" ++ service, method := "POST", auth := auth
          body := some (ReqBody.sonyRpc service method) }) with
    | Except.error error => sonyRpcLoop service method psk rest (some error)
    | Except.ok response =>
      if response.status = 404 || response.status = 405 then
        sonyRpcLoop service method psk rest
          (some { message := "Sony service not found at " ++ baseUrl ++
            " (" ++ toString response.status ++ ")." })
      else if response.raw.jsTrim = "" then
        pure { status := response.status, body := none }
      else
        pure { status := response.status, body := response.json }

def sonyJsonRpcRequest (host : String) (preferredPort : Option Int)
    (service method : String) (psk : Option String) : TvM SonyRpcResp :=
  sonyRpcLoop service method psk (buildSonyBaseUrls host preferredPort) none

def extractSonyRemoteCodes (body : Option JsVal) : List SonyIrccInfo :=
  match jGet body "result" with
  | some (JsVal.jarr result) =>
    if result.length < 2 then []
    else
      match result.get? 1 with
      | some (JsVal.jarr maybeList) =>
        maybeList.filterMap fun entry =>
          match jAsStr (jGet (some entry) "name"), jAsStr (jGet (some entry) "value") with
          | some n, some v =>
            if n.jsTrim = "" || v.jsTrim = "" then none
            else some { name := n.jsTrim, value := v.jsTrim }
          | _, _ => none
      | _ => []
  | _ => []

def fetchSonyRemoteCodeMap (tv : SavedTV) (psk : String) :
    TvM (List (String × String)) :=
  match hostOf tv with
  | none => throwM { message := "No TV host configured yet." }
  | some host => do
    let response ← sonyJsonRpcRequest host tv.port "system" "getRemoteControllerInfo" (some psk)
    if isSonyUnauthorizedResponse response.status response.body then
      throwM (createSonyAuthError none)
    else
      let infos := extractSonyRemoteCodes response.body
      if infos.isEmpty then
        throwM { message := "Sony TV returned no IRCC key data." }
      else
        pure (infos.foldl
          (fun m item => mapSet m (normalizeSonyCodeName item.name) item.value) [])

/-- First `for (candidate of candidates)` loop of `findSonyIrccCode`:
exact lookup, skipping falsy (empty) values. -/
def sonyExactLoop (codeMap : List (String × String)) : List String → Option String
  | [] => none
  | candidate :: rest =>
    let normalized := normalizeSonyCodeName candidate
    match mapGet codeMap normalized with
    | some exact => if exact ≠ "" then some exact else sonyExactLoop codeMap rest
    | none => sonyExactLoop codeMap rest

/-- Second loop of `findSonyIrccCode`: substring match over the table entries. -/
def sonyFuzzyLoop (codeMap : List (String × String)) : List String → Option String
  | [] => none
  | candidate :: rest =>
    let normalized := normalizeSonyCodeName candidate
    match codeMap.find? (fun p => strContains p.1 normalized) with
    | some fuzzy => some fuzzy.2
    | none => sonyFuzzyLoop codeMap rest

def findSonyIrccCode (command : RemoteCommand) (codeMap : List (String × String)) :
    Option String :=
  match sonyKeyNameCandidates command with
  | none => none
  | some candidates =>
    if candidates.isEmpty then none
    else
      match sonyExactLoop codeMap candidates with
      | some v => some v
      | none => sonyFuzzyLoop codeMap candidates

/-- The `for (baseUrl of baseUrls)` loop of `sendSonyIrccCode`. -/
def sonyIrccLoop (psk irccCode : String) : List String → Option Err → TvM Unit
  | [], lastError => throwM (lastError.getD { message := "Sony IRCC request failed." })
  | baseUrl :: rest, lastError => do
    match ← attempt (fetchWithTimeout
        { url := baseUrl ++ "/sony/IRCC", method := "POST", auth := some psk
          body := some (ReqBody.sonyIrcc irccCode) }) with
    | Except.error error =>
      if isSonyAuthError error then throwM error
      else sonyIrccLoop psk irccCode rest (some error)
    | Except.ok response =>
      if response.status = 401 || response.status = 403 then
        throwM (createSonyAuthError none)
      else if respOk response then
        pure ()
      else
        sonyIrccLoop psk irccCode rest
          (some { message := "Sony IRCC request failed (" ++ toString response.status ++ ")." })

def sendSonyIrccCode (tv : SavedTV) (psk irccCode : String) : TvM Unit :=
  match hostOf tv with
  | none => throwM { message := "No TV host configured yet." }
  | some host => sonyIrccLoop psk irccCode (buildSonyBaseUrls host tv.port) none

/-- The tail of `sendSonyCommand` after an IRCC code is in hand: send it,
translating an auth error into clearing the PSK plus a pairing request. -/
def sonyFinalSend (tv : SavedTV) (sonyKey cachedPsk irccCode : String) :
    TvM DispatchResult := do
  match ← attempt (sendSonyIrccCode tv cachedPsk irccCode) with
  | Except.ok _ => pure { ok := true, message := "Command sent to Sony TV." }
  | Except.error error =>
    if isSonyAuthError error then do
      clearSonyPsk sonyKey
      pure (createSonyPairingRequiredResult
        (some "Sony key no longer valid. Re-enter your TV Pre-Shared Key."))
    else
      pure { ok := false
             message := "Unable to send Sony command. " ++ describeError (some error) }

/-- The middle of `sendSonyCommand`: resolve the IRCC code from the cached
table, refreshing it once on a miss before giving up. -/
def sonySendPhase (tv : SavedTV) (sonyKey cachedPsk : String) (command : RemoteCommand)
    (codes : List (String × String)) : TvM DispatchResult := do
  let irccCode0 := findSonyIrccCode command codes
  if jsTruthy irccCode0 then
    sonyFinalSend tv sonyKey cachedPsk (irccCode0.getD "")
  else
    match ← attempt (fetchSonyRemoteCodeMap tv cachedPsk) with
    | Except.ok refreshedCodes => do
      modifyWorld fun w2 => { w2 with sonyCodes := mapSet w2.sonyCodes sonyKey refreshedCodes }
      let irccCode1 := findSonyIrccCode command refreshedCodes
      if jsTruthy irccCode1 then
        sonyFinalSend tv sonyKey cachedPsk (irccCode1.getD "")
      else
        pure { ok := false, message := "This command is unavailable on this Sony TV model." }
    | Except.error error =>
      if isSonyAuthError error then do
        clearSonyPsk sonyKey
        pure (createSonyPairingRequiredResult
          (some "Sony authorization expired. Re-enter your TV Pre-Shared Key."))
      else
        pure { ok := false
               message := "Unable to refresh Sony remote keys. " ++ describeError (some error) }

def sendSonyCommand (tv : SavedTV) (command : RemoteCommand) : TvM DispatchResult :=
  match hostOf tv with
  | none => tvPure { ok := false, message := "No TV host configured yet." }
  | some _host => do
    ensureSonyAuthLoaded
    let sonyKey := getSonyAuthKey tv
    let w ← getWorld
    let cachedPskOpt := mapGet w.sonyPsk sonyKey
    if !jsTruthy cachedPskOpt then
      pure (createSonyPairingRequiredResult none)
    else
      let cachedPsk := cachedPskOpt.getD ""
      if (sonyKeyNameCandidates command).isNone then
        pure { ok := false, message := "This command is not mapped for Sony yet." }
      else
        match mapGet w.sonyCodes sonyKey with
        | some codes => sonySendPhase tv sonyKey cachedPsk command codes
        | none => do
          match ← attempt (fetchSonyRemoteCodeMap tv cachedPsk) with
          | Except.ok codes => do
            modifyWorld fun w2 => { w2 with sonyCodes := mapSet w2.sonyCodes sonyKey codes }
            sonySendPhase tv sonyKey cachedPsk command codes
          | Except.error error =>
            if isSonyAuthError error then do
              clearSonyPsk sonyKey
              pure (createSonyPairingRequiredResult
                (some "Sony authorization expired. Re-enter your TV Pre-Shared Key."))
            else
              pure { ok := false
                     message := "Unable to load Sony remote keys. " ++
                       describeError (some error) }

def isLikelySonyHost (host : String) : TvM Bool := do
  match ← attempt (fetchWithTimeout
      { url := "http://" ++ host ++ ":80/sony/system", method := "POST"
        body := some (ReqBody.sonyRpc "system" "getPowerStatus") }) with
  | Except.error _ => pure false
  | Except.ok response =>
    if response.status = 401 || response.status = 403 then
      pure true
    else if !respOk response && 500 ≤ response.status then
      pure false
    else
      let body := response.raw.jsLower
      pure (strContains body "sony" || strContains body "result" ||
        strContains body "error" || strContains body "illegal request")

/-! ## Vizio adapter (`VizioRemote.ts`) -/

structure VizioKeySpec where
  codeset : Int
  code : Int
  deriving DecidableEq, Repr

def vizioKeyMap : RemoteCommand → Option VizioKeySpec
  | RemoteCommand.power => some { codeset := 11, code := 2 }
  | RemoteCommand.input => some { codeset := 7, code := 1 }
  | RemoteCommand.volumeDown => some { codeset := 5, code := 0 }
  | RemoteCommand.volumeUp => some { codeset := 5, code := 1 }
  | RemoteCommand.mute => some { codeset := 5, code := 4 }
  | RemoteCommand.channelDown => some { codeset := 8, code := 0 }
  | RemoteCommand.channelUp => some { codeset := 8, code := 1 }
  | RemoteCommand.previous => some { codeset := 8, code := 2 }
  | RemoteCommand.digit0 => some { codeset := 0, code := 48 }
  | RemoteCommand.digit1 => some { codeset := 0, code := 49 }
  | RemoteCommand.digit2 => some { codeset := 0, code := 50 }
  | RemoteCommand.digit3 => some { codeset := 0, code := 51 }
  | RemoteCommand.digit4 => some { codeset := 0, code := 52 }
  | RemoteCommand.digit5 => some { codeset := 0, code := 53 }
  | RemoteCommand.digit6 => some { codeset := 0, code := 54 }
  | RemoteCommand.digit7 => some { codeset := 0, code := 55 }
  | RemoteCommand.digit8 => some { codeset := 0, code := 56 }
  | RemoteCommand.digit9 => some { codeset := 0, code := 57 }
  | RemoteCommand.numpadBackspace => some { codeset := 0, code := 8 }
  | RemoteCommand.numpadEnter => some { codeset := 0, code := 13 }
  | _ => none

def getVizioAuthKey (tv : SavedTV) : String := tv.id ++ ":" ++ tv.host.getD ""

def buildVizioBaseUrls (host : String) : List String :=
  ["https://" ++ host ++ ":7345", "https://" ++ host ++ ":9000",
   "http://" ++ host ++ ":7345", "http://" ++ host ++ ":9000"]

def ensureVizioAuthLoaded : TvM Unit := do
  let w ← getWorld
  if w.vizioLoaded then
    pure ()
  else do
    let env ← readEnv
    modifyWorld fun w2 =>
      { w2 with vizioTokens := mergeStored w2.vizioTokens env.storedVizioTokens
                vizioLoaded := true }

/-- `persistVizioAuthTokens`: external `AsyncStorage` write, outside the model. -/
def persistVizioAuthTokens : TvM Unit := tvPure ()

def setVizioAuthToken (vizioKey authToken : String) : TvM Unit := do
  if authToken = "" then
    pure ()
  else do
    let w ← getWorld
    if mapGet w.vizioTokens vizioKey = some authToken then
      pure ()
    else do
      modifyWorld fun w2 => { w2 with vizioTokens := mapSet w2.vizioTokens vizioKey authToken }
      persistVizioAuthTokens

def clearVizioAuthToken (vizioKey : String) : TvM Unit := do
  let w ← getWorld
  let (removed, tokens2) := mapDelete w.vizioTokens vizioKey
  if !removed then
    pure ()
  else do
    modifyWorld fun w2 => { w2 with vizioTokens := tokens2 }
    persistVizioAuthTokens

/-- `toFiniteNumber`: a finite JSON number, or a nonempty numeric string
(numeric strings are modelled at integer precision). -/
def toFiniteNumber (v : Option JsVal) : Option Int :=
  match v with
  | some (JsVal.jnum n) => some n
  | some (JsVal.jstr s) => if s.jsTrim ≠ "" then jsParseInt s.jsTrim else none
  | _ => none

/-- `String(payload?.STATUS?.RESULT ?? "").trim().toUpperCase()`: the `?? ""`
null-coalescing turns both a missing and a JSON-null `RESULT` into `""`. -/
def getVizioStatusResult (payload : Option JsVal) : String :=
  (match jGet (jGet payload "STATUS") "RESULT" with
   | some JsVal.jnull => ""
   | some v => jsToString v
   | none => "").jsTrim.jsUpper

def getVizioStatusDetail (payload : Option JsVal) : String :=
  match jAsStr (jGet (jGet payload "STATUS") "DETAIL") with
  | some raw => raw.jsTrim
  | none => ""

def getVizioItem (payload : Option JsVal) : Option (List (String × JsVal)) :=
  match jGet payload "ITEM" with
  | some (JsVal.jobj fields) => some fields
  | _ => none

def getVizioItemValue (item : Option (List (String × JsVal))) (key : String) :
    Option JsVal :=
  match item with
  | none => none
  | some fields =>
    match mapGet fields key with
    | some v => some v
    | none =>
      let lowered := key.jsLower
      match fields.find? (fun p => p.1.jsLower = lowered) with
      | some p => some p.2
      | none => none

def extractVizioAuthToken (payload : Option JsVal) : Option String :=
  match jAsStr (getVizioItemValue (getVizioItem payload) "AUTH_TOKEN") with
  | some s => if s.jsTrim ≠ "" then some s.jsTrim else none
  | none => none

def extractVizioPairingChallenge (payload : Option JsVal) (fallbackDeviceId : String) :
    Option VizioPairingChallenge :=
  let item := getVizioItem payload
  let pairingReqToken := toFiniteNumber (getVizioItemValue item "PAIRING_REQ_TOKEN")
  let challengeType := toFiniteNumber (getVizioItemValue item "CHALLENGE_TYPE")
  let deviceId :=
    match jAsStr (getVizioItemValue item "DEVICE_ID") with
    | some s => if s.jsTrim ≠ "" then s.jsTrim else fallbackDeviceId
    | none => fallbackDeviceId
  match pairingReqToken, challengeType with
  | some prt, some ct =>
    some { challengeType := ct, pairingReqToken := prt, deviceId := deviceId }
  | _, _ => none

def isVizioPairingRequiredResult (result : String) : Bool :=
  if result = "" then false
  else
    strContains result "PAIR" || strContains result "AUTH" ||
      strContains result "PIN" || strContains result "UNAUTHORIZED"

def createVizioDeviceId (tv : SavedTV) (now : Nat) : String :=
  let raw := String.mk
    (("tvremote-" ++ tv.id).data.filter fun c => c.isAlphanum || c = '_' || c = '-')
  let candidate := String.mk (raw.data.take 40)
  if candidate.length > 0 then candidate else "tvremote-" ++ toString now

/-- The `for (baseUrl of baseUrls)` loop of `vizioPutJson`. -/
def vizioPutLoop (path : String) (body : ReqBody) (authToken : Option String) :
    List String → Option Err → TvM (Option JsVal)
  | [], lastError => throwM (lastError.getD { message := "Vizio adapter failed to connect." })
  | baseUrl :: rest, lastError => do
    let auth := if jsTruthy authToken then authToken else none
    match ← attempt (fetchWithTimeout
        { url := baseUrl ++ path, method := "PUT", auth := auth, body := some body }) with
    | Except.error error => vizioPutLoop path body authToken rest (some error)
    | Except.ok response =>
      if response.raw.jsTrim = "" then
        if respOk response then
          pure none
        else
          vizioPutLoop path body authToken rest
            (some { message := "Vizio endpoint failed (" ++ toString response.status ++ ")." })
      else
        match response.json with
        | some payload => pure (some payload)
        | none =>
          if respOk response then
            pure none
          else
            vizioPutLoop path body authToken rest
              (some { message := "Vizio endpoint returned non-JSON (" ++
                toString response.status ++ ")." })

def vizioPutJson (host path : String) (body : ReqBody) (authToken : Option String) :
    TvM (Option JsVal) :=
  vizioPutLoop path body authToken (buildVizioBaseUrls host) none

def startVizioPairing (tv : SavedTV) : TvM DispatchResult :=
  match hostOf tv with
  | none => tvPure { ok := false, message := "No TV host configured yet." }
  | some host => do
    ensureVizioAuthLoaded
    let vizioKey := getVizioAuthKey tv
    let env ← readEnv
    let deviceId := createVizioDeviceId tv env.now
    match ← attempt (vizioPutJson host "/pairing/start"
        (ReqBody.vizioPairingStart deviceId "TV Remote App") none) with
    | Except.error error =>
      pure { ok := false
             message := "Unable to start Vizio pairing. " ++ describeError (some error) }
    | Except.ok payload =>
      match extractVizioAuthToken payload with
      | some maybeToken => do
        setVizioAuthToken vizioKey maybeToken
        pure { ok := true, message := "Vizio TV paired and authenticated." }
      | none =>
        match extractVizioPairingChallenge payload deviceId with
        | some challenge => do
          modifyWorld fun w2 =>
            { w2 with vizioChallenges := mapSet w2.vizioChallenges vizioKey challenge }
          pure { ok := false
                 message := "Enter the PIN shown on your Vizio TV to finish pairing."
                 pairing := some (RemotePairing.vizio challenge) }
        | none =>
          let result := getVizioStatusResult payload
          let detail := getVizioStatusDetail payload
          pure { ok := false
                 message := "Unable to start Vizio pairing." ++
                   (if result ≠ "" then " Result: " ++ result ++ "." else "") ++
                   (if detail ≠ "" then " " ++ detail else "") }

def completeVizioPairing (tv : SavedTV) (pin : String)
    (challenge : Option VizioPairingChallenge) : TvM DispatchResult :=
  match hostOf tv with
  | none => tvPure { ok := false, message := "No TV host configured yet." }
  | some host =>
    let cleanedPin := pin.jsTrim
    if !(4 ≤ cleanedPin.length && cleanedPin.length ≤ 8 &&
        cleanedPin.data.all Char.isDigit) then
      tvPure { ok := false, message := "Enter a valid numeric PIN from your Vizio TV." }
    else do
      ensureVizioAuthLoaded
      let vizioKey := getVizioAuthKey tv
      let w ← getWorld
      let cachedChallenge := mapGet w.vizioChallenges vizioKey
      let pairingChallenge? :=
        match challenge with
        | some c => some c
        | none => cachedChallenge
      match pairingChallenge? with
      | none =>
        pure { ok := false, message := "No Vizio pairing session found. Start pairing again." }
      | some pairingChallenge =>
        match ← attempt (vizioPutJson host "/pairing/pair"
            (ReqBody.vizioPairingPair pairingChallenge.deviceId
              pairingChallenge.challengeType cleanedPin pairingChallenge.pairingReqToken)
            none) with
        | Except.error error =>
          pure { ok := false, message := "Vizio pairing failed. " ++ describeError (some error) }
        | Except.ok payload =>
          match extractVizioAuthToken payload with
          | some authToken => do
            setVizioAuthToken vizioKey authToken
            modifyWorld fun w2 =>
              { w2 with vizioChallenges := (mapDelete w2.vizioChallenges vizioKey).2 }
            pure { ok := true, message := "Vizio pairing complete." }
          | none =>
            let result := getVizioStatusResult payload
            let detail := getVizioStatusDetail payload
            pure { ok := false
                   message := "Vizio pairing failed." ++
                     (if result ≠ "" then " Result: " ++ result ++ "." else "") ++
                     (if detail ≠ "" then " " ++ detail else "") }

/-- `sendVizioCommand`, with an explicit fuel bounding the
`return sendVizioCommand(tv, command)` self-call.  The recursion happens only
right after `startVizioPairing` succeeded, which always caches a nonempty
token for the same key, so the callee finds a cached token and does not
recurse again: depth 2 reproduces the source behaviour exactly. -/
def sendVizioCommandFuel : Nat → SavedTV → RemoteCommand → TvM DispatchResult
  | 0, _, _ =>
    tvPure { ok := false, message := "Vizio adapter recursion bound exceeded." }
  | Nat.succ fuel, tv, command =>
    match hostOf tv with
    | none => tvPure { ok := false, message := "No TV host configured yet." }
    | some host => do
      ensureVizioAuthLoaded
      let vizioKey := getVizioAuthKey tv
      let w ← getWorld
      let cachedAuthToken := mapGet w.vizioTokens vizioKey
      if !jsTruthy cachedAuthToken then do
        let pairingResult ← startVizioPairing tv
        if pairingResult.ok then
          sendVizioCommandFuel fuel tv command
        else
          pure pairingResult
      else
        match vizioKeyMap command with
        | none => pure { ok := false, message := "This command is not mapped for Vizio yet." }
        | some keySpec => do
          match ← attempt (vizioPutJson host "/key_command/"
              (ReqBody.vizioKeyCommand keySpec.codeset keySpec.code "KEYPRESS")
              cachedAuthToken) with
          | Except.error error =>
            pure { ok := false
                   message := "Unable to send Vizio command. " ++ describeError (some error) }
          | Except.ok payload =>
            let result := getVizioStatusResult payload
            if result = "" || result = "SUCCESS" then
              pure { ok := true, message := "Command sent to Vizio TV." }
            else if isVizioPairingRequiredResult result then do
              clearVizioAuthToken vizioKey
              startVizioPairing tv
            else
              let detail := getVizioStatusDetail payload
              pure { ok := false
                     message := "Vizio rejected command (" ++ result ++
                       (if detail ≠ "" then ": " ++ detail else "") ++ ")." }

def sendVizioCommand (tv : SavedTV) (command : RemoteCommand) : TvM DispatchResult :=
  sendVizioCommandFuel 2 tv command

def isLikelyVizioHost (host : String) : TvM Bool := do
  match ← attempt (fetchWithTimeout
      { url := "http://" ++ host ++ ":7345/state/device/name", method := "GET" }) with
  | Except.ok response => pure (respOk response || response.status = 401)
  | Except.error _ => pure false

/-! ## Dispatch router (`wifiRemote.ts`) -/

/-- Early-return composition used by `sendForOtherTv`: the first argument
models one guarded adapter attempt of the source's early-`return` chain —
`some r` is the early return, `none` falls through to the rest. -/
def orElseResult (m : TvM (Option DispatchResult)) (k : TvM DispatchResult) :
    TvM DispatchResult := do
  match ← m with
  | some r => pure r
  | none => k

/-- The terminal Fire-TV / bridge fallback of `sendForOtherTv`. -/
def otherTvBridgeTail (tv : SavedTV) (command : RemoteCommand) (likelyFireTv : Bool) :
    TvM DispatchResult := do
  let bridgeResult0 : Option DispatchResult ←
    if likelyFireTv then do
      let result ← sendFireTvCommand tv command
      pure (some result)
    else pure none
  match bridgeResult0 with
  | some result =>
    if result.ok then
      pure result
    else
      pure { ok := false
             message := "Unable to send command automatically. " ++ result.message }
  | none => do
    let bridgeResult ← sendBridgeCommand tv command
    if bridgeResult.ok then
      pure bridgeResult
    else
      pure { ok := false
             message := "Unable to send command automatically. " ++ bridgeResult.message }

/-- `sendForOtherTv`: fingerprint the host with every probe concurrently, then
try adapters in the fixed source order with early return, falling back to the
bridge adapter. -/
def sendForOtherTv (tv : SavedTV) (command : RemoteCommand) : TvM DispatchResult :=
  match hostOf tv with
  | none => tvPure { ok := false, message := "No TV host configured yet." }
  | some host => do
    let likelyRoku ← isLikelyRokuHost host
    let likelyLg ← isLikelyLgHost host
    let likelySamsung ← isLikelySamsungHost host
    let likelyVizio ← isLikelyVizioHost host
    let likelySony ← isLikelySonyHost host
    let likelyPhilips ← isLikelyPhilipsHost host
    let likelyPanasonic ← isLikelyPanasonicHost host
    let likelyFireTv ← isLikelyFireTvHost host
    orElseResult
      (if likelyRoku then do
        let result ← sendRokuCommand tv command
        if result.ok then
          pure (some { ok := true, message := "Command sent using Roku protocol." })
        else pure none
      else pure none)
      (orElseResult
        (if likelyLg then do
          let result ← sendLgCommand tv command
          if result.ok then
            pure (some { ok := true, message := "Command sent using LG protocol." })
          else pure none
        else pure none)
        (orElseResult
          (if likelySamsung then do
            let result ← sendSamsungCommand tv command
            if result.ok then
              pure (some { ok := true, message := "Command sent using Samsung protocol." })
            else if result.pairing.isSome then
              pure (some result)
            else pure none
          else pure none)
          (orElseResult
            (if likelyVizio then do
              let result ← sendVizioCommand tv command
              if result.ok || result.pairing.isSome then pure (some result)
              else pure none
            else pure none)
            (orElseResult
              (if likelySony then do
                let result ← sendSonyCommand tv command
                if result.ok || result.pairing.isSome then pure (some result)
                else pure none
              else pure none)
              (orElseResult
                (if likelyPhilips then do
                  let result ← sendPhilipsCommand tv command
                  if result.ok then
                    pure (some { ok := true, message := "Command sent using Philips protocol." })
                  else if result.pairing.isSome then
                    pure (some result)
                  else pure none
                else pure none)
                (orElseResult
                  (if likelyPanasonic then do
                    let result ← sendPanasonicCommand tv command
                    if result.ok then
                      pure (some { ok := true, message := "Command sent using Panasonic protocol." })
                    else if result.pairing.isSome then
                      pure (some result)
                    else pure none
                  else pure none)
                  (otherTvBridgeTail tv command likelyFireTv)))))))

def sendForTcl (tv : SavedTV) (command : RemoteCommand) : TvM DispatchResult := do
  let rokuResult ← sendRokuCommand tv command
  if rokuResult.ok || rokuResult.pairing.isSome then
    pure rokuResult
  else do
    let samsungResult ← sendSamsungCommand tv command
    if samsungResult.ok || samsungResult.pairing.isSome then
      pure samsungResult
    else
      sendBridgeCommand tv command

def dispatchWifiCommand (tv : SavedTV) (command : RemoteCommand) : TvM DispatchResult :=
  match hostOf tv with
  | none => tvPure { ok := false, message := "No TV host configured yet." }
  | some _ =>
    if command = RemoteCommand.numpad then
      tvPure { ok := true, message := "Numpad opened." }
    else
      match tv.brand with
      | TVBrand.samsung => sendSamsungCommand tv command
      | TVBrand.roku => sendRokuCommand tv command
      | TVBrand.lg => sendLgCommand tv command
      | TVBrand.philips => sendPhilipsCommand tv command
      | TVBrand.panasonic => sendPanasonicCommand tv command
      | TVBrand.firetv => sendFireTvCommand tv command
      | TVBrand.vizio => sendVizioCommand tv command
      | TVBrand.sony => sendSonyCommand tv command
      | TVBrand.tcl => sendForTcl tv command
      | TVBrand.other => sendForOtherTv tv command

/-! ## Network discovery scanner (`networkScanner.ts`) -/

inductive DiscSource
  | roku | samsung | sony | chromecast | lg | vizio | philips | panasonic | firetv | bridge
  deriving DecidableEq, Repr

structure DiscoveredTV where
  id : String
  brand : TVBrand
  nickname : String
  host : String
  port : Int
  source : DiscSource
  deriving DecidableEq, Repr

structure ScanOptions where
  prefixes : Option (List String) := none
  hosts : Option (List String) := none
  hostRangeStart : Option Int := none
  hostRangeEnd : Option Int := none
  maxConcurrentHosts : Option Int := none
  /-- `abortSignal`: `none` when no signal was passed; `some b` when a signal
  was passed and was already aborted (`b`) at call time. -/
  abortSignalAborted : Option Bool := none

def defaultScanPrefixes : List String :=
  ["192.168.1", "192.168.0", "192.168.50", "10.0.0", "10.0.1", "172.20.10"]

def defaultHostRangeStart : Int := 1
def defaultHostRangeEnd : Int := 254
def defaultMaxConcurrentHosts : Int := 28

def mapBrand (label : String) : TVBrand :=
  let value := label.jsLower
  if strContains value "samsung" then TVBrand.samsung
  else if strContains value "sony" || strContains value "bravia" then TVBrand.sony
  else if strContains value "roku" then TVBrand.roku
  else if strContains value "panasonic" then TVBrand.panasonic
  else if strContains value "vizio" then TVBrand.vizio
  else if strContains value "tcl" then TVBrand.tcl
  else if strContains value "lg" || strContains value "webos" then TVBrand.lg
  else if strContains value "philips" then TVBrand.philips
  else if strContains value "amazon" || strContains value "fire tv" ||
      strContains value "aft" then TVBrand.firetv
  else TVBrand.other

/-- `isValidPrefix` (renamed): three dot-separated 1-3 digit parts, each ≤ 255. -/
def isValidPrefixStr (pfx : String) : Bool :=
  let parts := splitOnDot pfx
  parts.length = 3 && parts.all fun part =>
    1 ≤ part.length && part.length ≤ 3 && part.data.all Char.isDigit &&
      digitStrToNat part ≤ 255

def extractPrefixFromHost (host : Option String) : Option String :=
  match host with
  | none => none
  | some h =>
    if h = "" then none
    else
      let parts := splitOnDot h
      if parts.length ≠ 4 then none
      else
        let pfx := parts.getD 0 "" ++ "." ++ parts.getD 1 "" ++ "." ++ parts.getD 2 ""
        if isValidPrefixStr pfx then some pfx else none

/-- `getLocalNetworkPrefix` (renamed). -/
def getLocalNetworkPfx (env : Env) : Option String :=
  match extractPrefixFromHost env.localIp with
  | none => none
  | some pfx =>
    if pfx = "0.0.0" || pfx.jsStartsWith "127." then none else some pfx

def normalizePrefixes (env : Env) (prefixes : Option (List String)) : List String :=
  match prefixes with
  | some [] => []
  | _ =>
    let candidate := ((prefixes.getD []).map String.jsTrim).filter (· ≠ "")
    let localPfx := getLocalNetworkPfx env
    let validCandidate := candidate.filter isValidPrefixStr
    if candidate.length > 0 && validCandidate.length > 0 then
      dedupFirst validCandidate
    else
      match localPfx with
      | some p => [p]
      | none => dedupFirst defaultScanPrefixes

def isValidHost (host : String) : Bool :=
  let parts := splitOnDot host
  parts.length = 4 && parts.all fun part =>
    1 ≤ part.length && part.length ≤ 3 && part.data.all Char.isDigit &&
      digitStrToNat part ≤ 255

def normalizeHosts (hosts : Option (List String)) : List String :=
  match hosts with
  | none => []
  | some hs =>
    if hs.isEmpty then []
    else dedupFirst (((hs.map String.jsTrim).filter (· ≠ "")).filter isValidHost)

def clamp (value minV maxV : Int) : Int := max minV (min maxV value)

def buildHosts (prefixes : List String) (hostRangeStart hostRangeEnd : Int) :
    List String :=
  prefixes.flatMap fun pfx =>
    (List.range (hostRangeEnd + 1 - hostRangeStart).toNat).map fun i =>
      pfx ++ "." ++ toString (hostRangeStart + (i : Int))

/-! ### Scanner probes, as pure functions of the environment

Each probe issues only reads and constructs a `DiscoveredTV` from the oracle's
responses, so its value is a pure function of `Env`.  The scan semantics below
records probe issuance as events. -/

def probeRokuPure (env : Env) (host : String) : Option DiscoveredTV :=
  match env.fetch
      { url := "http://" ++ host ++ ":8060/query/device-info", method := "GET" } with
  | Except.error _ => none
  | Except.ok response =>
    if !respOk response then none
    else
      let text := response.raw
      let friendlyName := parseTag text "friendly-device-name"
      let brand := TVBrand.roku
      some { id := "roku-" ++ host, brand := brand
             nickname := jsOr friendlyName ("roku".jsUpper ++ " TV")
             host := host, port := 8060, source := DiscSource.roku }

def probeSamsungPure (env : Env) (host : String) (allowSocketFallback : Bool) :
    Option DiscoveredTV :=
  let fallbackNickname := "Samsung TV (" ++ host ++ ")"
  let firstPhase : Option DiscoveredTV :=
    match env.fetch { url := "http://" ++ host ++ ":8001/api/v2/", method := "GET" } with
    | Except.error _ => none
    | Except.ok response =>
      let text := response.raw
      let deviceName := (jAsStr (jGet (jGet response.json "device") "name")).getD ""
      let modelName := (jAsStr (jGet (jGet response.json "device") "modelName")).getD ""
      let payloadFingerprint := text.jsLower
      let looksSamsungPayload := strContains payloadFingerprint "samsung" ||
        strContains payloadFingerprint "tizen" || strContains payloadFingerprint "smarttv"
      let hasDeviceInfo := deviceName.length > 0 || modelName.length > 0
      if hasDeviceInfo || (response.status < 500 && looksSamsungPayload) then
        some { id := "samsung-" ++ host, brand := TVBrand.samsung
               nickname := jsOrStr deviceName (jsOrStr modelName fallbackNickname)
               host := host, port := 8001, source := DiscSource.samsung }
      else none
  match firstPhase with
  | some tv => some tv
  | none =>
    if !allowSocketFallback then none
    else
      let appName := base64EncodeAscii "PhoneRemote"
      if env.wsProbe ("ws://" ++ host ++
          ":8001/api/v2/channels/samsung.remote.control?name=" ++ appName) then
        some { id := "samsung-" ++ host ++ "-ws8001", brand := TVBrand.samsung
               nickname := fallbackNickname, host := host, port := 8001
               source := DiscSource.samsung }
      else if env.wsProbe ("wss://" ++ host ++
          ":8002/api/v2/channels/samsung.remote.control?name=" ++ appName) then
        some { id := "samsung-" ++ host ++ "-ws8002", brand := TVBrand.samsung
               nickname := fallbackNickname, host := host, port := 8002
               source := DiscSource.samsung }
      else none

def probeSonyPure (env : Env) (host : String) : Option DiscoveredTV :=
  match env.fetch
      { url := "http://" ++ host ++ ":80/sony/system", method := "POST"
        body := some (ReqBody.sonyRpc "system" "getSystemInformation") } with
  | Except.error _ => none
  | Except.ok response =>
    let body := response.raw
    let normalized := body.jsLower
    if response.status = 401 || response.status = 403 then
      some { id := "sony-" ++ host ++ "-auth", brand := TVBrand.sony
             nickname := "Sony TV (" ++ host ++ ")", host := host, port := 80
             source := DiscSource.sony }
    else if !respOk response && 500 ≤ response.status then none
    else
      let info := jIdx (jGet response.json "result") 0
      let label := String.intercalate " "
        ([jAsStr (jGet info "model"), jAsStr (jGet info "product"),
          jAsStr (jGet info "generation")].filterMap fun o =>
          match o with
          | some s => if s.jsTrim.length > 0 then some s else none
          | none => none)
      let nickname := if label ≠ "" then label else "Sony TV (" ++ host ++ ")"
      let looksSony := strContains normalized "sony" || strContains normalized "bravia" ||
        strContains normalized "illegal request" ||
        strContains normalized "\"result\"" || strContains normalized "\"error\""
      if !looksSony then none
      else
        some { id := "sony-" ++ host, brand := TVBrand.sony, nickname := nickname
               host := host, port := 80, source := DiscSource.sony }

def probeLGPure (env : Env) (host : String) (allowSocketProbe : Bool) :
    Option DiscoveredTV :=
  let firstPhase : Option DiscoveredTV :=
    match env.fetch { url := "http://" ++ host ++ ":3000/", method := "GET" } with
    | Except.error _ => none
    | Except.ok response =>
      if respOk response || response.status < 500 then
        some { id := "lg-" ++ host ++ "-http3000", brand := TVBrand.lg
               nickname := "LG TV (" ++ host ++ ")", host := host, port := 3000
               source := DiscSource.lg }
      else none
  match firstPhase with
  | some tv => some tv
  | none =>
    if !allowSocketProbe then none
    else if env.wsProbe ("ws://" ++ host ++ ":3000") then
      some { id := "lg-" ++ host ++ "-ws3000", brand := TVBrand.lg
             nickname := "LG TV (" ++ host ++ ")", host := host, port := 3000
             source := DiscSource.lg }
    else if env.wsProbe ("wss://" ++ host ++ ":3001") then
      some { id := "lg-" ++ host ++ "-ws3001", brand := TVBrand.lg
             nickname := "LG TV (" ++ host ++ ")", host := host, port := 3001
             source := DiscSource.lg }
    else none

def probeVizioPure (env : Env) (host : String) : Option DiscoveredTV :=
  match env.fetch
      { url := "http://" ++ host ++ ":7345/state/device/name", method := "GET" } with
  | Except.error _ => none
  | Except.ok response =>
    if !respOk response && response.status ≠ 401 then none
    else
      let label :=
        match jAsStr (jGet (jGet (jGet response.json "ITEM") "VALUE") "NAME") with
        | some candidate => if candidate.jsTrim.length > 0 then candidate.jsTrim else "VIZIO TV"
        | none => "VIZIO TV"
      some { id := "vizio-" ++ host, brand := TVBrand.vizio, nickname := label
             host := host, port := 7345, source := DiscSource.vizio }

def probePhilipsLoopPure (env : Env) (host : String) : List String → Option DiscoveredTV
  | [] => none
  | endpoint :: rest =>
    match env.fetch { url := endpoint, method := "GET" } with
    | Except.error _ => probePhilipsLoopPure env host rest
    | Except.ok response =>
      let body := response.raw
      let normalized := body.jsLower
      if response.status = 401 || response.status = 403 then
        some { id := "philips-" ++ host ++ "-auth", brand := TVBrand.philips
               nickname := "Philips TV (" ++ host ++ ")", host := host, port := 1925
               source := DiscSource.philips }
      else if !respOk response && 500 ≤ response.status then
        probePhilipsLoopPure env host rest
      else
        let label := String.intercalate " "
          ([jAsStr (jGet response.json "name"), jAsStr (jGet response.json "model")].filterMap
            fun o =>
            match o with
            | some s => if s.jsTrim.length > 0 then some s else none
            | none => none)
        let nickname := if label ≠ "" then label else "Philips TV (" ++ host ++ ")"
        let looksPhilips := strContains normalized "philips" ||
          strContains normalized "jointspace" || strContains normalized "ambilight" ||
          strContains normalized "featuring"
        if !looksPhilips then probePhilipsLoopPure env host rest
        else
          some { id := "philips-" ++ host, brand := TVBrand.philips, nickname := nickname
                 host := host, port := 1925, source := DiscSource.philips }

def probePhilipsPure (env : Env) (host : String) : Option DiscoveredTV :=
  probePhilipsLoopPure env host
    ["http://" ++ host ++ ":1925/6/system", "http://" ++ host ++ ":1925/1/system"]

def probePanasonicLoopPure (env : Env) (host : String) : List String → Option DiscoveredTV
  | [] => none
  | endpoint :: rest =>
    match env.fetch { url := endpoint, method := "GET" } with
    | Except.error _ => probePanasonicLoopPure env host rest
    | Except.ok response =>
      let body := response.raw
      let normalized := body.jsLower
      if response.status = 401 || response.status = 403 then
        some { id := "panasonic-" ++ host ++ "-auth", brand := TVBrand.panasonic
               nickname := "Panasonic TV (" ++ host ++ ")", host := host, port := 55000
               source := DiscSource.panasonic }
      else if !respOk response && 500 ≤ response.status then
        probePanasonicLoopPure env host rest
      else
        let friendlyName := parseTag body "friendlyName"
        let modelName := parseTag body "modelName"
        let nickname := jsOr friendlyName (jsOr modelName ("Panasonic TV (" ++ host ++ ")"))
        let looksPanasonic := strContains normalized "panasonic" ||
          strContains normalized "viera" || strContains normalized "p00networkcontrol" ||
          strContains normalized "x_sendkey"
        if !looksPanasonic then probePanasonicLoopPure env host rest
        else
          some { id := "panasonic-" ++ host, brand := TVBrand.panasonic
                 nickname := nickname, host := host, port := 55000
                 source := DiscSource.panasonic }

def probePanasonicPure (env : Env) (host : String) : Option DiscoveredTV :=
  probePanasonicLoopPure env host
    ["http://" ++ host ++ ":55000/nrc/sdd_0.xml", "http://" ++ host ++ ":55000/nrc/ddd.xml"]

def probeFireTvPure (env : Env) (host : String) : Option DiscoveredTV :=
  match env.fetch
      { url := "http://" ++ host ++ ":8009/ssdp/device-desc.xml", method := "GET" } with
  | Except.error _ => none
  | Except.ok response =>
    if !respOk response then none
    else
      let xml := response.raw
      let manufacturer := (parseTag xml "manufacturer").getD ""
      let modelName := (parseTag xml "modelName").getD ""
      let friendlyName := (parseTag xml "friendlyName").getD ""
      let merged := (manufacturer ++ " " ++ modelName ++ " " ++ friendlyName).jsLower
      let looksFireTv := strContains merged "amazon" || strContains merged "fire tv" ||
        (modelName.jsTrim.jsLower).jsStartsWith "aft"
      if !looksFireTv then none
      else
        some { id := "firetv-" ++ host, brand := TVBrand.firetv
               nickname := jsOrStr friendlyName (jsOrStr modelName ("Fire TV (" ++ host ++ ")"))
               host := host, port := 8009, source := DiscSource.firetv }

def probeChromecastPure (env : Env) (host : String) : Option DiscoveredTV :=
  match env.fetch
      { url := "http://" ++ host ++ ":8008/setup/eureka_info", method := "GET" } with
  | Except.error _ => none
  | Except.ok response =>
    if !respOk response then none
    else
      let manufacturer := (jAsStr (jGet (jGet response.json "device_info") "manufacturer")).getD ""
      let modelName := (jAsStr (jGet (jGet response.json "device_info") "model_name")).getD ""
      let merged := manufacturer ++ " " ++ modelName
      some { id := "cast-" ++ host, brand := mapBrand merged
             nickname := jsOr (jAsStr (jGet response.json "name")) (jsOrStr modelName "Cast TV")
             host := host, port := 8008, source := DiscSource.chromecast }

def probeBridgePure (env : Env) (host : String) : Option DiscoveredTV :=
  match env.fetch { url := "http://" ++ host ++ ":8080/remote/ping", method := "GET" } with
  | Except.error _ => none
  | Except.ok response =>
    if !respOk response then none
    else
      some { id := "bridge-" ++ host, brand := TVBrand.other
             nickname := "TV Bridge (" ++ host ++ ")", host := host, port := 8080
             source := DiscSource.bridge }

/-- `probeHost`: all ten probes race (`Promise.all`); the first non-null result
in array order wins.  Each probe's value depends only on the environment, so the
combined value is deterministic. -/
def probeHostPure (env : Env) (host : String) (allowSamsungSocketFallback : Bool) :
    Option DiscoveredTV :=
  [probeRokuPure env host,
   probeSamsungPure env host allowSamsungSocketFallback,
   probeSonyPure env host,
   probeLGPure env host allowSamsungSocketFallback,
   probeVizioPure env host,
   probePhilipsPure env host,
   probePanasonicPure env host,
   probeFireTvPure env host,
   probeChromecastPure env host,
   probeBridgePure env host].findSome? id

def genericProbePorts : List Int :=
  [80, 10000, 1925, 3000, 3001, 7345, 8008, 8009, 8001, 8002, 8060, 8080, 55000]

def probeGenericLoopPure (env : Env) (host : String) : List Int → Option DiscoveredTV
  | [] => none
  | port :: rest =>
    match env.fetch { url := "http://" ++ host ++ ":" ++ toString port ++ "/", method := "GET" } with
    | Except.error _ => probeGenericLoopPure env host rest
    | Except.ok _ =>
      some { id := "generic-" ++ host ++ "-" ++ toString port, brand := TVBrand.other
             nickname := "Potential TV (" ++ host ++ ")", host := host, port := port
             source := DiscSource.bridge }

/-- `probeGenericHost`: the first port whose request resolves at all yields an
unknown-TV candidate. -/
def probeGenericHostPure (env : Env) (host : String) : Option DiscoveredTV :=
  probeGenericLoopPure env host genericProbePorts

/-! ### Worker-pool semantics of `scanNetworkForTVs`

The scan spawns `concurrency` copies of `worker()` pulling from the shared
`cursor`.  JavaScript's event loop interleaves the workers only at `await`
points; in particular the read of `cursor` and its increment are one atomic
step (no `await` between them), and so are the found-check plus dedup-push
right after a probe resolves.  The semantics below is a small-step machine over
one state, driven by an arbitrary schedule: each `work i` item lets worker `i`
run from its current phase to its next `await` point; `abortSig` models the
external abort signal firing.  Probe issuance is recorded as events. -/

inductive WPhase
  | idle
  | probing (host : String)
  | genericProbing (host : String)
  | done
  deriving DecidableEq, Repr

structure ScanState where
  cursor : Nat
  discovered : List DiscoveredTV
  seen : List String
  aborted : Bool
  workers : List WPhase
  deriving DecidableEq, Repr

inductive ProbeEvent
  | probeIssued (host : String)
  | genericIssued (host : String)
  deriving DecidableEq, Repr

inductive SchedItem
  | work (i : Nat)
  | abortSig
  deriving DecidableEq, Repr

/-- One step of worker `i`, from its phase to its next `await` point:
* `idle`: the `while` head — exit when the cursor is exhausted, return when
  aborted, otherwise take `hosts[cursor]`, advance the cursor and start
  `probeHost` (skipping a falsy host);
* `probing h`: `probeHost` resolved — push the find unless its host was seen,
  else fall through to `probeGenericHost` for explicit hosts (which checks the
  abort signal on entry and issues nothing when aborted);
* `genericProbing h`: `probeGenericHost` resolved — push unless seen. -/
def workerStep (probe generic : String → Option DiscoveredTV) (isExplicit : String → Bool)
    (hosts : List String) (s : ScanState) (i : Nat) : ScanState × List ProbeEvent :=
  match s.workers.get? i with
  | none => (s, [])
  | some WPhase.done => (s, [])
  | some WPhase.idle =>
    if s.cursor < hosts.length then
      if s.aborted then
        ({ s with workers := s.workers.set i WPhase.done }, [])
      else
        let host := (hosts.get? s.cursor).getD ""
        if host = "" then
          ({ s with cursor := s.cursor + 1 }, [])
        else
          ({ s with cursor := s.cursor + 1
                    workers := s.workers.set i (WPhase.probing host) },
           [ProbeEvent.probeIssued host])
    else
      ({ s with workers := s.workers.set i WPhase.done }, [])
  | some (WPhase.probing host) =>
    match probe host with
    | some found =>
      if found.host ∈ s.seen then
        ({ s with workers := s.workers.set i WPhase.idle }, [])
      else
        ({ s with seen := s.seen ++ [found.host]
                  discovered := s.discovered ++ [found]
                  workers := s.workers.set i WPhase.idle }, [])
    | none =>
      if isExplicit host then
        if s.aborted then
          ({ s with workers := s.workers.set i WPhase.idle }, [])
        else
          ({ s with workers := s.workers.set i (WPhase.genericProbing host) },
           [ProbeEvent.genericIssued host])
      else
        ({ s with workers := s.workers.set i WPhase.idle }, [])
  | some (WPhase.genericProbing host) =>
    match generic host with
    | some found =>
      if found.host ∈ s.seen then
        ({ s with workers := s.workers.set i WPhase.idle }, [])
      else
        ({ s with seen := s.seen ++ [found.host]
                  discovered := s.discovered ++ [found]
                  workers := s.workers.set i WPhase.idle }, [])
    | none => ({ s with workers := s.workers.set i WPhase.idle }, [])

def scanStep (probe generic : String → Option DiscoveredTV) (isExplicit : String → Bool)
    (hosts : List String) (s : ScanState) : SchedItem → ScanState × List ProbeEvent
  | SchedItem.work i => workerStep probe generic isExplicit hosts s i
  | SchedItem.abortSig => ({ s with aborted := true }, [])

def runSched (probe generic : String → Option DiscoveredTV) (isExplicit : String → Bool)
    (hosts : List String) : List SchedItem → ScanState → ScanState × List ProbeEvent
  | [], s => (s, [])
  | item :: rest, s =>
    let (s2, evs) := scanStep probe generic isExplicit hosts s item
    let (s3, evs2) := runSched probe generic isExplicit hosts rest s2
    (s3, evs ++ evs2)

def initScanState (concurrency : Nat) (initialAborted : Bool) : ScanState :=
  { cursor := 0, discovered := [], seen := [], aborted := initialAborted
    workers := List.replicate concurrency WPhase.idle }

def allDoneB (s : ScanState) : Bool := s.workers.all (· = WPhase.done)

/-! ### Tying the semantics to `scanNetworkForTVs` option handling -/

def scanExplicitHosts (options : ScanOptions) : List String := normalizeHosts options.hosts

def scanRangeStart (options : ScanOptions) : Int :=
  clamp (options.hostRangeStart.getD defaultHostRangeStart) 1 254

def scanRangeEnd (options : ScanOptions) : Int :=
  clamp (options.hostRangeEnd.getD defaultHostRangeEnd) (scanRangeStart options) 254

def scanConcurrency (options : ScanOptions) : Int :=
  clamp (options.maxConcurrentHosts.getD defaultMaxConcurrentHosts) 8 128

/-- `hosts = [...new Set([...explicitHosts, ...rangedHosts])]`. -/
def scanHostList (env : Env) (options : ScanOptions) : List String :=
  dedupFirst (scanExplicitHosts options ++
    buildHosts (normalizePrefixes env options.prefixes) (scanRangeStart options)
      (scanRangeEnd options))

def scanIsExplicit (options : ScanOptions) (host : String) : Bool :=
  decide (host ∈ scanExplicitHosts options)

/-- The per-host worker probe (`probeHost(host, abortSignal, isExplicitHost)`). -/
def scanProbeFn (env : Env) (options : ScanOptions) (host : String) : Option DiscoveredTV :=
  probeHostPure env host (scanIsExplicit options host)

/-- A whole scan run with worker-pool size `concurrency`, driven by `schedule`. -/
def scanRunN (env : Env) (options : ScanOptions) (concurrency : Nat)
    (schedule : List SchedItem) : ScanState × List ProbeEvent :=
  runSched (scanProbeFn env options) (probeGenericHostPure env)
    (scanIsExplicit options) (scanHostList env options) schedule
    (initScanState concurrency (options.abortSignalAborted = some true))

/-- `scanNetworkForTVs` proper: the pool size is the clamped
`maxConcurrentHosts`, and the returned list is `discovered` once all workers
finished. -/
def scanRun (env : Env) (options : ScanOptions) (schedule : List SchedItem) :
    ScanState × List ProbeEvent :=
  scanRunN env options (scanConcurrency options).toNat schedule

/-! ## Association-list lemmas for the JS `Map` model -/

theorem find?_replace_self {β : Type} (m : List (String × β)) (k : String) (v : β)
    (h : m.any (fun p => p.1 = k) = true) :
    (m.map (fun p => if p.1 = k then (k, v) else p)).find? (fun p => decide (p.1 = k)) =
      some (k, v) := by
  induction m with
  | nil => simp at h
  | cons a as ih =>
    simp only [List.any_cons, Bool.or_eq_true, decide_eq_true_eq] at h
    by_cases ha : a.1 = k
    · simp only [List.map_cons, if_pos ha]
      rw [List.find?_cons_of_pos]
      simp
    · simp only [List.map_cons, if_neg ha]
      rw [List.find?_cons_of_neg]
      · apply ih
        rcases h with h1 | h2
        · exact absurd h1 ha
        · simpa using h2
      · simpa using ha

theorem find?_replace_ne {β : Type} (m : List (String × β)) (k k' : String) (v : β)
    (hne : k' ≠ k) :
    (m.map (fun p => if p.1 = k then (k, v) else p)).find? (fun p => decide (p.1 = k')) =
      m.find? (fun p => decide (p.1 = k')) := by
  induction m with
  | nil => rfl
  | cons a as ih =>
    by_cases ha : a.1 = k
    · simp only [List.map_cons, if_pos ha]
      rw [List.find?_cons_of_neg, List.find?_cons_of_neg, ih]
      · simp [ha, Ne.symm hne]
      · simp [Ne.symm hne]
    · simp only [List.map_cons, if_neg ha]
      by_cases hk' : a.1 = k'
      · rw [List.find?_cons_of_pos, List.find?_cons_of_pos] <;> simp [hk']
      · rw [List.find?_cons_of_neg, List.find?_cons_of_neg, ih] <;> simp [hk']

theorem mapGet_mapSet_self {β : Type} (m : List (String × β)) (k : String) (v : β) :
    mapGet (mapSet m k v) k = some v := by
  unfold mapGet mapSet
  by_cases h : m.any (fun p => p.1 = k)
  · simp only [if_pos h]
    rw [find?_replace_self m k v h]
    rfl
  · simp only [if_neg h]
    have hnone : m.find? (fun p => decide (p.1 = k)) = none := by
      rw [List.find?_eq_none]
      intro p hp hpk
      exact h (List.any_of_mem hp hpk)
    rw [List.find?_append, hnone]
    simp

theorem mapGet_mapSet_ne {β : Type} (m : List (String × β)) (k k' : String) (v : β)
    (hne : k' ≠ k) : mapGet (mapSet m k v) k' = mapGet m k' := by
  unfold mapGet mapSet
  by_cases h : m.any (fun p => p.1 = k)
  · simp only [if_pos h]
    rw [find?_replace_ne m k k' v hne]
  · simp only [if_neg h]
    rw [List.find?_append]
    have : List.find? (fun p => decide (p.1 = k')) [(k, v)] = none := by
      simp [Ne.symm hne]
    rw [this]
    simp

theorem find?_filter_ne {β : Type} (m : List (String × β)) (k k' : String)
    (hne : k' ≠ k) :
    (m.filter (fun p => p.1 ≠ k)).find? (fun p => decide (p.1 = k')) =
      m.find? (fun p => decide (p.1 = k')) := by
  induction m with
  | nil => rfl
  | cons a as ih =>
    by_cases ha : a.1 = k
    · have hak' : ¬ a.1 = k' := fun hh => hne (hh.symm.trans ha)
      have hdrop : (a :: as).filter (fun p => decide (p.1 ≠ k)) =
          as.filter (fun p => decide (p.1 ≠ k)) := by
        simp [List.filter_cons, ha]
      rw [hdrop, ih, List.find?_cons_of_neg]
      simpa using hak'
    · have hkeep : (a :: as).filter (fun p => decide (p.1 ≠ k)) =
          a :: as.filter (fun p => decide (p.1 ≠ k)) := by
        simp [List.filter_cons, ha]
      rw [hkeep]
      by_cases hk' : a.1 = k'
      · rw [List.find?_cons_of_pos, List.find?_cons_of_pos] <;> simp [hk']
      · rw [List.find?_cons_of_neg, List.find?_cons_of_neg, ih] <;> simp [hk']

theorem mapGet_mapDelete_self {β : Type} (m : List (String × β)) (k : String) :
    mapGet (mapDelete m k).2 k = none := by
  unfold mapGet mapDelete
  have hnone : List.find? (fun p => decide (p.1 = k)) (m.filter (fun p => p.1 ≠ k)) = none := by
    rw [List.find?_eq_none]
    intro p hp hpk
    have := List.of_mem_filter hp
    simp at this
    exact this (by simpa using hpk)
  rw [hnone]
  rfl

theorem mapGet_mapDelete_ne {β : Type} (m : List (String × β)) (k k' : String)
    (hne : k' ≠ k) : mapGet (mapDelete m k).2 k' = mapGet m k' := by
  unfold mapGet mapDelete
  rw [find?_filter_ne m k k' hne]

/-! ## Shared concrete fixtures for witnesses -/

/-- An environment in which every network operation fails ("offline"). -/
def envOffline : Env :=
  { fetch := fun _ => Except.error (Err.mk "offline" false)
    samsungSocket := fun _ => Except.error (Err.mk "offline" false)
    lgSocket := fun _ => Except.error (Err.mk "offline" false)
    native := fun _ => Except.error (Err.mk "offline" false) }

/-- Fresh module state with every cache already loaded (steady state after the
first `ensure*Loaded` with empty persisted stores). -/
def worldLoaded : World :=
  { samsungAuthLoaded := true, lgLoaded := true, sonyLoaded := true, vizioLoaded := true }

/-! ## Claim C10 -/

/-- Claim C10: for every profile, `dispatchWifiCommand` with the command
`numpad` short-circuits before any brand adapter is consulted: with no host it
returns the no-host failure, otherwise `ok` with "Numpad opened."; in both
cases the world (trace and every credential cache) is returned unchanged, so no
network I/O happens and no cache is touched, regardless of brand. -/
theorem numpad_short_circuit (env : Env) (w : World) (tv : SavedTV) :
    (hostOf tv = none →
      dispatchWifiCommand tv RemoteCommand.numpad env w =
        (Except.ok (DispatchResult.mk false "No TV host configured yet." none), w)) ∧
    (∀ h, hostOf tv = some h →
      dispatchWifiCommand tv RemoteCommand.numpad env w =
        (Except.ok (DispatchResult.mk true "Numpad opened." none), w)) := by
  constructor
  · intro hh
    simp [dispatchWifiCommand, hh, tvPure]
  · intro h hh
    simp [dispatchWifiCommand, hh, tvPure]

/-- Witness for C10 at a concrete Vizio profile in the offline environment. -/
theorem numpad_short_circuit_witness :
    hostOf (SavedTV.mk "tv1" "Den" TVBrand.vizio (some "192.168.1.50") none) =
        some "192.168.1.50" ∧
    dispatchWifiCommand (SavedTV.mk "tv1" "Den" TVBrand.vizio (some "192.168.1.50") none)
        RemoteCommand.numpad envOffline worldLoaded =
      (Except.ok (DispatchResult.mk true "Numpad opened." none), worldLoaded) :=
  ⟨rfl,
   (numpad_short_circuit envOffline worldLoaded
      (SavedTV.mk "tv1" "Den" TVBrand.vizio (some "192.168.1.50") none)).2
     "192.168.1.50" rfl⟩

/-! ## Claim C6 -/

def rokuReqFor (host rokuKey : String) : HttpReq :=
  { url := "http://" ++ host ++ ":8060/keypress/" ++ encodeURIComponent rokuKey,
    method := "POST" }

/-- Full behaviour of `sendRokuCommand` on a configured host and mapped key:
exactly one keypress POST is issued, and the result is classified by the
response status. -/
theorem sendRoku_run (env : Env) (w : World) (tv : SavedTV) (command : RemoteCommand)
    (host rokuKey : String) (hhost : hostOf tv = some host)
    (hkey : rokuKeyMap command = some rokuKey) :
    sendRokuCommand tv command env w =
      (match env.fetch (rokuReqFor host rokuKey) with
       | Except.ok response =>
         if !respOk response then
           Except.ok (DispatchResult.mk false
             ("Roku rejected command (" ++ toString response.status ++ ").") none)
         else
           Except.ok (DispatchResult.mk true "Command sent to Roku TV." none)
       | Except.error error =>
         Except.ok (DispatchResult.mk false
           ("Unable to send Roku command. " ++ describeError (some error)) none),
       { w with trace := w.trace ++ [NetOp.http (rokuReqFor host rokuKey)] }) := by
  simp only [sendRokuCommand, hhost, hkey]
  simp only [tv_bind_eq, tvBind, tv_pure_eq, tvPure, attempt, fetchWithTimeout, rokuReqFor]
  cases hfetch : env.fetch
      { url := "http://" ++ host ++ ":8060/keypress/" ++ encodeURIComponent rokuKey,
        method := "POST" } with
  | ok response =>
    by_cases hok : respOk response
    · simp [hok, tvPure]
    · simp [hok, tvPure]
  | error e => simp [tvPure]

def rokuKeypressReq : HttpReq :=
  { url := "http://10.0.0.12:8060/keypress/VolumeUp", method := "POST" }

/-- Claim C6: for the profile `{brand: roku, host: "10.0.0.12", port: 8060}`
and command `volumeUp`, the adapter issues exactly one keypress request to
`http://10.0.0.12:8060/keypress/VolumeUp`; a non-2xx response yields `ok:false`
with the numeric status code embedded in the message, and a 2xx response yields
`ok:true`. -/
theorem roku_volumeUp_scenario (env : Env) (w : World) (tvId nickname : String) :
    ((sendRokuCommand
        (SavedTV.mk tvId nickname TVBrand.roku (some "10.0.0.12") (some 8060))
        RemoteCommand.volumeUp env w).2.trace
      = w.trace ++ [NetOp.http rokuKeypressReq]) ∧
    (∀ resp, env.fetch rokuKeypressReq = Except.ok resp →
      (respOk resp = false →
        (sendRokuCommand
            (SavedTV.mk tvId nickname TVBrand.roku (some "10.0.0.12") (some 8060))
            RemoteCommand.volumeUp env w).1 =
          Except.ok (DispatchResult.mk false
            ("Roku rejected command (" ++ toString resp.status ++ ").") none)) ∧
      (respOk resp = true →
        (sendRokuCommand
            (SavedTV.mk tvId nickname TVBrand.roku (some "10.0.0.12") (some 8060))
            RemoteCommand.volumeUp env w).1 =
          Except.ok (DispatchResult.mk true "Command sent to Roku TV." none))) := by
  have hreq : rokuReqFor "10.0.0.12" "VolumeUp" = rokuKeypressReq := by decide
  have hrun := sendRoku_run env w
    (SavedTV.mk tvId nickname TVBrand.roku (some "10.0.0.12") (some 8060))
    RemoteCommand.volumeUp "10.0.0.12" "VolumeUp" rfl rfl
  rw [hreq] at hrun
  refine ⟨?_, ?_⟩
  · rw [hrun]
  · intro resp hfetch
    constructor
    · intro hnok
      rw [hrun, hfetch]
      simp [hnok]
    · intro hok
      rw [hrun, hfetch]
      simp [hok]

/-- Concrete scan of C6: a 503 answer. -/
def envRoku503 : Env :=
  { envOffline with
    fetch := fun req =>
      if req = rokuKeypressReq then Except.ok (HttpResp.mk 503 "" none)
      else Except.error (Err.mk "offline" false) }

/-- Witness for C6: against a server answering 503, the dispatch returns
`ok:false` with the status embedded, and exactly one request was issued. -/
theorem roku_volumeUp_scenario_witness :
    envRoku503.fetch rokuKeypressReq = Except.ok (HttpResp.mk 503 "" none) ∧
    respOk (HttpResp.mk 503 "" none) = false ∧
    (sendRokuCommand (SavedTV.mk "r1" "Roku" TVBrand.roku (some "10.0.0.12") (some 8060))
        RemoteCommand.volumeUp envRoku503 worldLoaded).1 =
      Except.ok (DispatchResult.mk false
        ("Roku rejected command (" ++ toString (503 : Nat) ++ ").") none) := by
  have hf : envRoku503.fetch rokuKeypressReq = Except.ok (HttpResp.mk 503 "" none) := by
    simp [envRoku503]
  exact ⟨hf, rfl,
    ((roku_volumeUp_scenario envRoku503 worldLoaded "r1" "Roku").2
      (HttpResp.mk 503 "" none) hf).1 rfl⟩

/-! ## Claim C4 -/

theorem string_append_left_cancel {a b c : String} (h : a ++ b = a ++ c) : b = c := by
  have hdata : (a ++ b).data = (a ++ c).data := by rw [h]
  rw [String.data_append, String.data_append] at hdata
  exact String.ext (List.append_cancel_left hdata)

/-- Behaviour of `setVizioAuthToken` on a nonempty token: it succeeds, and the
token is readable back under the same key. -/
theorem setVizioAuthToken_roundtrip (env : Env) (w : World) (key token : String)
    (htok : token ≠ "") :
    (setVizioAuthToken key token env w).1 = Except.ok () ∧
    mapGet (setVizioAuthToken key token env w).2.vizioTokens key = some token := by
  simp only [setVizioAuthToken, tv_bind_eq, tvBind, tv_pure_eq, tvPure, getWorld,
    modifyWorld, persistVizioAuthTokens, if_neg htok]
  by_cases hc : mapGet w.vizioTokens key = some token
  · simp [hc, tvPure, tvBind, modifyWorld]
  · simp [hc, tvPure, tvBind, modifyWorld, mapGet_mapSet_self]

/-- `setVizioAuthToken` under one key does not touch any other key. -/
theorem setVizioAuthToken_other (env : Env) (w : World) (key key' token : String)
    (hne : key' ≠ key) :
    mapGet (setVizioAuthToken key token env w).2.vizioTokens key' =
      mapGet w.vizioTokens key' := by
  by_cases htok : token = ""
  · simp [setVizioAuthToken, htok, tvPure]
  · simp only [setVizioAuthToken, tv_bind_eq, tvBind, tv_pure_eq, tvPure, getWorld,
      modifyWorld, persistVizioAuthTokens, if_neg htok]
    by_cases hc : mapGet w.vizioTokens key = some token
    · simp [hc, tvPure, tvBind, modifyWorld]
    · simp [hc, tvPure, tvBind, modifyWorld, mapGet_mapSet_ne _ _ _ _ hne]

/-- Claim C4: credential-cache round trip.  (1) The cache key of every brand
cache is exactly `"<profileId>:<host>"`.  (2) Storing a nonempty credential
(Vizio token, Sony PSK, Samsung token and certificate fingerprint, LG client
key at the `Map.set` level) under a key and loading it under the same key
yields the stored value.  (3) For two profiles identical except in host, a
Vizio token stored under one is not found under the other: the lookup is
exactly what it was before the store (a miss on a fresh cache). -/
theorem credential_cache_roundtrip :
    (∀ (tv : SavedTV) (h : String), tv.host = some h →
      getVizioAuthKey tv = tv.id ++ ":" ++ h ∧
      getSonyAuthKey tv = tv.id ++ ":" ++ h ∧
      getSamsungTokenKey tv = tv.id ++ ":" ++ h ∧
      getLgClientKeyKey tv = tv.id ++ ":" ++ h) ∧
    (∀ (env : Env) (w : World) (key token : String), token ≠ "" →
      (setVizioAuthToken key token env w).1 = Except.ok () ∧
      mapGet (setVizioAuthToken key token env w).2.vizioTokens key = some token) ∧
    (∀ (env : Env) (w : World) (key psk : String), psk ≠ "" →
      mapGet (setSonyPsk key psk env w).2.sonyPsk key = some psk) ∧
    (∀ (env : Env) (w : World) (key token cert : String), token ≠ "" → cert ≠ "" →
      mapGet (upsertSamsungAuth key (some token) (some cert) env w).2.samsungTokens key =
          some token ∧
      mapGet (upsertSamsungAuth key (some token) (some cert) env w).2.samsungCerts key =
          some cert) ∧
    (∀ (m : List (String × String)) (key clientKey : String),
      mapGet (mapSet m key clientKey) key = some clientKey) ∧
    (∀ (env : Env) (w : World) (tv : SavedTV) (h h' token : String),
      tv.host = some h → h' ≠ h → token ≠ "" →
      mapGet w.vizioTokens (getVizioAuthKey { tv with host := some h' }) = none →
      mapGet (setVizioAuthToken (getVizioAuthKey tv) token env w).2.vizioTokens
        (getVizioAuthKey { tv with host := some h' }) = none) := by
  refine ⟨?_, ?_, ?_, ?_, ?_, ?_⟩
  · intro tv h hh
    refine ⟨?_, ?_, ?_, ?_⟩ <;>
      simp [getVizioAuthKey, getSonyAuthKey, getSamsungTokenKey, getLgClientKeyKey, hh]
  · exact fun env w key token htok => setVizioAuthToken_roundtrip env w key token htok
  · intro env w key psk hpsk
    simp only [setSonyPsk, tv_bind_eq, tvBind, tv_pure_eq, tvPure, getWorld,
      modifyWorld, persistSonyAuthTokens, if_neg hpsk]
    by_cases hc : mapGet w.sonyPsk key = some psk
    · simp [hc, tvPure, tvBind, modifyWorld]
    · simp [hc, tvPure, tvBind, modifyWorld, mapGet_mapSet_self]
  · intro env w key token cert htok hcert
    simp only [upsertSamsungAuth, tv_bind_eq, tvBind, tv_pure_eq, tvPure, getWorld,
      modifyWorld, persistSamsungAuthCache]
    constructor
    · by_cases hc : mapGet w.samsungTokens key = some token
      · simp [htok, hc, tvPure, tvBind, modifyWorld, getWorld]
      · simp [htok, hc, tvPure, tvBind, modifyWorld, getWorld, mapGet_mapSet_self]
    · by_cases hc : mapGet w.samsungCerts key = some cert
      · by_cases hc2 : mapGet w.samsungTokens key = some token
        · simp [htok, hcert, hc, hc2, tvPure, tvBind, modifyWorld, getWorld]
        · simp [htok, hcert, hc, hc2, tvPure, tvBind, modifyWorld, getWorld]
      · by_cases hc2 : mapGet w.samsungTokens key = some token
        · simp [htok, hcert, hc, hc2, tvPure, tvBind, modifyWorld, getWorld, mapGet_mapSet_self]
        · simp [htok, hcert, hc, hc2, tvPure, tvBind, modifyWorld, getWorld, mapGet_mapSet_self]
  · exact fun m key clientKey => mapGet_mapSet_self m key clientKey
  · intro env w tv h h' token hh hne htok hmiss
    have hkeys : getVizioAuthKey { tv with host := some h' } ≠ getVizioAuthKey tv := by
      intro heq
      simp only [getVizioAuthKey, hh] at heq
      have : ({ tv with host := some h' } : SavedTV).host.getD "" = h' := rfl
      rw [this] at heq
      exact hne (string_append_left_cancel heq)
    rw [setVizioAuthToken_other env w _ _ token hkeys]
    exact hmiss

/-- Witness for C4 at concrete profiles, keys and values. -/
theorem credential_cache_roundtrip_witness :
    ((SavedTV.mk "tv1" "Den" TVBrand.vizio (some "192.168.1.50") none).host =
        some "192.168.1.50") ∧
    getVizioAuthKey (SavedTV.mk "tv1" "Den" TVBrand.vizio (some "192.168.1.50") none) =
        "tv1" ++ ":" ++ "192.168.1.50" ∧
    mapGet (setVizioAuthToken "tv1:192.168.1.50" "tok99" envOffline worldLoaded).2.vizioTokens
        "tv1:192.168.1.50" = some "tok99" ∧
    mapGet (setSonyPsk "tv1:192.168.1.50" "psk7" envOffline worldLoaded).2.sonyPsk
        "tv1:192.168.1.50" = some "psk7" ∧
    mapGet (upsertSamsungAuth "tv1:192.168.1.50" (some "tokS") (some "ab12")
        envOffline worldLoaded).2.samsungTokens "tv1:192.168.1.50" = some "tokS" ∧
    mapGet (setVizioAuthToken
        (getVizioAuthKey (SavedTV.mk "tv1" "Den" TVBrand.vizio (some "192.168.1.50") none))
        "tok99" envOffline worldLoaded).2.vizioTokens
      (getVizioAuthKey (SavedTV.mk "tv1" "Den" TVBrand.vizio (some "192.168.1.77") none)) =
        none := by
  have hc := credential_cache_roundtrip
  refine ⟨rfl, ?_, ?_, ?_, ?_, ?_⟩
  · exact (hc.1 (SavedTV.mk "tv1" "Den" TVBrand.vizio (some "192.168.1.50") none)
      "192.168.1.50" rfl).1
  · exact (hc.2.1 envOffline worldLoaded "tv1:192.168.1.50" "tok99" (by decide)).2
  · exact hc.2.2.1 envOffline worldLoaded "tv1:192.168.1.50" "psk7" (by decide)
  · exact (hc.2.2.2.1 envOffline worldLoaded "tv1:192.168.1.50" "tokS" "ab12"
      (by decide) (by decide)).1
  · exact hc.2.2.2.2.2 envOffline worldLoaded
      (SavedTV.mk "tv1" "Den" TVBrand.vizio (some "192.168.1.50") none)
      "192.168.1.50" "192.168.1.77" "tok99" rfl (by decide) (by decide) rfl

/-! ## Claim C1 -/

instance exceptDecEq {e a : Type} [DecidableEq e] [DecidableEq a] :
    DecidableEq (Except e a) := fun x y =>
  match x, y with
  | Except.ok u, Except.ok v =>
    if h : u = v then Decidable.isTrue (by rw [h]) else Decidable.isFalse (by simp [h])
  | Except.error u, Except.error v =>
    if h : u = v then Decidable.isTrue (by rw [h]) else Decidable.isFalse (by simp [h])
  | Except.ok _, Except.error _ => Decidable.isFalse (by simp)
  | Except.error _, Except.ok _ => Decidable.isFalse (by simp)

/-- Counterexample to C1 as stated: for a Vizio profile with a configured host
and NO cached auth token, dispatching the unmapped command `up` does NOT return
a "not mapped" result without network I/O.  Instead the adapter first initiates
pairing: four `/pairing/start` requests are issued (all failing offline here),
and the returned message is the pairing failure, not the key-map rejection. -/
theorem vizio_unmapped_no_token_counterexample :
    vizioKeyMap RemoteCommand.up = none ∧
    mapGet worldLoaded.vizioTokens
      (getVizioAuthKey (SavedTV.mk "tv1" "Den" TVBrand.vizio (some "192.168.1.50") none)) =
        none ∧
    (sendVizioCommand (SavedTV.mk "tv1" "Den" TVBrand.vizio (some "192.168.1.50") none)
        RemoteCommand.up envOffline worldLoaded).2.trace.length = 4 ∧
    (sendVizioCommand (SavedTV.mk "tv1" "Den" TVBrand.vizio (some "192.168.1.50") none)
        RemoteCommand.up envOffline worldLoaded).1 =
      Except.ok (DispatchResult.mk false ("Unable to start Vizio pairing. " ++ "offline")
        none) := by
  refine ⟨rfl, rfl, by decide, by decide⟩

/-- Claim C1 (amended): for every brand adapter, a command absent from the
brand's key map yields `ok:false` with that brand's "not mapped" message and an
unchanged world (no network I/O, no cache writes) — provided the adapter's
credential gate has already been passed where one exists before the key-map
check: for Vizio a cached auth token, and for Sony a cached PSK (with the
module caches loaded).  Without a cached Vizio token the adapter performs
pairing network I/O before consulting the key map (see the counterexample).
Without a cached Sony PSK the adapter likewise never reaches the key-map
check: the final conjunct shows `sendSonyCommand` then returns the PSK
PairingRequest — not a "not mapped" rejection — for EVERY command, mapped or
not, though with no network I/O and an unchanged world. -/
theorem unmapped_command_no_io (env : Env) (w : World) (tv : SavedTV) (h : String)
    (command : RemoteCommand) (hhost : hostOf tv = some h) :
    (rokuKeyMap command = none →
      sendRokuCommand tv command env w =
        (Except.ok (DispatchResult.mk false "This command is not mapped for Roku yet." none), w)) ∧
    (samsungKeyMap command = none →
      sendSamsungCommand tv command env w =
        (Except.ok (DispatchResult.mk false "This command is not mapped for Samsung yet." none), w)) ∧
    (getLgCommandRequest command = none →
      sendLgCommand tv command env w =
        (Except.ok (DispatchResult.mk false "This command is not mapped for LG yet." none), w)) ∧
    (philipsKeyMap command = none →
      sendPhilipsCommand tv command env w =
        (Except.ok (DispatchResult.mk false "This command is not mapped for Philips yet." none), w)) ∧
    (panasonicKeyMap command = none →
      sendPanasonicCommand tv command env w =
        (Except.ok (DispatchResult.mk false "This command is not mapped for Panasonic yet." none), w)) ∧
    (sonyKeyNameCandidates command = none → w.sonyLoaded = true →
      jsTruthy (mapGet w.sonyPsk (getSonyAuthKey tv)) = true →
      sendSonyCommand tv command env w =
        (Except.ok (DispatchResult.mk false "This command is not mapped for Sony yet." none), w)) ∧
    (vizioKeyMap command = none → w.vizioLoaded = true →
      jsTruthy (mapGet w.vizioTokens (getVizioAuthKey tv)) = true →
      sendVizioCommand tv command env w =
        (Except.ok (DispatchResult.mk false "This command is not mapped for Vizio yet." none), w)) ∧
    (w.sonyLoaded = true →
      jsTruthy (mapGet w.sonyPsk (getSonyAuthKey tv)) = false →
      sendSonyCommand tv command env w =
        (Except.ok (createSonyPairingRequiredResult none), w)) := by
  refine ⟨?_, ?_, ?_, ?_, ?_, ?_, ?_, ?_⟩
  · intro hkey
    simp [sendRokuCommand, hhost, hkey, tvPure]
  · intro hkey
    simp [sendSamsungCommand, hkey, tvPure]
  · intro hkey
    simp [sendLgCommand, hhost, hkey, tvPure]
  · intro hkey
    simp [sendPhilipsCommand, hhost, hkey, tvPure]
  · intro hkey
    simp [sendPanasonicCommand, hhost, hkey, tvPure]
  · intro hkey hload hpsk
    simp only [sendSonyCommand, hhost, tv_bind_eq, tvBind, tv_pure_eq, tvPure,
      ensureSonyAuthLoaded, getWorld, hload, if_true, hpsk, hkey, Option.isNone_none,
      Bool.not_true, Bool.false_eq_true, if_false, if_true]
  · intro hkey hload htok
    show sendVizioCommandFuel (Nat.succ 1) tv command env w = _
    simp only [sendVizioCommandFuel, hhost, tv_bind_eq, tvBind, tv_pure_eq, tvPure,
      ensureVizioAuthLoaded, getWorld, hload, if_true, htok, hkey]
    rfl
  · intro hload hpsk
    simp only [sendSonyCommand, hhost, tv_bind_eq, tvBind, tv_pure_eq, tvPure,
      ensureSonyAuthLoaded, getWorld, hload, if_true, hpsk, Bool.not_false, if_true]

/-- World with a cached Vizio token and Sony PSK for the witness profile. -/
def worldCreds : World :=
  { worldLoaded with
    vizioTokens := [("tv1:192.168.1.50", "tokV")]
    sonyPsk := [("tv1:192.168.1.50", "pskS")] }

/-- Witness for the amended C1: `numpad` is unmapped for every brand; with
credentials cached, Vizio, Roku and Sony dispatches reject it with the brand's
"not mapped" message and an untouched world; with no cached PSK, Sony instead
returns the PSK PairingRequest, still with an untouched world. -/
theorem unmapped_command_no_io_witness :
    rokuKeyMap RemoteCommand.numpad = none ∧
    vizioKeyMap RemoteCommand.numpad = none ∧
    sonyKeyNameCandidates RemoteCommand.numpad = none ∧
    sendVizioCommand (SavedTV.mk "tv1" "Den" TVBrand.vizio (some "192.168.1.50") none)
        RemoteCommand.numpad envOffline worldCreds =
      (Except.ok (DispatchResult.mk false "This command is not mapped for Vizio yet." none),
       worldCreds) ∧
    sendRokuCommand (SavedTV.mk "tv1" "Den" TVBrand.vizio (some "192.168.1.50") none)
        RemoteCommand.numpad envOffline worldCreds =
      (Except.ok (DispatchResult.mk false "This command is not mapped for Roku yet." none),
       worldCreds) ∧
    sendSonyCommand (SavedTV.mk "tv1" "Den" TVBrand.vizio (some "192.168.1.50") none)
        RemoteCommand.numpad envOffline worldCreds =
      (Except.ok (DispatchResult.mk false "This command is not mapped for Sony yet." none),
       worldCreds) ∧
    sendSonyCommand (SavedTV.mk "tv1" "Den" TVBrand.vizio (some "192.168.1.50") none)
        RemoteCommand.numpad envOffline worldLoaded =
      (Except.ok (createSonyPairingRequiredResult none), worldLoaded) := by
  have h := unmapped_command_no_io envOffline worldCreds
    (SavedTV.mk "tv1" "Den" TVBrand.vizio (some "192.168.1.50") none) "192.168.1.50"
    RemoteCommand.numpad rfl
  have h2 := unmapped_command_no_io envOffline worldLoaded
    (SavedTV.mk "tv1" "Den" TVBrand.vizio (some "192.168.1.50") none) "192.168.1.50"
    RemoteCommand.numpad rfl
  exact ⟨rfl, rfl, rfl, h.2.2.2.2.2.2.1 rfl rfl (by decide), h.1 rfl,
    h.2.2.2.2.2.1 rfl rfl (by decide), h2.2.2.2.2.2.2.2 rfl (by decide)⟩

/-! ## Claim C2: totality of the adapter boundary -/

def isOkB {e a : Type} : Except e a → Bool
  | Except.ok _ => true
  | Except.error _ => false

/-- A computation never lets an exception escape: on every environment and
world it produces `Except.ok`. -/
def NeverThrows {α : Type} (m : TvM α) : Prop :=
  ∀ env w, isOkB (m env w).1 = true

theorem nt_tvPure {α : Type} (a : α) : NeverThrows (tvPure a) := fun _ _ => rfl

theorem nt_pure {α : Type} (a : α) : NeverThrows (pure a : TvM α) := nt_tvPure a

theorem nt_bind {α β : Type} {m : TvM α} {f : α → TvM β} (hm : NeverThrows m)
    (hf : ∀ a, NeverThrows (f a)) : NeverThrows (tvBind m f) := by
  intro env w
  unfold tvBind
  cases hme : m env w with
  | mk r w2 =>
    cases r with
    | ok a => exact hf a env w2
    | error e =>
      have := hm env w
      rw [hme] at this
      simp [isOkB] at this

theorem nt_attempt {α : Type} (m : TvM α) : NeverThrows (attempt m) := by
  intro env w
  unfold attempt
  cases m env w with
  | mk r w2 => cases r <;> rfl

theorem nt_getWorld : NeverThrows getWorld := fun _ _ => rfl

theorem nt_readEnv : NeverThrows readEnv := fun _ _ => rfl

theorem nt_modifyWorld (f : World → World) : NeverThrows (modifyWorld f) := fun _ _ => rfl

theorem nt_sendRokuCommand (tv : SavedTV) (command : RemoteCommand) :
    NeverThrows (sendRokuCommand tv command) := by
  unfold sendRokuCommand
  cases hostOf tv with
  | none => exact nt_tvPure _
  | some host =>
    cases rokuKeyMap command with
    | none => exact nt_tvPure _
    | some k =>
      simp only [tv_bind_eq]
      refine nt_bind (nt_attempt _) ?_
      intro r
      cases r with
      | ok response =>
        by_cases hok : respOk response <;> simp [hok] <;> exact nt_pure _
      | error e => exact nt_pure _

theorem nt_ite {α : Type} (c : Prop) [Decidable c] {m m' : TvM α}
    (h1 : NeverThrows m) (h2 : NeverThrows m') : NeverThrows (if c then m else m') := by
  split
  · exact h1
  · exact h2

theorem nt_isLikelyRokuHost (host : String) : NeverThrows (isLikelyRokuHost host) := by
  unfold isLikelyRokuHost
  simp only [tv_bind_eq]
  refine nt_bind (nt_attempt _) ?_
  intro r
  cases r with
  | ok response => exact nt_pure _
  | error e => exact nt_pure _

theorem nt_isLikelyLgHost (host : String) : NeverThrows (isLikelyLgHost host) := by
  unfold isLikelyLgHost
  simp only [tv_bind_eq]
  refine nt_bind (nt_attempt _) ?_
  intro r
  cases r with
  | ok response => exact nt_pure _
  | error e => exact nt_pure _

theorem nt_isLikelySamsungHost (host : String) : NeverThrows (isLikelySamsungHost host) := by
  unfold isLikelySamsungHost
  simp only [tv_bind_eq]
  refine nt_bind (nt_attempt _) ?_
  intro r
  cases r with
  | ok response => exact nt_ite _ (nt_pure _) (nt_pure _)
  | error e => exact nt_pure _

theorem nt_isLikelyVizioHost (host : String) : NeverThrows (isLikelyVizioHost host) := by
  unfold isLikelyVizioHost
  simp only [tv_bind_eq]
  refine nt_bind (nt_attempt _) ?_
  intro r
  cases r with
  | ok response => exact nt_pure _
  | error e => exact nt_pure _

theorem nt_isLikelySonyHost (host : String) : NeverThrows (isLikelySonyHost host) := by
  unfold isLikelySonyHost
  simp only [tv_bind_eq]
  refine nt_bind (nt_attempt _) ?_
  intro r
  cases r with
  | ok response => exact nt_ite _ (nt_pure _) (nt_ite _ (nt_pure _) (nt_pure _))
  | error e => exact nt_pure _

theorem nt_philipsProbeLoop : ∀ (urls : List String), NeverThrows (philipsProbeLoop urls)
  | [] => nt_tvPure _
  | url :: rest => by
    unfold philipsProbeLoop
    simp only [tv_bind_eq]
    refine nt_bind (nt_attempt _) ?_
    intro r
    cases r with
    | error e => exact nt_philipsProbeLoop rest
    | ok response =>
      refine nt_ite _ (nt_pure _) (nt_ite _ (nt_philipsProbeLoop rest) ?_)
      exact nt_ite _ (nt_pure _) (nt_philipsProbeLoop rest)

theorem nt_isLikelyPhilipsHost (host : String) : NeverThrows (isLikelyPhilipsHost host) :=
  nt_philipsProbeLoop _

theorem nt_panasonicProbeLoop : ∀ (urls : List String), NeverThrows (panasonicProbeLoop urls)
  | [] => nt_tvPure _
  | url :: rest => by
    unfold panasonicProbeLoop
    simp only [tv_bind_eq]
    refine nt_bind (nt_attempt _) ?_
    intro r
    cases r with
    | error e => exact nt_panasonicProbeLoop rest
    | ok response =>
      refine nt_ite _ (nt_pure _) (nt_ite _ (nt_panasonicProbeLoop rest) ?_)
      exact nt_ite _ (nt_pure _) (nt_panasonicProbeLoop rest)

theorem nt_isLikelyPanasonicHost (host : String) : NeverThrows (isLikelyPanasonicHost host) :=
  nt_panasonicProbeLoop _

theorem nt_isLikelyFireTvHost (host : String) : NeverThrows (isLikelyFireTvHost host) := by
  unfold isLikelyFireTvHost
  simp only [tv_bind_eq]
  have htail : NeverThrows (tvBind
      (attempt (fetchWithTimeout
        { url := "http://" ++ host ++ ":8008/setup/eureka_info", method := "GET" }))
      (fun r2 => match r2 with
        | Except.ok castResponse =>
          if !respOk castResponse then pure false
          else pure (looksLikeFireTvText castResponse.raw.jsLower)
        | Except.error _ => pure false)) := by
    refine nt_bind (nt_attempt _) ?_
    intro r2
    cases r2 with
    | ok castResponse => exact nt_ite _ (nt_pure _) (nt_pure _)
    | error e => exact nt_pure _
  refine nt_bind (nt_attempt _) ?_
  intro r
  cases r with
  | ok descriptorResponse =>
    refine nt_ite _ ?_ ?_
    · exact nt_bind (nt_pure _) (fun y => nt_ite _ (nt_pure _) htail)
    · exact nt_bind (nt_pure _) (fun y => nt_ite _ (nt_pure _) htail)
  | error e =>
    exact nt_bind (nt_pure _) (fun y => nt_ite _ (nt_pure _) htail)

theorem nt_sendBridgeCommand (tv : SavedTV) (command : RemoteCommand) :
    NeverThrows (sendBridgeCommand tv command) := by
  unfold sendBridgeCommand
  cases hostOf tv with
  | none => exact nt_tvPure _
  | some host =>
    simp only [tv_bind_eq]
    refine nt_bind (nt_attempt _) ?_
    intro r
    cases r with
    | error e => exact nt_pure _
    | ok ping =>
      refine nt_ite _ (nt_pure _) ?_
      refine nt_bind (nt_attempt _) ?_
      intro r2
      cases r2 with
      | error e => exact nt_pure _
      | ok response => exact nt_ite _ (nt_pure _) (nt_pure _)

theorem nt_sendFireTvCommand (tv : SavedTV) (command : RemoteCommand) :
    NeverThrows (sendFireTvCommand tv command) := by
  unfold sendFireTvCommand
  simp only [tv_bind_eq]
  refine nt_bind (nt_sendBridgeCommand tv command) ?_
  intro bridgeResult
  exact nt_ite _ (nt_pure _) (nt_pure _)

theorem nt_philipsLoop (key : String) :
    ∀ (pairs : List (String × String)) (acc : PhilipsAcc),
      NeverThrows (philipsLoop key pairs acc)
  | [], acc => by
    unfold philipsLoop
    refine nt_ite _ (nt_tvPure _) ?_
    cases acc.lastStatus with
    | some s => exact nt_tvPure _
    | none => exact nt_tvPure _
  | (url, method) :: rest, acc => by
    unfold philipsLoop
    simp only [tv_bind_eq]
    refine nt_bind (nt_attempt _) ?_
    intro r
    cases r with
    | error e => exact nt_philipsLoop key rest _
    | ok response =>
      refine nt_ite _ (nt_pure _) ?_
      exact nt_ite _ (nt_philipsLoop key rest _) (nt_philipsLoop key rest _)

theorem nt_sendPhilipsCommand (tv : SavedTV) (command : RemoteCommand) :
    NeverThrows (sendPhilipsCommand tv command) := by
  unfold sendPhilipsCommand
  cases hostOf tv with
  | none => exact nt_tvPure _
  | some host =>
    cases philipsKeyMap command with
    | none => exact nt_tvPure _
    | some key => exact nt_philipsLoop key _ _

theorem nt_panasonicLoop (keyEvent : String) :
    ∀ (urls : List String) (acc : PanasonicAcc),
      NeverThrows (panasonicLoop keyEvent urls acc)
  | [], acc => by
    unfold panasonicLoop
    refine nt_ite _ (nt_tvPure _) ?_
    cases acc.lastFaultMessage with
    | some m => exact nt_tvPure _
    | none =>
      cases acc.lastStatus with
      | some s => exact nt_tvPure _
      | none => exact nt_tvPure _
  | url :: rest, acc => by
    unfold panasonicLoop
    simp only [tv_bind_eq]
    refine nt_bind (nt_attempt _) ?_
    intro r
    cases r with
    | error e => exact nt_panasonicLoop keyEvent rest _
    | ok response =>
      refine nt_ite _ (nt_pure _) ?_
      cases extractFaultString response.raw with
      | some m => exact nt_panasonicLoop keyEvent rest _
      | none => exact nt_panasonicLoop keyEvent rest _

theorem nt_sendPanasonicCommand (tv : SavedTV) (command : RemoteCommand) :
    NeverThrows (sendPanasonicCommand tv command) := by
  unfold sendPanasonicCommand
  cases hostOf tv with
  | none => exact nt_tvPure _
  | some host =>
    cases panasonicKeyMap command with
    | none => exact nt_tvPure _
    | some keyEvent => exact nt_panasonicLoop keyEvent _ _

theorem nt_persistSamsungAuthCache : NeverThrows persistSamsungAuthCache := nt_tvPure ()

theorem nt_ensureSamsungAuthLoaded : NeverThrows ensureSamsungAuthLoaded := by
  unfold ensureSamsungAuthLoaded
  simp only [tv_bind_eq]
  refine nt_bind nt_getWorld ?_
  intro w
  refine nt_ite _ (nt_pure _) ?_
  refine nt_bind nt_readEnv ?_
  intro env
  exact nt_modifyWorld _

theorem nt_upsertSamsungAuth (tokenKey : String) (token cert : Option String) :
    NeverThrows (upsertSamsungAuth tokenKey token cert) := by
  unfold upsertSamsungAuth
  simp only [tv_bind_eq]
  refine nt_bind nt_getWorld ?_
  intro w
  refine nt_bind (nt_modifyWorld _) ?_
  intro u
  exact nt_persistSamsungAuthCache

theorem nt_clearSamsungAuth (tokenKey : String) (includeCert : Bool) :
    NeverThrows (clearSamsungAuth tokenKey includeCert) := by
  unfold clearSamsungAuth
  simp only [tv_bind_eq]
  refine nt_bind (nt_modifyWorld _) ?_
  intro u
  exact nt_persistSamsungAuthCache

theorem nt_sendSamsungKey (tv : SavedTV) (key : String) :
    NeverThrows (sendSamsungKey tv key) := by
  unfold sendSamsungKey
  cases hostOf tv with
  | none => exact nt_tvPure _
  | some host =>
    simp only [tv_bind_eq]
    refine nt_bind nt_ensureSamsungAuthLoaded ?_
    intro u1
    refine nt_bind nt_readEnv ?_
    intro env
    refine nt_bind nt_getWorld ?_
    intro w
    refine nt_bind (nt_attempt _) ?_
    intro r
    cases r with
    | ok u => exact nt_pure _
    | error errWithToken =>
      refine nt_ite _ ?_ ?_
      · refine nt_bind (nt_clearSamsungAuth _ _) ?_
        intro u2
        refine nt_bind (nt_attempt _) ?_
        intro r2
        cases r2 with
        | ok u => exact nt_pure _
        | error e2 => exact nt_pure _
      · refine nt_bind nt_getWorld ?_
        intro w2
        refine nt_ite _ ?_ (nt_pure _)
        refine nt_bind (nt_clearSamsungAuth _ _) ?_
        intro u2
        refine nt_bind (nt_attempt _) ?_
        intro r2
        cases r2 with
        | ok u => exact nt_pure _
        | error e2 => exact nt_pure _

theorem nt_sendSamsungCommand (tv : SavedTV) (command : RemoteCommand) :
    NeverThrows (sendSamsungCommand tv command) := by
  unfold sendSamsungCommand
  cases samsungKeyMap command with
  | none => exact nt_tvPure _
  | some samsungKey => exact nt_sendSamsungKey tv samsungKey

theorem nt_persistLgClientKeys : NeverThrows persistLgClientKeys := nt_tvPure ()

theorem nt_ensureLgClientKeysLoaded : NeverThrows ensureLgClientKeysLoaded := by
  unfold ensureLgClientKeysLoaded
  simp only [tv_bind_eq]
  refine nt_bind nt_getWorld ?_
  intro w
  refine nt_ite _ (nt_pure _) ?_
  refine nt_bind nt_readEnv ?_
  intro env
  exact nt_modifyWorld _

theorem nt_sendLgCommand (tv : SavedTV) (command : RemoteCommand) :
    NeverThrows (sendLgCommand tv command) := by
  unfold sendLgCommand
  cases hostOf tv with
  | none => exact nt_tvPure _
  | some host =>
    cases getLgCommandRequest command with
    | none => exact nt_tvPure _
    | some request =>
      simp only [tv_bind_eq]
      refine nt_bind nt_ensureLgClientKeysLoaded ?_
      intro u1
      refine nt_bind nt_getWorld ?_
      intro w
      refine nt_bind (nt_attempt _) ?_
      intro r
      cases r with
      | ok discoveredClientKey =>
        refine nt_ite _ ?_ ?_
        · refine nt_bind (nt_modifyWorld _) ?_
          intro u2
          refine nt_bind nt_persistLgClientKeys ?_
          intro u3
          exact nt_pure _
        · exact nt_bind (nt_pure _) (fun y => nt_pure _)
      | error errorWithCachedKey =>
        refine nt_ite _ ?_ (nt_pure _)
        refine nt_bind (nt_modifyWorld _) ?_
        intro u2
        refine nt_bind nt_persistLgClientKeys ?_
        intro u3
        refine nt_bind (nt_attempt _) ?_
        intro r2
        cases r2 with
        | ok discoveredClientKey =>
          refine nt_ite _ ?_ ?_
          · refine nt_bind (nt_modifyWorld _) ?_
            intro u4
            refine nt_bind nt_persistLgClientKeys ?_
            intro u5
            exact nt_pure _
          · exact nt_bind (nt_pure _) (fun y => nt_pure _)
        | error e2 => exact nt_pure _

theorem nt_persistSonyAuthTokens : NeverThrows persistSonyAuthTokens := nt_tvPure ()

theorem nt_ensureSonyAuthLoaded : NeverThrows ensureSonyAuthLoaded := by
  unfold ensureSonyAuthLoaded
  simp only [tv_bind_eq]
  refine nt_bind nt_getWorld ?_
  intro w
  refine nt_ite _ (nt_pure _) ?_
  refine nt_bind nt_readEnv ?_
  intro env
  exact nt_modifyWorld _

theorem nt_clearSonyPsk (sonyKey : String) : NeverThrows (clearSonyPsk sonyKey) := by
  unfold clearSonyPsk
  simp only [tv_bind_eq]
  refine nt_bind nt_getWorld ?_
  intro w
  refine nt_ite _ (nt_pure _) ?_
  refine nt_bind (nt_modifyWorld _) ?_
  intro u
  exact nt_persistSonyAuthTokens

theorem nt_sonyFinalSend (tv : SavedTV) (sonyKey cachedPsk irccCode : String) :
    NeverThrows (sonyFinalSend tv sonyKey cachedPsk irccCode) := by
  unfold sonyFinalSend
  simp only [tv_bind_eq]
  refine nt_bind (nt_attempt _) ?_
  intro r
  cases r with
  | ok u => exact nt_pure _
  | error e =>
    refine nt_ite _ ?_ (nt_pure _)
    refine nt_bind (nt_clearSonyPsk _) ?_
    intro u
    exact nt_pure _

theorem nt_sonySendPhase (tv : SavedTV) (sonyKey cachedPsk : String)
    (command : RemoteCommand) (codes : List (String × String)) :
    NeverThrows (sonySendPhase tv sonyKey cachedPsk command codes) := by
  unfold sonySendPhase
  simp only [tv_bind_eq]
  refine nt_ite _ (nt_sonyFinalSend _ _ _ _) ?_
  refine nt_bind (nt_attempt _) ?_
  intro r
  cases r with
  | ok refreshedCodes =>
    refine nt_bind (nt_modifyWorld _) ?_
    intro u
    exact nt_ite _ (nt_sonyFinalSend _ _ _ _) (nt_pure _)
  | error e =>
    refine nt_ite _ ?_ (nt_pure _)
    refine nt_bind (nt_clearSonyPsk _) ?_
    intro u
    exact nt_pure _

theorem nt_sendSonyCommand (tv : SavedTV) (command : RemoteCommand) :
    NeverThrows (sendSonyCommand tv command) := by
  unfold sendSonyCommand
  cases hostOf tv with
  | none => exact nt_tvPure _
  | some host =>
    simp only [tv_bind_eq]
    refine nt_bind nt_ensureSonyAuthLoaded ?_
    intro u1
    refine nt_bind nt_getWorld ?_
    intro w
    refine nt_ite _ (nt_pure _) ?_
    refine nt_ite _ (nt_pure _) ?_
    cases mapGet w.sonyCodes (getSonyAuthKey tv) with
    | some codes => exact nt_sonySendPhase _ _ _ _ _
    | none =>
      refine nt_bind (nt_attempt _) ?_
      intro r
      cases r with
      | ok codes =>
        refine nt_bind (nt_modifyWorld _) ?_
        intro u2
        exact nt_sonySendPhase _ _ _ _ _
      | error e =>
        refine nt_ite _ ?_ (nt_pure _)
        refine nt_bind (nt_clearSonyPsk _) ?_
        intro u2
        exact nt_pure _

theorem nt_persistVizioAuthTokens : NeverThrows persistVizioAuthTokens := nt_tvPure ()

theorem nt_ensureVizioAuthLoaded : NeverThrows ensureVizioAuthLoaded := by
  unfold ensureVizioAuthLoaded
  simp only [tv_bind_eq]
  refine nt_bind nt_getWorld ?_
  intro w
  refine nt_ite _ (nt_pure _) ?_
  refine nt_bind nt_readEnv ?_
  intro env
  exact nt_modifyWorld _

theorem nt_setVizioAuthToken (vizioKey authToken : String) :
    NeverThrows (setVizioAuthToken vizioKey authToken) := by
  unfold setVizioAuthToken
  simp only [tv_bind_eq]
  refine nt_ite _ (nt_pure _) ?_
  refine nt_bind nt_getWorld ?_
  intro w
  refine nt_ite _ (nt_pure _) ?_
  refine nt_bind (nt_modifyWorld _) ?_
  intro u
  exact nt_persistVizioAuthTokens

theorem nt_clearVizioAuthToken (vizioKey : String) :
    NeverThrows (clearVizioAuthToken vizioKey) := by
  unfold clearVizioAuthToken
  simp only [tv_bind_eq]
  refine nt_bind nt_getWorld ?_
  intro w
  refine nt_ite _ (nt_pure _) ?_
  refine nt_bind (nt_modifyWorld _) ?_
  intro u
  exact nt_persistVizioAuthTokens

theorem nt_startVizioPairing (tv : SavedTV) : NeverThrows (startVizioPairing tv) := by
  unfold startVizioPairing
  cases hostOf tv with
  | none => exact nt_tvPure _
  | some host =>
    simp only [tv_bind_eq]
    refine nt_bind nt_ensureVizioAuthLoaded ?_
    intro u1
    refine nt_bind nt_readEnv ?_
    intro env
    refine nt_bind (nt_attempt _) ?_
    intro r
    cases r with
    | error e => exact nt_pure _
    | ok payload =>
      cases hx : extractVizioAuthToken payload with
      | some maybeToken =>
        simp only [hx]
        refine nt_bind (nt_setVizioAuthToken _ _) ?_
        intro u2
        exact nt_pure _
      | none =>
        simp only [hx]
        cases hy : extractVizioPairingChallenge payload (createVizioDeviceId tv env.now) with
        | some challenge =>
          simp only [hy]
          refine nt_bind (nt_modifyWorld _) ?_
          intro u2
          exact nt_pure _
        | none =>
          simp only [hy]
          exact nt_pure _

theorem nt_sendVizioCommandFuel :
    ∀ (fuel : Nat) (tv : SavedTV) (command : RemoteCommand),
      NeverThrows (sendVizioCommandFuel fuel tv command)
  | 0, _, _ => nt_tvPure _
  | Nat.succ fuel, tv, command => by
    unfold sendVizioCommandFuel
    cases hostOf tv with
    | none => exact nt_tvPure _
    | some host =>
      simp only [tv_bind_eq]
      refine nt_bind nt_ensureVizioAuthLoaded ?_
      intro u1
      refine nt_bind nt_getWorld ?_
      intro w
      refine nt_ite _ ?_ ?_
      · refine nt_bind (nt_startVizioPairing tv) ?_
        intro pairingResult
        exact nt_ite _ (nt_sendVizioCommandFuel fuel tv command) (nt_pure _)
      · cases vizioKeyMap command with
        | none => exact nt_pure _
        | some keySpec =>
          refine nt_bind (nt_attempt _) ?_
          intro r
          cases r with
          | error e => exact nt_pure _
          | ok payload =>
            refine nt_ite _ (nt_pure _) ?_
            refine nt_ite _ ?_ (nt_pure _)
            refine nt_bind (nt_clearVizioAuthToken _) ?_
            intro u2
            exact nt_startVizioPairing tv

theorem nt_sendVizioCommand (tv : SavedTV) (command : RemoteCommand) :
    NeverThrows (sendVizioCommand tv command) :=
  nt_sendVizioCommandFuel 2 tv command

theorem nt_sendForTcl (tv : SavedTV) (command : RemoteCommand) :
    NeverThrows (sendForTcl tv command) := by
  unfold sendForTcl
  simp only [tv_bind_eq]
  refine nt_bind (nt_sendRokuCommand tv command) ?_
  intro rokuResult
  refine nt_ite _ (nt_pure _) ?_
  refine nt_bind (nt_sendSamsungCommand tv command) ?_
  intro samsungResult
  exact nt_ite _ (nt_pure _) (nt_sendBridgeCommand tv command)

theorem nt_orElseResult {m : TvM (Option DispatchResult)} {k : TvM DispatchResult}
    (hm : NeverThrows m) (hk : NeverThrows k) : NeverThrows (orElseResult m k) := by
  unfold orElseResult
  simp only [tv_bind_eq]
  refine nt_bind hm ?_
  intro r
  cases r with
  | some r0 => exact nt_pure _
  | none => exact hk

theorem nt_otherTvBridgeTail (tv : SavedTV) (command : RemoteCommand)
    (likelyFireTv : Bool) : NeverThrows (otherTvBridgeTail tv command likelyFireTv) := by
  unfold otherTvBridgeTail
  simp only [tv_bind_eq]
  have hk : ∀ (y : Option DispatchResult), NeverThrows
      ((fun y => match y with
        | some result =>
          if result.ok then
            pure result
          else
            (pure { ok := false
                    message := "Unable to send command automatically. " ++ result.message }
              : TvM DispatchResult)
        | none =>
          tvBind (sendBridgeCommand tv command) fun bridgeResult =>
            if bridgeResult.ok then
              pure bridgeResult
            else
              pure { ok := false
                     message := "Unable to send command automatically. " ++
                       bridgeResult.message }) y) := by
    intro y
    cases y with
    | some result => exact nt_ite _ (nt_pure _) (nt_pure _)
    | none =>
      refine nt_bind (nt_sendBridgeCommand tv command) ?_
      intro bridgeResult
      exact nt_ite _ (nt_pure _) (nt_pure _)
  refine nt_ite _ ?_ ?_
  · refine nt_bind (nt_sendFireTvCommand tv command) ?_
    intro result
    exact nt_bind (nt_pure _) hk
  · exact nt_bind (nt_pure _) hk

theorem nt_sendForOtherTv (tv : SavedTV) (command : RemoteCommand) :
    NeverThrows (sendForOtherTv tv command) := by
  unfold sendForOtherTv
  cases hostOf tv with
  | none => exact nt_tvPure _
  | some host =>
    simp only [tv_bind_eq]
    refine nt_bind (nt_isLikelyRokuHost host) ?_
    intro likelyRoku
    refine nt_bind (nt_isLikelyLgHost host) ?_
    intro likelyLg
    refine nt_bind (nt_isLikelySamsungHost host) ?_
    intro likelySamsung
    refine nt_bind (nt_isLikelyVizioHost host) ?_
    intro likelyVizio
    refine nt_bind (nt_isLikelySonyHost host) ?_
    intro likelySony
    refine nt_bind (nt_isLikelyPhilipsHost host) ?_
    intro likelyPhilips
    refine nt_bind (nt_isLikelyPanasonicHost host) ?_
    intro likelyPanasonic
    refine nt_bind (nt_isLikelyFireTvHost host) ?_
    intro likelyFireTv
    refine nt_orElseResult ?_ ?_
    · refine nt_ite _ ?_ (nt_pure _)
      exact nt_bind (nt_sendRokuCommand tv command)
        (fun result => nt_ite _ (nt_pure _) (nt_pure _))
    refine nt_orElseResult ?_ ?_
    · refine nt_ite _ ?_ (nt_pure _)
      exact nt_bind (nt_sendLgCommand tv command)
        (fun result => nt_ite _ (nt_pure _) (nt_pure _))
    refine nt_orElseResult ?_ ?_
    · refine nt_ite _ ?_ (nt_pure _)
      exact nt_bind (nt_sendSamsungCommand tv command)
        (fun result => nt_ite _ (nt_pure _) (nt_ite _ (nt_pure _) (nt_pure _)))
    refine nt_orElseResult ?_ ?_
    · refine nt_ite _ ?_ (nt_pure _)
      exact nt_bind (nt_sendVizioCommand tv command)
        (fun result => nt_ite _ (nt_pure _) (nt_pure _))
    refine nt_orElseResult ?_ ?_
    · refine nt_ite _ ?_ (nt_pure _)
      exact nt_bind (nt_sendSonyCommand tv command)
        (fun result => nt_ite _ (nt_pure _) (nt_pure _))
    refine nt_orElseResult ?_ ?_
    · refine nt_ite _ ?_ (nt_pure _)
      exact nt_bind (nt_sendPhilipsCommand tv command)
        (fun result => nt_ite _ (nt_pure _) (nt_ite _ (nt_pure _) (nt_pure _)))
    refine nt_orElseResult ?_ ?_
    · refine nt_ite _ ?_ (nt_pure _)
      exact nt_bind (nt_sendPanasonicCommand tv command)
        (fun result => nt_ite _ (nt_pure _) (nt_ite _ (nt_pure _) (nt_pure _)))
    exact nt_otherTvBridgeTail tv command likelyFireTv

theorem nt_dispatchWifiCommand (tv : SavedTV) (command : RemoteCommand) :
    NeverThrows (dispatchWifiCommand tv command) := by
  unfold dispatchWifiCommand
  cases hostOf tv with
  | none => exact nt_tvPure _
  | some h =>
    refine nt_ite _ (nt_tvPure _) ?_
    cases tv.brand
    · exact nt_sendSamsungCommand tv command
    · exact nt_sendSonyCommand tv command
    · exact nt_sendRokuCommand tv command
    · exact nt_sendPanasonicCommand tv command
    · exact nt_sendVizioCommand tv command
    · exact nt_sendForTcl tv command
    · exact nt_sendLgCommand tv command
    · exact nt_sendPhilipsCommand tv command
    · exact nt_sendFireTvCommand tv command
    · exact nt_sendForOtherTv tv command

/-- Claim C2: for every profile and command, `dispatchWifiCommand` and every
brand adapter send function resolve to a `DispatchResult` and never raise an
uncaught error across their public boundary, for every environment (success,
timeout, rejection, malformed response are all oracle outcomes) and every
starting state: every run produces `Except.ok`. -/
theorem dispatch_never_throws (tv : SavedTV) (command : RemoteCommand)
    (env : Env) (w : World) :
    isOkB ((dispatchWifiCommand tv command) env w).1 = true ∧
    isOkB ((sendSamsungCommand tv command) env w).1 = true ∧
    isOkB ((sendRokuCommand tv command) env w).1 = true ∧
    isOkB ((sendLgCommand tv command) env w).1 = true ∧
    isOkB ((sendPhilipsCommand tv command) env w).1 = true ∧
    isOkB ((sendPanasonicCommand tv command) env w).1 = true ∧
    isOkB ((sendFireTvCommand tv command) env w).1 = true ∧
    isOkB ((sendVizioCommand tv command) env w).1 = true ∧
    isOkB ((sendSonyCommand tv command) env w).1 = true ∧
    isOkB ((sendBridgeCommand tv command) env w).1 = true :=
  ⟨nt_dispatchWifiCommand tv command env w,
   nt_sendSamsungCommand tv command env w,
   nt_sendRokuCommand tv command env w,
   nt_sendLgCommand tv command env w,
   nt_sendPhilipsCommand tv command env w,
   nt_sendPanasonicCommand tv command env w,
   nt_sendFireTvCommand tv command env w,
   nt_sendVizioCommand tv command env w,
   nt_sendSonyCommand tv command env w,
   nt_sendBridgeCommand tv command env w⟩

/-! ## Claim C3 -/

/-- Run a bind whose head's outcome is known. -/
theorem tvBind_run {α β : Type} {m : TvM α} {f : α → TvM β} {env : Env} {w w2 : World}
    {a : α} (h : m env w = (Except.ok a, w2)) : tvBind m f env w = f a env w2 := by
  unfold tvBind
  rw [h]

theorem tvBind_run_error {α β : Type} {m : TvM α} {f : α → TvM β} {env : Env}
    {w w2 : World} {e : Err} (h : m env w = (Except.error e, w2)) :
    tvBind m f env w = (Except.error e, w2) := by
  unfold tvBind
  rw [h]

theorem attempt_run_ok {α : Type} {m : TvM α} {env : Env} {w w2 : World} {a : α}
    (h : m env w = (Except.ok a, w2)) : attempt m env w = (Except.ok (Except.ok a), w2) := by
  unfold attempt
  rw [h]

theorem attempt_run_error {α : Type} {m : TvM α} {env : Env} {w w2 : World} {e : Err}
    (h : m env w = (Except.error e, w2)) :
    attempt m env w = (Except.ok (Except.error e), w2) := by
  unfold attempt
  rw [h]

theorem ensureSamsung_noop (env : Env) (w : World) (h : w.samsungAuthLoaded = true) :
    ensureSamsungAuthLoaded env w = (Except.ok (), w) := by
  simp [ensureSamsungAuthLoaded, tvBind, getWorld, h, tvPure]

theorem ensureSony_noop (env : Env) (w : World) (h : w.sonyLoaded = true) :
    ensureSonyAuthLoaded env w = (Except.ok (), w) := by
  simp [ensureSonyAuthLoaded, tvBind, getWorld, h, tvPure]

theorem ensureVizio_noop (env : Env) (w : World) (h : w.vizioLoaded = true) :
    ensureVizioAuthLoaded env w = (Except.ok (), w) := by
  simp [ensureVizioAuthLoaded, tvBind, getWorld, h, tvPure]

/-- Both Samsung socket attempts of one `tryWithToken` round fail: the loop
records both attempts in the trace and rethrows the second error. -/
theorem samsungUrlLoop_two_fail (env : Env) (ef : SamsungAttempt → Err)
    (henv : ∀ a, env.samsungSocket a = Except.error (ef a))
    (key tokenKey : String) (hasToken : Bool) (u1 u2 : String) (w : World) :
    samsungUrlLoop key tokenKey hasToken [u1, u2] none env w =
      (Except.error (ef { url := u2, key := key, hasToken := hasToken }),
       { w with trace := w.trace ++
           [NetOp.wsSamsung { url := u1, key := key, hasToken := hasToken },
            NetOp.wsSamsung { url := u2, key := key, hasToken := hasToken }] }) := by
  have h1 : sendSamsungViaUrl u1 key hasToken env w =
      (Except.error (ef { url := u1, key := key, hasToken := hasToken }),
       { w with trace := w.trace ++
         [NetOp.wsSamsung { url := u1, key := key, hasToken := hasToken }] }) := by
    simp only [sendSamsungViaUrl, henv]
  simp only [samsungUrlLoop, tv_bind_eq]
  rw [tvBind_run (attempt_run_error h1)]
  have h2 : sendSamsungViaUrl u2 key hasToken env
      { w with trace := w.trace ++
        [NetOp.wsSamsung { url := u1, key := key, hasToken := hasToken }] } =
      (Except.error (ef { url := u2, key := key, hasToken := hasToken }),
       { w with trace := (w.trace ++
           [NetOp.wsSamsung { url := u1, key := key, hasToken := hasToken }]) ++
           [NetOp.wsSamsung { url := u2, key := key, hasToken := hasToken }] }) := by
    simp only [sendSamsungViaUrl, henv]
  simp only [samsungUrlLoop, tv_bind_eq]
  rw [tvBind_run (attempt_run_error h2)]
  simp only [samsungUrlLoop, throwM, Option.getD]
  simp [List.append_assoc]

/-- A key is present in a JS map exactly when `get` finds it; `delete` then
reports `true`. -/
theorem mapAny_of_mapGet {β : Type} {m : List (String × β)} {k : String} {v : β}
    (h : mapGet m k = some v) : (m.any fun p => p.1 = k) = true := by
  simp only [mapGet, Option.map_eq_some'] at h
  obtain ⟨p, hp, _⟩ := h
  have hpa := List.find?_some hp
  exact List.any_eq_true.mpr ⟨p, List.mem_of_find?_eq_some hp, hpa⟩

/-- Sony profile used in the authentication-failure scenarios. -/
def tvSonyAuth : SavedTV := SavedTV.mk "tv1" "Den" TVBrand.sony (some "192.168.1.50") none

/-- The code-table request `sendSonyCommand` issues first for a Sony TV with no
preferred port: the `system.getRemoteControllerInfo` JSON-RPC call on port 80,
authenticated with the cached PSK. -/
def sonyCodeMapReq (host auth : String) : HttpReq :=
  { url := "http://" ++ host ++ ":" ++ toString (80 : Int) ++ "/sony/" ++ "system"
    method := "POST"
    auth := some auth
    body := some (ReqBody.sonyRpc "system" "getRemoteControllerInfo") }

/-- A TV that answers the Sony code-table request with HTTP 401 (the cached PSK
has been revoked on the TV side) and is offline for everything else. -/
def envSony401 : Env :=
  { envOffline with
    fetch := fun req =>
      if req = sonyCodeMapReq "192.168.1.50" "pskS" then Except.ok (HttpResp.mk 401 "" none)
      else Except.error (Err.mk "offline" false) }

/-- Claim C3, counterexample: a Sony dispatch with a cached PSK whose code-table
request fails authentication performs NO automatic retry without the credential.
The trace holds exactly the one authenticated request; the cached PSK is
cleared and a Sony PairingRequest is surfaced instead of a second attempt — so
"exactly one automatic retry without the cached credential" does not hold for
every brand. -/
theorem sony_auth_failure_no_retry_counterexample :
    jsTruthy (mapGet worldCreds.sonyPsk (getSonyAuthKey tvSonyAuth)) = true ∧
    (sendSonyCommand tvSonyAuth RemoteCommand.power envSony401 worldCreds).1 =
      Except.ok (createSonyPairingRequiredResult
        (some "Sony authorization expired. Re-enter your TV Pre-Shared Key.")) ∧
    (sendSonyCommand tvSonyAuth RemoteCommand.power envSony401 worldCreds).2.trace =
      [NetOp.http (sonyCodeMapReq "192.168.1.50" "pskS")] ∧
    mapGet (sendSonyCommand tvSonyAuth RemoteCommand.power envSony401 worldCreds).2.sonyPsk
      (getSonyAuthKey tvSonyAuth) = none := by
  refine ⟨rfl, ?_, rfl, rfl⟩
  rfl

/-- With the WebSocket adapter (`useNativeIOS = false`) and every socket
attempt failing, one `tryWithToken` round walks both candidate URLs, records
both attempts, and rethrows the error of the second. -/
theorem samsungTryWithToken_allFail (env : Env) (ef : SamsungAttempt → Err)
    (henv : ∀ a, env.samsungSocket a = Except.error (ef a))
    (host key tokenKey : String) (tok : Option String) (w : World) :
    samsungTryWithToken false host key tokenKey tok env w =
      (Except.error (ef { url := (buildSamsungUrls host tok).getD 1 ""
                          key := key, hasToken := jsTruthy tok }),
       { w with trace := (w.trace ++ (buildSamsungUrls host tok).map
           (fun url => NetOp.wsSamsung { url := url, key := key, hasToken := jsTruthy tok })) }) := by
  obtain ⟨u1, u2, hu⟩ : ∃ u1 u2, buildSamsungUrls host tok = [u1, u2] := ⟨_, _, rfl⟩
  simp only [samsungTryWithToken]
  rw [if_neg (by simp)]
  rw [hu]
  rw [samsungUrlLoop_two_fail env ef henv key tokenKey (jsTruthy tok) u1 u2 w]
  simp [List.getD]

/-- Binds reassociate: run the inner computation first. -/
theorem tvBind_assoc {α β γ : Type} (m : TvM α) (f : α → TvM β) (g : β → TvM γ) :
    tvBind (tvBind m f) g = tvBind m (fun a => tvBind (f a) g) := by
  funext env w
  unfold tvBind
  cases hm : m env w with
  | mk r w2 => cases r <;> rfl

/-- A revoked PSK: the code-table fetch sees a 401 on the first base URL and
throws the Sony auth error after exactly one request. -/
theorem fetchSonyCodeMap_401 (env : Env) (w : World) (tv : SavedTV)
    (host psk : String) (resp : HttpResp)
    (hhost : hostOf tv = some host) (hport : tv.port = none)
    (htrim : psk.jsTrim ≠ "")
    (hfetch : env.fetch (sonyCodeMapReq host psk.jsTrim) = Except.ok resp)
    (h401 : resp.status = 401) :
    fetchSonyRemoteCodeMap tv psk env w =
      (Except.error (createSonyAuthError none),
       { w with trace := (w.trace ++ [NetOp.http (sonyCodeMapReq host psk.jsTrim)]) }) := by
  have hR1 : env.fetch
      { url := "http://" ++ host ++ ":" ++ toString (80 : Int) ++ "/sony/" ++ "system"
        method := "POST", auth := some psk.jsTrim
        body := some (ReqBody.sonyRpc "system" "getRemoteControllerInfo") } = Except.ok resp :=
    hfetch
  have hrun1 : fetchWithTimeout
      { url := "http://" ++ host ++ ":" ++ toString (80 : Int) ++ "/sony/" ++ "system"
        method := "POST", auth := some psk.jsTrim
        body := some (ReqBody.sonyRpc "system" "getRemoteControllerInfo") } env w =
      (Except.ok resp,
       { w with trace := (w.trace ++ [NetOp.http
          { url := "http://" ++ host ++ ":" ++ toString (80 : Int) ++ "/sony/" ++ "system"
            method := "POST", auth := some psk.jsTrim
            body := some (ReqBody.sonyRpc "system" "getRemoteControllerInfo") }]) }) := by
    simp only [fetchWithTimeout, hR1]
  simp only [fetchSonyRemoteCodeMap, hhost, tv_bind_eq, tv_pure_eq, sonyJsonRpcRequest, hport]
  rw [show buildSonyBaseUrls host none =
    ["http://" ++ host ++ ":" ++ toString (80 : Int),
     "http://" ++ host ++ ":" ++ toString (10000 : Int),
     "https://" ++ host ++ ":" ++ toString (443 : Int)] from rfl]
  simp only [sonyRpcLoop, tv_bind_eq, tv_pure_eq]
  rw [if_pos htrim]
  rw [tvBind_assoc]
  rw [tvBind_run (attempt_run_ok hrun1)]
  simp only [h401]
  rw [if_neg (by decide)]
  by_cases hraw : resp.raw.jsTrim = ""
  · rw [if_pos hraw]
    simp [isSonyUnauthorizedResponse, tvBind, tvPure, throwM, sonyCodeMapReq]
  · rw [if_neg hraw]
    simp [isSonyUnauthorizedResponse, tvBind, tvPure, throwM, sonyCodeMapReq]

/-- Sony authentication failure: the cached PSK is cleared and a
PairingRequest is surfaced after exactly one network request — there is no
automatic retry without the credential. -/
theorem sony_auth_clear_no_retry (env : Env) (w : World) (tv : SavedTV)
    (host psk : String) (cs : List String) (resp : HttpResp) (command : RemoteCommand)
    (hhost : hostOf tv = some host) (hport : tv.port = none)
    (hload : w.sonyLoaded = true)
    (hcache : mapGet w.sonyPsk (getSonyAuthKey tv) = some psk)
    (hne : psk ≠ "") (htrim : psk.jsTrim ≠ "")
    (hcand : sonyKeyNameCandidates command = some cs)
    (hcodes : mapGet w.sonyCodes (getSonyAuthKey tv) = none)
    (hfetch : env.fetch (sonyCodeMapReq host psk.jsTrim) = Except.ok resp)
    (h401 : resp.status = 401) :
    sendSonyCommand tv command env w =
      (Except.ok (createSonyPairingRequiredResult
          (some "Sony authorization expired. Re-enter your TV Pre-Shared Key.")),
       { w with
           sonyPsk := (mapDelete w.sonyPsk (getSonyAuthKey tv)).2
           sonyCodes := (mapDelete w.sonyCodes (getSonyAuthKey tv)).2
           trace := (w.trace ++ [NetOp.http (sonyCodeMapReq host psk.jsTrim)]) }) := by
  have hjp : jsTruthy (some psk) = true := by simp [jsTruthy, hne]
  simp only [sendSonyCommand, hhost, tv_bind_eq, tv_pure_eq]
  rw [tvBind_run (ensureSony_noop env w hload)]
  rw [tvBind_run (show getWorld env w = (Except.ok w, w) from rfl)]
  simp only [hcache, hjp, hcand, hcodes, Bool.not_true, Option.getD_some, Option.isNone_some]
  rw [if_neg (by decide), if_neg (by decide)]
  rw [tvBind_run (attempt_run_error
    (fetchSonyCodeMap_401 env w tv host psk resp hhost hport htrim hfetch h401))]
  have hany := mapAny_of_mapGet hcache
  simp [isSonyAuthError, createSonyAuthError, clearSonyPsk, mapDelete, hany,
    tvBind, tvPure, getWorld, modifyWorld, persistSonyAuthTokens]

theorem clearSamsungAuth_run (tokenKey : String) (env : Env) (w : World) :
    clearSamsungAuth tokenKey false env w =
      (Except.ok (), { w with samsungTokens := (mapDelete w.samsungTokens tokenKey).2 }) := by
  simp [clearSamsungAuth, tvBind, modifyWorld, persistSamsungAuthCache, tvPure]

/-- Samsung authentication failure with a cached token: the token is cleared
and exactly one retry round without it follows; its failure is surfaced. -/
theorem samsung_auth_retry_once (env : Env) (w : World) (tv : SavedTV)
    (host token key : String) (ef : SamsungAttempt → Err)
    (hhost : hostOf tv = some host)
    (hload : w.samsungAuthLoaded = true)
    (hios : env.useNativeIOS = false)
    (hcache : mapGet w.samsungTokens (getSamsungTokenKey tv) = some token)
    (htok : token ≠ "")
    (henv : ∀ a, env.samsungSocket a = Except.error (ef a)) :
    sendSamsungKey tv key env w =
      (Except.ok (DispatchResult.mk false
          ("Unable to send Samsung command. " ++ describeError (some (ef
            { url := (buildSamsungUrls host none).getD 1 "", key := key, hasToken := false })))
          none),
       { w with
           samsungTokens := (mapDelete w.samsungTokens (getSamsungTokenKey tv)).2
           trace := (w.trace
             ++ (buildSamsungUrls host (some token)).map
                 (fun url => NetOp.wsSamsung { url := url, key := key, hasToken := true })
             ++ (buildSamsungUrls host none).map
                 (fun url => NetOp.wsSamsung { url := url, key := key, hasToken := false })) }) := by
  have hjt : jsTruthy (some token) = true := by simp [jsTruthy, htok]
  simp only [sendSamsungKey, hhost, tv_bind_eq, tv_pure_eq]
  rw [tvBind_run (ensureSamsung_noop env w hload)]
  rw [tvBind_run (show readEnv env w = (Except.ok env, w) from rfl)]
  rw [tvBind_run (show getWorld env w = (Except.ok w, w) from rfl)]
  simp only [hios, hcache]
  rw [tvBind_run (attempt_run_error
    (samsungTryWithToken_allFail env ef henv host key (getSamsungTokenKey tv) (some token) w))]
  simp only [hjt, if_true]
  rw [tvBind_run (clearSamsungAuth_run (getSamsungTokenKey tv) env _)]
  rw [tvBind_run (attempt_run_error
    (samsungTryWithToken_allFail env ef henv host key (getSamsungTokenKey tv) none _))]
  simp [tvPure, jsTruthy, List.append_assoc]

/-- Samsung profile with a cached (now stale) token. -/
def tvSamsungAuth : SavedTV :=
  SavedTV.mk "tv1" "Den" TVBrand.samsung (some "192.168.1.50") none

def worldSamsungTok : World :=
  { worldLoaded with samsungTokens := [("tv1:192.168.1.50", "tokS")] }

/-- Claim C3 (amended): the automatic auth-retry policy is brand-specific.
Samsung (`sendSamsungKey`): when a cached token is present and every socket
attempt fails, the token cache entry is cleared and exactly one retry round
without the token follows — the trace is one with-token round (both candidate
URLs) followed by exactly one without-token round, and the second failure is
surfaced as a failed `DispatchResult`; no further retry occurs. Sony
(`sendSonyCommand`): an authentication failure on the code-table request is NOT
retried without the credential — the cached PSK is cleared and a
`PairingRequest` is surfaced after exactly the one authenticated request. -/
theorem auth_retry_policy :
    (∀ (env : Env) (w : World) (tv : SavedTV) (host token key : String)
        (ef : SamsungAttempt → Err),
      hostOf tv = some host → w.samsungAuthLoaded = true → env.useNativeIOS = false →
      mapGet w.samsungTokens (getSamsungTokenKey tv) = some token → token ≠ "" →
      (∀ a, env.samsungSocket a = Except.error (ef a)) →
      sendSamsungKey tv key env w =
        (Except.ok (DispatchResult.mk false
            ("Unable to send Samsung command. " ++ describeError (some (ef
              { url := (buildSamsungUrls host none).getD 1 "", key := key, hasToken := false })))
            none),
         { w with
             samsungTokens := (mapDelete w.samsungTokens (getSamsungTokenKey tv)).2
             trace := (w.trace
               ++ (buildSamsungUrls host (some token)).map
                   (fun url => NetOp.wsSamsung { url := url, key := key, hasToken := true })
               ++ (buildSamsungUrls host none).map
                   (fun url => NetOp.wsSamsung { url := url, key := key, hasToken := false })) })) ∧
    (∀ (env : Env) (w : World) (tv : SavedTV) (host psk : String) (cs : List String)
        (resp : HttpResp) (command : RemoteCommand),
      hostOf tv = some host → tv.port = none → w.sonyLoaded = true →
      mapGet w.sonyPsk (getSonyAuthKey tv) = some psk → psk ≠ "" → psk.jsTrim ≠ "" →
      sonyKeyNameCandidates command = some cs →
      mapGet w.sonyCodes (getSonyAuthKey tv) = none →
      env.fetch (sonyCodeMapReq host psk.jsTrim) = Except.ok resp → resp.status = 401 →
      sendSonyCommand tv command env w =
        (Except.ok (createSonyPairingRequiredResult
            (some "Sony authorization expired. Re-enter your TV Pre-Shared Key.")),
         { w with
             sonyPsk := (mapDelete w.sonyPsk (getSonyAuthKey tv)).2
             sonyCodes := (mapDelete w.sonyCodes (getSonyAuthKey tv)).2
             trace := (w.trace ++ [NetOp.http (sonyCodeMapReq host psk.jsTrim)]) })) := by
  constructor
  · intro env w tv host token key ef hhost hload hios hcache htok henv
    exact samsung_auth_retry_once env w tv host token key ef hhost hload hios hcache htok henv
  · intro env w tv host psk cs resp command hhost hport hload hcache hne htrim hcand hcodes
      hfetch h401
    exact sony_auth_clear_no_retry env w tv host psk cs resp command hhost hport hload hcache
      hne htrim hcand hcodes hfetch h401

/-- Concrete run of both halves of the retry policy: four Samsung socket
attempts (one retry round) with the token cleared, and a single Sony request
with the PSK cleared and a pairing request surfaced. -/
theorem auth_retry_policy_witness :
    (sendSamsungKey tvSamsungAuth "KEY_VOLUP" envOffline worldSamsungTok).2.trace.length = 4 ∧
    mapGet (sendSamsungKey tvSamsungAuth "KEY_VOLUP" envOffline worldSamsungTok).2.samsungTokens
      "tv1:192.168.1.50" = none ∧
    (sendSonyCommand tvSonyAuth RemoteCommand.power envSony401 worldCreds).2.trace.length = 1 ∧
    (sendSonyCommand tvSonyAuth RemoteCommand.power envSony401 worldCreds).1 =
      Except.ok (createSonyPairingRequiredResult
        (some "Sony authorization expired. Re-enter your TV Pre-Shared Key.")) := by
  have hs := auth_retry_policy.1 envOffline worldSamsungTok tvSamsungAuth "192.168.1.50"
    "tokS" "KEY_VOLUP" (fun _ => Err.mk "offline" false) rfl rfl rfl rfl (by decide)
    (fun _ => rfl)
  have hy := auth_retry_policy.2 envSony401 worldCreds tvSonyAuth "192.168.1.50" "pskS"
    ["Power", "PowerOff", "TvPower"] (HttpResp.mk 401 "" none) RemoteCommand.power rfl rfl
    rfl rfl (by decide) (by decide) rfl rfl rfl rfl
  refine ⟨?_, ?_, ?_, ?_⟩
  · rw [hs]
    rfl
  · rw [hs]
    rfl
  · rw [hy]
    rfl
  · rw [hy]

/-! ## Claim C5 -/

/-- Vizio profile with no cached auth token. -/
def tvVizioP : SavedTV := SavedTV.mk "tv1" "Den" TVBrand.vizio (some "192.168.1.50") none

/-- The challenge the TV hands back from `/pairing/start`. -/
def vizioChallengeP : VizioPairingChallenge :=
  { challengeType := 1, pairingReqToken := 123, deviceId := "tvremote-tv1" }

def vizioStartReq : HttpReq :=
  { url := "https://192.168.1.50:7345/pairing/start", method := "PUT"
    body := some (ReqBody.vizioPairingStart "tvremote-tv1" "TV Remote App") }

def vizioPairReq : HttpReq :=
  { url := "https://192.168.1.50:7345/pairing/pair", method := "PUT"
    body := some (ReqBody.vizioPairingPair "tvremote-tv1" 1 "123456" 123) }

def vizioKeyReq : HttpReq :=
  { url := "https://192.168.1.50:7345/key_command/", method := "PUT"
    auth := some "tokV9", body := some (ReqBody.vizioKeyCommand 11 2 "KEYPRESS") }

/-- A Vizio TV on its first reachable base URL: `/pairing/start` answers with a
structured challenge, `/pairing/pair` with an auth token, `/key_command/` with
`SUCCESS`. -/
def envVizioPair : Env :=
  { envOffline with
    fetch := fun req =>
      if req = vizioStartReq then
        Except.ok (HttpResp.mk 200 "{}" (some (JsVal.jobj
          [("STATUS", JsVal.jobj [("RESULT", JsVal.jstr "SUCCESS")]),
           ("ITEM", JsVal.jobj
             [("PAIRING_REQ_TOKEN", JsVal.jnum 123),
              ("CHALLENGE_TYPE", JsVal.jnum 1)])])))
      else if req = vizioPairReq then
        Except.ok (HttpResp.mk 200 "{}" (some (JsVal.jobj
          [("STATUS", JsVal.jobj [("RESULT", JsVal.jstr "SUCCESS")]),
           ("ITEM", JsVal.jobj [("AUTH_TOKEN", JsVal.jstr "tokV9")])])))
      else if req = vizioKeyReq then
        Except.ok (HttpResp.mk 200 "{}" (some (JsVal.jobj
          [("STATUS", JsVal.jobj [("RESULT", JsVal.jstr "SUCCESS")])])))
      else Except.error (Err.mk "offline" false) }

/-- Module state after the first `power` dispatch (challenge cached). -/
def vizioW1 : World :=
  (dispatchWifiCommand tvVizioP RemoteCommand.power envVizioPair worldLoaded).2

/-- Module state after `completeVizioPairing` (token cached). -/
def vizioW2 : World :=
  (completeVizioPairing tvVizioP "123456" (some vizioChallengeP) envVizioPair vizioW1).2

/-- Claim C5: the Vizio pairing scenario. With no cached token, dispatching
`power` returns `ok := false` carrying the Vizio PairingRequest with the TV's
challenge; `completeVizioPairing` with the 6-digit PIN and that challenge
returns `ok := true` and caches the auth token; a subsequent `power` dispatch
succeeds with the cached token, issuing only the one `/key_command/` request —
no new challenge and no pairing round trip. -/
theorem vizio_pairing_scenario :
    mapGet worldLoaded.vizioTokens (getVizioAuthKey tvVizioP) = none ∧
    (dispatchWifiCommand tvVizioP RemoteCommand.power envVizioPair worldLoaded).1 =
      Except.ok (DispatchResult.mk false
        "Enter the PIN shown on your Vizio TV to finish pairing."
        (some (RemotePairing.vizio vizioChallengeP))) ∧
    (completeVizioPairing tvVizioP "123456" (some vizioChallengeP) envVizioPair vizioW1).1 =
      Except.ok (DispatchResult.mk true "Vizio pairing complete." none) ∧
    mapGet vizioW2.vizioTokens (getVizioAuthKey tvVizioP) = some "tokV9" ∧
    (dispatchWifiCommand tvVizioP RemoteCommand.power envVizioPair vizioW2).1 =
      Except.ok (DispatchResult.mk true "Command sent to Vizio TV." none) ∧
    (dispatchWifiCommand tvVizioP RemoteCommand.power envVizioPair vizioW2).2.trace =
      vizioW2.trace ++ [NetOp.http vizioKeyReq] := by
  exact ⟨rfl, rfl, rfl, rfl, rfl, rfl⟩

/-! ## Claim C8 -/

/-- Spec-side: the first candidate for which `f` yields a code. -/
def specFirstSome (f : String → Option String) : List String → Option String
  | [] => none
  | c :: rest =>
    match f c with
    | some v => some v
    | none => specFirstSome f rest

/-- Spec-side exact resolution: the table entry of the first candidate whose
normalized name is a key of the table. -/
def specSonyExact (codeMap : List (String × String)) (cs : List String) : Option String :=
  specFirstSome (fun c => mapGet codeMap (normalizeSonyCodeName c)) cs

/-- Spec-side fuzzy resolution: the value of the first table entry whose key
contains the normalized candidate as a substring, scanning candidates in
order. -/
def specSonyFuzzy (codeMap : List (String × String)) (cs : List String) : Option String :=
  specFirstSome (fun c =>
    (codeMap.find? (fun p => strContains p.1 (normalizeSonyCodeName c))).map (·.2)) cs

theorem mapGet_mem {β : Type} {m : List (String × β)} {k : String} {v : β}
    (h : mapGet m k = some v) : ∃ p ∈ m, p.2 = v := by
  simp only [mapGet, Option.map_eq_some'] at h
  obtain ⟨p, hp, hv⟩ := h
  exact ⟨p, List.mem_of_find?_eq_some hp, hv⟩

theorem sonyExactLoop_eq_spec (codeMap : List (String × String))
    (hvals : ∀ p ∈ codeMap, p.2 ≠ "") :
    ∀ cs, sonyExactLoop codeMap cs = specSonyExact codeMap cs := by
  intro cs
  induction cs with
  | nil => rfl
  | cons c rest ih =>
    simp only [sonyExactLoop, specSonyExact, specFirstSome]
    cases hg : mapGet codeMap (normalizeSonyCodeName c) with
    | none => exact ih
    | some exact =>
      obtain ⟨p, hp, hv⟩ := mapGet_mem hg
      have hxne : exact ≠ "" := hv ▸ hvals p hp
      simp [hxne]

theorem sonyFuzzyLoop_eq_spec (codeMap : List (String × String)) :
    ∀ cs, sonyFuzzyLoop codeMap cs = specSonyFuzzy codeMap cs := by
  intro cs
  induction cs with
  | nil => rfl
  | cons c rest ih =>
    simp only [sonyFuzzyLoop, specSonyFuzzy, specFirstSome]
    cases hg : codeMap.find? (fun p => strContains p.1 (normalizeSonyCodeName c)) with
    | none => simpa using ih
    | some p => simp

/-- Claim C8: Sony command resolution order. For every command with a
non-empty candidate list and every table with non-empty values (the shape
`fetchSonyRemoteCodeMap` produces), `findSonyIrccCode` returns the exact match
of the first candidate with a table entry; the substring (fuzzy) pass is
consulted only when no candidate matches exactly; and it returns `none`
exactly when neither pass finds anything. -/
theorem sony_code_resolution_order (command : RemoteCommand) (cs : List String)
    (codeMap : List (String × String))
    (hcand : sonyKeyNameCandidates command = some cs) (hne : cs ≠ [])
    (hvals : ∀ p ∈ codeMap, p.2 ≠ "") :
    (findSonyIrccCode command codeMap =
      match specSonyExact codeMap cs with
      | some v => some v
      | none => specSonyFuzzy codeMap cs) ∧
    (findSonyIrccCode command codeMap = none ↔
      specSonyExact codeMap cs = none ∧ specSonyFuzzy codeMap cs = none) := by
  have hmain : findSonyIrccCode command codeMap =
      match specSonyExact codeMap cs with
      | some v => some v
      | none => specSonyFuzzy codeMap cs := by
    simp only [findSonyIrccCode, hcand]
    rw [if_neg (by simpa [List.isEmpty_iff] using hne)]
    rw [sonyExactLoop_eq_spec codeMap hvals, sonyFuzzyLoop_eq_spec codeMap]
  refine ⟨hmain, ?_⟩
  rw [hmain]
  cases specSonyExact codeMap cs <;> simp

/-- Concrete resolution runs: `power`'s first candidate wins exactly; with no
exact entry the fuzzy pass matches a key containing the normalized candidate;
with neither, no code is returned. -/
theorem sony_code_resolution_order_witness :
    (findSonyIrccCode RemoteCommand.power [("power", "AAAA"), ("poweroff", "BBBB")] =
      match specSonyExact [("power", "AAAA"), ("poweroff", "BBBB")]
          ["Power", "PowerOff", "TvPower"] with
      | some v => some v
      | none => specSonyFuzzy [("power", "AAAA"), ("poweroff", "BBBB")]
          ["Power", "PowerOff", "TvPower"]) ∧
    (findSonyIrccCode RemoteCommand.power [("power", "AAAA"), ("poweroff", "BBBB")] = none ↔
      specSonyExact [("power", "AAAA"), ("poweroff", "BBBB")]
          ["Power", "PowerOff", "TvPower"] = none ∧
      specSonyFuzzy [("power", "AAAA"), ("poweroff", "BBBB")]
          ["Power", "PowerOff", "TvPower"] = none) := by
  exact sony_code_resolution_order RemoteCommand.power ["Power", "PowerOff", "TvPower"]
    [("power", "AAAA"), ("poweroff", "BBBB")] rfl (by decide) (by decide)

theorem mapSet_mem {β : Type} {m : List (String × β)} {k : String} {v : β} {p : String × β}
    (h : p ∈ mapSet m k v) : p = (k, v) ∨ p ∈ m := by
  unfold mapSet at h
  split at h
  · rw [List.mem_map] at h
    obtain ⟨q, hq, he⟩ := h
    by_cases hk : q.1 = k
    · rw [if_pos hk] at he
      exact Or.inl he.symm
    · rw [if_neg hk] at he
      exact Or.inr (he ▸ hq)
  · rcases List.mem_append.mp h with hm | hs
    · exact Or.inr hm
    · exact Or.inl (List.mem_singleton.mp hs)

/-- Every IRCC entry `extractSonyRemoteCodes` keeps has a non-empty value. -/
theorem extractSonyRemoteCodes_values_nonempty (body : Option JsVal) :
    ∀ i ∈ extractSonyRemoteCodes body, i.value ≠ "" := by
  intro i hi
  unfold extractSonyRemoteCodes at hi
  split at hi
  · split at hi
    · exact absurd hi (List.not_mem_nil i)
    · split at hi
      · rw [List.mem_filterMap] at hi
        obtain ⟨entry, _, he⟩ := hi
        split at he
        · split at he
          · exact absurd he (by simp)
          · rename_i hcond
            cases he
            intro h2
            simp only [] at h2
            exact hcond (by simp [h2])
        · exact absurd he (by simp)
      · exact absurd hi (List.not_mem_nil i)
  · exact absurd hi (List.not_mem_nil i)

/-- Folding IRCC entries with non-empty values into a table keeps every table
value non-empty — the hypothesis of `sony_code_resolution_order` holds for
every table `fetchSonyRemoteCodeMap` builds. -/
theorem sonyCodeTable_values_nonempty (body : Option JsVal) :
    ∀ p ∈ (extractSonyRemoteCodes body).foldl
      (fun m item => mapSet m (normalizeSonyCodeName item.name) item.value) [],
      p.2 ≠ "" := by
  have hgen : ∀ (infos : List SonyIrccInfo), (∀ i ∈ infos, i.value ≠ "") →
      ∀ (m0 : List (String × String)), (∀ p ∈ m0, p.2 ≠ "") →
      ∀ p ∈ infos.foldl
        (fun m item => mapSet m (normalizeSonyCodeName item.name) item.value) m0,
        p.2 ≠ "" := by
    intro infos
    induction infos with
    | nil => intro _ m0 hm0 p hp; exact hm0 p hp
    | cons i rest ih =>
      intro hinfos m0 hm0 p hp
      refine ih (fun j hj => hinfos j (List.mem_cons_of_mem i hj)) _ ?_ p hp
      intro q hq
      rcases mapSet_mem hq with hq | hq
      · rw [hq]
        exact hinfos i (List.mem_cons_self i rest)
      · exact hm0 q hq
  exact hgen _ (extractSonyRemoteCodes_values_nonempty body) [] (by intro p hp; cases hp)

/-! ## Claims C7 and C9: scanner semantics -/

/-- The full per-host outcome of one worker iteration: `probeHost`, then
`probeGenericHost` for explicit hosts on a miss. -/
def probeFullFn (probe generic : String → Option DiscoveredTV) (ie : String → Bool)
    (h : String) : Option DiscoveredTV :=
  match probe h with
  | some tv => some tv
  | none => if ie h then generic h else none

/-- The host a worker phase is busy with. -/
def phaseHost : WPhase → Option String
  | WPhase.probing h => some h
  | WPhase.genericProbing h => some h
  | _ => none

/-- The results a busy worker phase will still deliver. -/
def phaseOut (probe generic : String → Option DiscoveredTV) (ie : String → Bool) :
    WPhase → List DiscoveredTV
  | WPhase.probing h => (probeFullFn probe generic ie h).toList
  | WPhase.genericProbing h => (generic h).toList
  | _ => []

def inflightHosts (ws : List WPhase) : List String := ws.filterMap phaseHost

def inflightOut (probe generic : String → Option DiscoveredTV) (ie : String → Bool)
    (ws : List WPhase) : List DiscoveredTV :=
  ws.flatMap (phaseOut probe generic ie)

/-- The run invariant of the worker pool, for non-aborted runs over a host
list without empty entries: the discovered list plus what the busy workers
will still deliver is a permutation of the full outcomes of the hosts taken so
far; hosts in play are pairwise distinct; a finished worker means the cursor
is exhausted. -/
def ScanInv (probe generic : String → Option DiscoveredTV) (ie : String → Bool)
    (hosts : List String) (s : ScanState) : Prop :=
  s.aborted = false ∧
  s.cursor ≤ hosts.length ∧
  s.seen = s.discovered.map (·.host) ∧
  ((↑s.discovered : Multiset DiscoveredTV) +
      ↑(inflightOut probe generic ie s.workers) =
    ↑((hosts.take s.cursor).filterMap (probeFullFn probe generic ie))) ∧
  ((↑(s.discovered.map (·.host)) + ↑(inflightHosts s.workers) :
      Multiset String)).Nodup ∧
  (∀ h ∈ s.discovered.map (·.host), h ∈ hosts.take s.cursor) ∧
  (∀ h ∈ inflightHosts s.workers, h ∈ hosts.take s.cursor) ∧
  (WPhase.done ∈ s.workers → s.cursor = hosts.length)

theorem inflightHosts_append (a b : List WPhase) :
    inflightHosts (a ++ b) = inflightHosts a ++ inflightHosts b :=
  List.filterMap_append a b phaseHost

theorem inflightOut_append (probe generic : String → Option DiscoveredTV)
    (ie : String → Bool) (a b : List WPhase) :
    inflightOut probe generic ie (a ++ b) =
      inflightOut probe generic ie a ++ inflightOut probe generic ie b :=
  List.flatMap_append a b (phaseOut probe generic ie)

theorem dedupFirst_sound {α : Type} [DecidableEq α] (l : List α) :
    (dedupFirst l).Nodup ∧ ∀ x ∈ dedupFirst l, x ∈ l := by
  have hgen : ∀ (l : List α) (acc : List α), acc.Nodup →
      (l.foldl (fun acc x => if x ∈ acc then acc else acc ++ [x]) acc).Nodup ∧
      ∀ x ∈ l.foldl (fun acc x => if x ∈ acc then acc else acc ++ [x]) acc,
        x ∈ acc ∨ x ∈ l := by
    intro l
    induction l with
    | nil => intro acc hacc; exact ⟨hacc, fun x hx => Or.inl hx⟩
    | cons a rest ih =>
      intro acc hacc
      by_cases ha : a ∈ acc
      · have := ih acc hacc
        simp only [List.foldl_cons, if_pos ha]
        exact ⟨this.1, fun x hx => (this.2 x hx).imp id (List.mem_cons_of_mem a)⟩
      · have hacc2 : (acc ++ [a]).Nodup := by
          simp [List.nodup_append, hacc, ha]
        have := ih (acc ++ [a]) hacc2
        simp only [List.foldl_cons, if_neg ha]
        refine ⟨this.1, fun x hx => ?_⟩
        rcases this.2 x hx with hx2 | hx2
        · rcases List.mem_append.mp hx2 with hx3 | hx3
          · exact Or.inl hx3
          · exact Or.inr (List.mem_cons.mpr (Or.inl (List.mem_singleton.mp hx3)))
        · exact Or.inr (List.mem_cons_of_mem a hx2)
  have h := hgen l [] List.nodup_nil
  exact ⟨h.1, fun x hx => (h.2 x hx).resolve_left (List.not_mem_nil x)⟩

/-! Every probe reports the probed host in the `host` field. -/

theorem probeRokuPure_host (env : Env) (host : String) (tv : DiscoveredTV)
    (h : probeRokuPure env host = some tv) : tv.host = host := by
  unfold probeRokuPure at h
  simp only [] at h
  repeat' split at h
  all_goals first | (cases h; rfl) | exact Option.noConfusion h

theorem probeSamsungPure_host (env : Env) (host : String) (b : Bool) (tv : DiscoveredTV)
    (h : probeSamsungPure env host b = some tv) : tv.host = host := by
  unfold probeSamsungPure at h
  simp only [] at h
  repeat' split at h
  all_goals first
    | (cases h; rfl)
    | exact Option.noConfusion h
    | (cases h; rename_i heq; (repeat' split at heq) <;>
       first | (cases heq; rfl) | exact Option.noConfusion heq)

theorem probeSonyPure_host (env : Env) (host : String) (tv : DiscoveredTV)
    (h : probeSonyPure env host = some tv) : tv.host = host := by
  unfold probeSonyPure at h
  simp only [] at h
  repeat' split at h
  all_goals first | (cases h; rfl) | exact Option.noConfusion h

theorem probeLGPure_host (env : Env) (host : String) (b : Bool) (tv : DiscoveredTV)
    (h : probeLGPure env host b = some tv) : tv.host = host := by
  unfold probeLGPure at h
  simp only [] at h
  repeat' split at h
  all_goals first
    | (cases h; rfl)
    | exact Option.noConfusion h
    | (cases h; rename_i heq; (repeat' split at heq) <;>
       first | (cases heq; rfl) | exact Option.noConfusion heq)

theorem probeVizioPure_host (env : Env) (host : String) (tv : DiscoveredTV)
    (h : probeVizioPure env host = some tv) : tv.host = host := by
  unfold probeVizioPure at h
  simp only [] at h
  repeat' split at h
  all_goals first | (cases h; rfl) | exact Option.noConfusion h

theorem probePhilipsLoopPure_host (env : Env) (host : String) :
    ∀ (l : List String) (tv : DiscoveredTV),
      probePhilipsLoopPure env host l = some tv → tv.host = host := by
  intro l
  induction l with
  | nil => intro tv h; exact Option.noConfusion h
  | cons e rest ih =>
    intro tv h
    unfold probePhilipsLoopPure at h
    simp only [] at h
    repeat' split at h
    all_goals try simp only [] at h
    all_goals repeat' split at h
    all_goals first | (cases h; rfl) | exact Option.noConfusion h | exact ih tv h

theorem probePanasonicLoopPure_host (env : Env) (host : String) :
    ∀ (l : List String) (tv : DiscoveredTV),
      probePanasonicLoopPure env host l = some tv → tv.host = host := by
  intro l
  induction l with
  | nil => intro tv h; exact Option.noConfusion h
  | cons e rest ih =>
    intro tv h
    unfold probePanasonicLoopPure at h
    simp only [] at h
    repeat' split at h
    all_goals try simp only [] at h
    all_goals repeat' split at h
    all_goals first | (cases h; rfl) | exact Option.noConfusion h | exact ih tv h

theorem probeFireTvPure_host (env : Env) (host : String) (tv : DiscoveredTV)
    (h : probeFireTvPure env host = some tv) : tv.host = host := by
  unfold probeFireTvPure at h
  try simp only [] at h
  repeat' split at h
  all_goals first | (cases h; rfl) | exact Option.noConfusion h

theorem probeChromecastPure_host (env : Env) (host : String) (tv : DiscoveredTV)
    (h : probeChromecastPure env host = some tv) : tv.host = host := by
  unfold probeChromecastPure at h
  simp only [] at h
  repeat' split at h
  all_goals first | (cases h; rfl) | exact Option.noConfusion h

theorem probeBridgePure_host (env : Env) (host : String) (tv : DiscoveredTV)
    (h : probeBridgePure env host = some tv) : tv.host = host := by
  unfold probeBridgePure at h
  try simp only [] at h
  repeat' split at h
  all_goals first | (cases h; rfl) | exact Option.noConfusion h

theorem probeGenericLoopPure_host (env : Env) (host : String) :
    ∀ (l : List Int) (tv : DiscoveredTV),
      probeGenericLoopPure env host l = some tv → tv.host = host := by
  intro l
  induction l with
  | nil => intro tv h; exact Option.noConfusion h
  | cons p rest ih =>
    intro tv h
    unfold probeGenericLoopPure at h
    try simp only [] at h
    repeat' split at h
    all_goals try simp only [] at h
    all_goals repeat' split at h
    all_goals first | (cases h; rfl) | exact Option.noConfusion h | exact ih tv h

theorem probeGenericHostPure_host (env : Env) (host : String) (tv : DiscoveredTV)
    (h : probeGenericHostPure env host = some tv) : tv.host = host :=
  probeGenericLoopPure_host env host genericProbePorts tv h

theorem probeHostPure_host (env : Env) (host : String) (b : Bool) (tv : DiscoveredTV)
    (h : probeHostPure env host b = some tv) : tv.host = host := by
  unfold probeHostPure at h
  obtain ⟨o, ho, hid⟩ := List.exists_of_findSome?_eq_some h
  simp only [id] at hid
  subst hid
  simp only [List.mem_cons, List.not_mem_nil, or_false] at ho
  rcases ho with h1 | h1 | h1 | h1 | h1 | h1 | h1 | h1 | h1 | h1
  · exact probeRokuPure_host env host tv h1.symm
  · exact probeSamsungPure_host env host b tv h1.symm
  · exact probeSonyPure_host env host tv h1.symm
  · exact probeLGPure_host env host b tv h1.symm
  · exact probeVizioPure_host env host tv h1.symm
  · exact probePhilipsLoopPure_host env host _ tv h1.symm
  · exact probePanasonicLoopPure_host env host _ tv h1.symm
  · exact probeFireTvPure_host env host tv h1.symm
  · exact probeChromecastPure_host env host tv h1.symm
  · exact probeBridgePure_host env host tv h1.symm

theorem inflightHosts_cons (ph : WPhase) (rest : List WPhase) :
    inflightHosts (ph :: rest) = (phaseHost ph).toList ++ inflightHosts rest := by
  cases hp : phaseHost ph <;>
    simp [inflightHosts, List.filterMap_cons, hp]

theorem inflightOut_cons (probe generic : String → Option DiscoveredTV) (ie : String → Bool)
    (ph : WPhase) (rest : List WPhase) :
    inflightOut probe generic ie (ph :: rest) =
      phaseOut probe generic ie ph ++ inflightOut probe generic ie rest := by
  simp [inflightOut, List.flatMap_cons]

theorem inflightOut_replicate_idle (probe generic : String → Option DiscoveredTV)
    (ie : String → Bool) (c : Nat) :
    inflightOut probe generic ie (List.replicate c WPhase.idle) = [] := by
  induction c with
  | zero => rfl
  | succ n ih => rw [List.replicate_succ, inflightOut_cons, ih]; rfl

theorem inflightHosts_replicate_idle (c : Nat) :
    inflightHosts (List.replicate c WPhase.idle) = [] := by
  induction c with
  | zero => rfl
  | succ n ih => rw [List.replicate_succ, inflightHosts_cons, ih]; rfl

theorem inflightOut_all_done (probe generic : String → Option DiscoveredTV)
    (ie : String → Bool) (ws : List WPhase) (h : ws.all (· = WPhase.done) = true) :
    inflightOut probe generic ie ws = [] := by
  induction ws with
  | nil => rfl
  | cons ph rest ih =>
    simp only [List.all_cons, Bool.and_eq_true] at h
    have hph : ph = WPhase.done := by simpa using h.1
    rw [hph, inflightOut_cons, ih h.2]
    rfl

theorem inflightHosts_all_done (ws : List WPhase)
    (h : ws.all (· = WPhase.done) = true) : inflightHosts ws = [] := by
  induction ws with
  | nil => rfl
  | cons ph rest ih =>
    simp only [List.all_cons, Bool.and_eq_true] at h
    have hph : ph = WPhase.done := by simpa using h.1
    rw [hph, inflightHosts_cons, ih h.2]
    rfl

theorem workerStep_workers_length (probe generic : String → Option DiscoveredTV)
    (ie : String → Bool) (hosts : List String) (s : ScanState) (i : Nat) :
    (workerStep probe generic ie hosts s i).1.workers.length = s.workers.length := by
  unfold workerStep
  repeat' split
  all_goals try (by_cases hh : hosts[s.cursor]?.getD "" = "" <;> simp [hh])
  all_goals simp

theorem runSched_workers_length (probe generic : String → Option DiscoveredTV)
    (ie : String → Bool) (hosts : List String) :
    ∀ (sch : List SchedItem) (s : ScanState),
      (runSched probe generic ie hosts sch s).1.workers.length = s.workers.length := by
  intro sch
  induction sch with
  | nil => intro s; rfl
  | cons item rest ih =>
    intro s
    unfold runSched
    cases item with
    | work i =>
      simp only [scanStep]
      rw [ih]
      exact workerStep_workers_length probe generic ie hosts s i
    | abortSig =>
      simp only [scanStep]
      rw [ih]

theorem list_decomp_of_get? {α : Type} {l : List α} {n : Nat} {a : α}
    (h : l.get? n = some a) : l = l.take n ++ a :: l.drop (n + 1) := by
  simp only [List.get?_eq_getElem?] at h
  obtain ⟨hn, he⟩ := List.getElem?_eq_some.mp h
  conv_lhs => rw [← List.take_append_drop n l]
  rw [List.drop_eq_getElem_cons hn, he]

theorem not_mem_take_of_nodup {α : Type} {l : List α} {n : Nat} {a : α}
    (hnd : l.Nodup) (h : l.get? n = some a) : a ∉ l.take n := by
  have hdec := list_decomp_of_get? h
  have hnd2 : (l.take n ++ a :: l.drop (n + 1)).Nodup := hdec ▸ hnd
  have := List.nodup_middle.mp hnd2
  have hnotin := (List.nodup_cons.mp this).1
  exact fun hmem => hnotin (List.mem_append_left _ hmem)

theorem filterMap_singleton_toList {α β : Type} (f : α → Option β) (a : α) :
    [a].filterMap f = (f a).toList := by
  cases hf : f a <;> simp [List.filterMap_cons, hf]

theorem mcoe_append {α : Type} (a b : List α) : (↑(a ++ b) : Multiset α) = ↑a + ↑b := rfl

theorem mcoe_cons {α : Type} (x : α) (l : List α) :
    (↑(x :: l) : Multiset α) = {x} + ↑l := rfl

theorem mcoe_nil {α : Type} : (↑([] : List α) : Multiset α) = 0 := rfl

/-- One worker step preserves the scan invariant (abort never signalled). -/
theorem workerStep_inv (probe generic : String → Option DiscoveredTV) (ie : String → Bool)
    (hosts : List String) (hnodup : hosts.Nodup) (hne : "" ∉ hosts)
    (hprobe : ∀ h tv, probe h = some tv → tv.host = h)
    (hgen : ∀ h tv, generic h = some tv → tv.host = h)
    (s : ScanState) (i : Nat) (hinv : ScanInv probe generic ie hosts s) :
    ScanInv probe generic ie hosts (workerStep probe generic ie hosts s i).1 := by
  obtain ⟨hA1, hA2, hA3, hA4, hA5, hA6, hA7, hA8⟩ := hinv
  unfold workerStep
  cases hget : s.workers.get? i with
  | none => exact ⟨hA1, hA2, hA3, hA4, hA5, hA6, hA7, hA8⟩
  | some ph =>
    have hn : i < s.workers.length := by
      have h2 := hget
      simp only [List.get?_eq_getElem?] at h2
      exact (List.getElem?_eq_some.mp h2).1
    have hdec : s.workers = s.workers.take i ++ ph :: s.workers.drop (i + 1) :=
      list_decomp_of_get? hget
    have hset : ∀ x, s.workers.set i x =
        s.workers.take i ++ x :: s.workers.drop (i + 1) :=
      fun x => List.set_eq_take_cons_drop x hn
    have hIH : inflightHosts s.workers =
        inflightHosts (s.workers.take i) ++
          ((phaseHost ph).toList ++ inflightHosts (s.workers.drop (i + 1))) := by
      conv_lhs => rw [hdec]
      rw [inflightHosts_append, inflightHosts_cons]
    have hIHx : ∀ x, inflightHosts (s.workers.set i x) =
        inflightHosts (s.workers.take i) ++
          ((phaseHost x).toList ++ inflightHosts (s.workers.drop (i + 1))) := by
      intro x
      rw [hset, inflightHosts_append, inflightHosts_cons]
    have hOutFlight : inflightOut probe generic ie s.workers =
        inflightOut probe generic ie (s.workers.take i) ++
          (phaseOut probe generic ie ph ++
            inflightOut probe generic ie (s.workers.drop (i + 1))) := by
      conv_lhs => rw [hdec]
      rw [inflightOut_append, inflightOut_cons]
    have hIOx : ∀ x, inflightOut probe generic ie (s.workers.set i x) =
        inflightOut probe generic ie (s.workers.take i) ++
          (phaseOut probe generic ie x ++
            inflightOut probe generic ie (s.workers.drop (i + 1))) := by
      intro x
      rw [hset, inflightOut_append, inflightOut_cons]
    have hdone_mem : ∀ x, x ≠ WPhase.done →
        WPhase.done ∈ s.workers.set i x → WPhase.done ∈ s.workers := by
      intro x hx hmem
      rw [hset] at hmem
      rcases List.mem_append.mp hmem with h1 | h1
      · rw [hdec]
        exact List.mem_append_left _ h1
      · rcases List.mem_cons.mp h1 with h2 | h2
        · exact absurd h2.symm hx
        · rw [hdec]
          exact List.mem_append_right _ (List.mem_cons_of_mem _ h2)
    cases ph with
    | done => exact ⟨hA1, hA2, hA3, hA4, hA5, hA6, hA7, hA8⟩
    | idle =>
      simp only []
      have hIH0 : inflightHosts s.workers =
          inflightHosts (s.workers.take i) ++ inflightHosts (s.workers.drop (i + 1)) := by
        rw [hIH]
        simp [phaseHost]
      have hIO0 : inflightOut probe generic ie s.workers =
          inflightOut probe generic ie (s.workers.take i) ++
            inflightOut probe generic ie (s.workers.drop (i + 1)) := by
        rw [hOutFlight]
        simp [phaseOut]
      by_cases hcur : s.cursor < hosts.length
      · rw [if_pos hcur, if_neg (by simp [hA1])]
        obtain ⟨h0, hh0⟩ : ∃ h0, hosts.get? s.cursor = some h0 := by
          rw [List.get?_eq_getElem?]
          exact ⟨hosts[s.cursor], List.getElem?_eq_getElem hcur⟩
        have hmem0 : h0 ∈ hosts := List.get?_mem hh0
        have h0ne : ¬((hosts.get? s.cursor).getD "" = "") := by
          rw [hh0]
          exact fun he => hne (he ▸ hmem0)
        rw [if_neg h0ne]
        simp only [hh0, Option.getD_some]
        have htake : hosts.take (s.cursor + 1) = hosts.take s.cursor ++ [h0] := by
          have hh0g := hh0
          rw [List.get?_eq_getElem?] at hh0g
          rw [List.take_succ, hh0g]
          rfl
        have h0take : h0 ∉ hosts.take s.cursor := not_mem_take_of_nodup hnodup hh0
        have hIHn : inflightHosts (s.workers.set i (WPhase.probing h0)) =
            inflightHosts (s.workers.take i) ++
              (h0 :: inflightHosts (s.workers.drop (i + 1))) := by
          rw [hIHx]
          simp [phaseHost]
        have hIOn : inflightOut probe generic ie (s.workers.set i (WPhase.probing h0)) =
            inflightOut probe generic ie (s.workers.take i) ++
              ((probeFullFn probe generic ie h0).toList ++
                inflightOut probe generic ie (s.workers.drop (i + 1))) := by
          rw [hIOx]
          simp [phaseOut]
        refine ⟨hA1, hcur, hA3, ?_, ?_, ?_, ?_, ?_⟩
        · rw [hIOn, htake, List.filterMap_append, filterMap_singleton_toList]
          rw [hIO0] at hA4
          simp only [mcoe_append] at hA4 ⊢
          rw [← hA4]
          abel
        · rw [hIHn]
          rw [hIH0] at hA5
          have hnotin : h0 ∉ (↑(s.discovered.map (·.host)) +
              ↑(inflightHosts (s.workers.take i) ++
                inflightHosts (s.workers.drop (i + 1))) : Multiset String) := by
            intro hmem
            rcases Multiset.mem_add.mp hmem with hm | hm
            · exact h0take (hA6 h0 (Multiset.mem_coe.mp hm))
            · refine h0take (hA7 h0 ?_)
              rw [hIH0]
              exact Multiset.mem_coe.mp hm
          have heq : (↑(s.discovered.map (·.host)) +
              ↑(inflightHosts (s.workers.take i) ++
                (h0 :: inflightHosts (s.workers.drop (i + 1)))) : Multiset String) =
              (↑(s.discovered.map (·.host)) +
                ↑(inflightHosts (s.workers.take i) ++
                  inflightHosts (s.workers.drop (i + 1)))) + {h0} := by
            simp only [mcoe_append, mcoe_cons, mcoe_nil]
            abel
          rw [heq, Multiset.nodup_add]
          exact ⟨hA5, Multiset.nodup_singleton h0,
            Multiset.disjoint_singleton.mpr hnotin⟩
        · intro x hx
          rw [htake]
          exact List.mem_append_left _ (hA6 x hx)
        · intro x hx
          rw [hIHn] at hx
          rcases List.mem_append.mp hx with h1 | h1
          · rw [htake]
            refine List.mem_append_left _ (hA7 x ?_)
            rw [hIH0]
            exact List.mem_append_left _ h1
          · rcases List.mem_cons.mp h1 with h2 | h2
            · rw [htake, h2]
              exact List.mem_append_right _ (List.mem_singleton.mpr rfl)
            · rw [htake]
              refine List.mem_append_left _ (hA7 x ?_)
              rw [hIH0]
              exact List.mem_append_right _ h2
        · intro hdone
          have hws := hdone_mem (WPhase.probing h0) (by simp) hdone
          have := hA8 hws
          omega
      · rw [if_neg hcur]
        have hclen : s.cursor = hosts.length := by omega
        have hIHn : inflightHosts (s.workers.set i WPhase.done) =
            inflightHosts (s.workers.take i) ++
              inflightHosts (s.workers.drop (i + 1)) := by
          rw [hIHx]
          simp [phaseHost]
        have hIOn : inflightOut probe generic ie (s.workers.set i WPhase.done) =
            inflightOut probe generic ie (s.workers.take i) ++
              inflightOut probe generic ie (s.workers.drop (i + 1)) := by
          rw [hIOx]
          simp [phaseOut]
        refine ⟨hA1, hA2, hA3, ?_, ?_, hA6, ?_, fun _ => hclen⟩
        · rw [hIOn, ← hIO0]
          exact hA4
        · rw [hIHn, ← hIH0]
          exact hA5
        · intro x hx
          rw [hIHn, ← hIH0] at hx
          exact hA7 x hx
    | probing h =>
      simp only []
      have hh_in : h ∈ inflightHosts s.workers := by
        rw [hIH]
        exact List.mem_append_right _ (List.mem_append_left _ (by simp [phaseHost]))
      have hh_take : h ∈ hosts.take s.cursor := hA7 h hh_in
      have hLnodup : (s.discovered.map (·.host) ++ inflightHosts s.workers).Nodup := by
        have h5 := hA5
        rw [← mcoe_append] at h5
        exact Multiset.coe_nodup.mp h5
      have hmid : (s.discovered.map (·.host) ++ inflightHosts (s.workers.take i) ++
          inflightHosts (s.workers.drop (i + 1))).Nodup ∧
          h ∉ s.discovered.map (·.host) ++ inflightHosts (s.workers.take i) ++
            inflightHosts (s.workers.drop (i + 1)) := by
        have h5 := hLnodup
        rw [hIH] at h5
        simp only [phaseHost, Option.toList, List.singleton_append] at h5
        rw [show s.discovered.map (·.host) ++
            (inflightHosts (s.workers.take i) ++
              (h :: inflightHosts (s.workers.drop (i + 1)))) =
            (s.discovered.map (·.host) ++ inflightHosts (s.workers.take i)) ++
              (h :: inflightHosts (s.workers.drop (i + 1))) from by
          simp [List.append_assoc]] at h5
        have h6 := List.nodup_middle.mp h5
        have h7 := List.nodup_cons.mp h6
        constructor
        · rw [List.append_assoc]
          rw [← List.append_assoc]
          exact h7.2
        · intro hmem
          exact h7.1 (by simpa [List.append_assoc] using hmem)
      have hIH0 : inflightHosts s.workers =
          inflightHosts (s.workers.take i) ++
            (h :: inflightHosts (s.workers.drop (i + 1))) := by
        rw [hIH]
        simp [phaseHost]
      cases hp : probe h with
      | some found =>
        simp only []
        have hfh : found.host = h := hprobe h found hp
        have hseen : ¬(found.host ∈ s.seen) := by
          rw [hA3, hfh]
          intro hmem
          exact hmid.2 (List.mem_append_left _ (List.mem_append_left _ hmem))
        rw [if_neg hseen]
        have hIHn : inflightHosts (s.workers.set i WPhase.idle) =
            inflightHosts (s.workers.take i) ++
              inflightHosts (s.workers.drop (i + 1)) := by
          rw [hIHx]
          simp [phaseHost]
        have hIOn : inflightOut probe generic ie (s.workers.set i WPhase.idle) =
            inflightOut probe generic ie (s.workers.take i) ++
              inflightOut probe generic ie (s.workers.drop (i + 1)) := by
          rw [hIOx]
          simp [phaseOut]
        have hIO1 : inflightOut probe generic ie s.workers =
            inflightOut probe generic ie (s.workers.take i) ++
              (found :: inflightOut probe generic ie (s.workers.drop (i + 1))) := by
          rw [hOutFlight]
          simp [phaseOut, probeFullFn, hp]
        refine ⟨hA1, hA2, ?_, ?_, ?_, ?_, ?_, ?_⟩
        · simp [hA3]
        · rw [hIOn]
          rw [hIO1] at hA4
          simp only [mcoe_append, mcoe_cons, mcoe_nil] at hA4 ⊢
          rw [← hA4]
          abel
        · rw [hIHn]
          rw [hIH0] at hA5
          have heq : (↑((s.discovered ++ [found]).map (·.host)) +
              ↑(inflightHosts (s.workers.take i) ++
                inflightHosts (s.workers.drop (i + 1))) : Multiset String) =
              ↑(s.discovered.map (·.host)) +
                ↑(inflightHosts (s.workers.take i) ++
                  (h :: inflightHosts (s.workers.drop (i + 1)))) := by
            simp only [List.map_append, List.map_cons, List.map_nil, hfh,
              mcoe_append, mcoe_cons, mcoe_nil]
            abel
          rw [heq]
          exact hA5
        · intro x hx
          simp only [List.map_append, List.map_cons, List.map_nil, hfh] at hx
          rcases List.mem_append.mp hx with h1 | h1
          · exact hA6 x h1
          · rw [List.mem_singleton.mp h1]
            exact hh_take
        · intro x hx
          rw [hIHn] at hx
          refine hA7 x ?_
          rw [hIH0]
          rcases List.mem_append.mp hx with h1 | h1
          · exact List.mem_append_left _ h1
          · exact List.mem_append_right _ (List.mem_cons_of_mem _ h1)
        · intro hdone
          exact hA8 (hdone_mem WPhase.idle (by simp) hdone)
      | none =>
        simp only []
        by_cases hie : ie h = true
        · rw [if_pos hie, if_neg (by simp [hA1])]
          have hIHn : inflightHosts (s.workers.set i (WPhase.genericProbing h)) =
              inflightHosts (s.workers.take i) ++
                (h :: inflightHosts (s.workers.drop (i + 1))) := by
            rw [hIHx]
            simp [phaseHost]
          have hIOn : inflightOut probe generic ie
              (s.workers.set i (WPhase.genericProbing h)) =
              inflightOut probe generic ie s.workers := by
            rw [hIOx, hOutFlight]
            simp [phaseOut, probeFullFn, hp, hie]
          refine ⟨hA1, hA2, hA3, ?_, ?_, hA6, ?_, ?_⟩
          · rw [hIOn]
            exact hA4
          · rw [hIHn, ← hIH0]
            exact hA5
          · intro x hx
            rw [hIHn, ← hIH0] at hx
            exact hA7 x hx
          · intro hdone
            exact hA8 (hdone_mem (WPhase.genericProbing h) (by simp) hdone)
        · rw [if_neg hie]
          have hieF : ie h = false := by simpa using hie
          have hIHn : inflightHosts (s.workers.set i WPhase.idle) =
              inflightHosts (s.workers.take i) ++
                inflightHosts (s.workers.drop (i + 1)) := by
            rw [hIHx]
            simp [phaseHost]
          have hIOn : inflightOut probe generic ie (s.workers.set i WPhase.idle) =
              inflightOut probe generic ie s.workers := by
            rw [hIOx, hOutFlight]
            simp [phaseOut, probeFullFn, hp, hieF]
          refine ⟨hA1, hA2, hA3, ?_, ?_, hA6, ?_, ?_⟩
          · rw [hIOn]
            exact hA4
          · rw [hIHn]
            rw [hIH0] at hA5
            refine Multiset.nodup_of_le ?_ hA5
            have heq : (↑(s.discovered.map (·.host)) +
                ↑(inflightHosts (s.workers.take i) ++
                  (h :: inflightHosts (s.workers.drop (i + 1)))) : Multiset String) =
                (↑(s.discovered.map (·.host)) +
                  ↑(inflightHosts (s.workers.take i) ++
                    inflightHosts (s.workers.drop (i + 1)))) + {h} := by
              simp only [mcoe_append, mcoe_cons, mcoe_nil]
              abel
            rw [heq]
            exact Multiset.le_add_right _ _
          · intro x hx
            rw [hIHn] at hx
            refine hA7 x ?_
            rw [hIH0]
            rcases List.mem_append.mp hx with h1 | h1
            · exact List.mem_append_left _ h1
            · exact List.mem_append_right _ (List.mem_cons_of_mem _ h1)
          · intro hdone
            exact hA8 (hdone_mem WPhase.idle (by simp) hdone)
    | genericProbing h =>
      simp only []
      have hh_in : h ∈ inflightHosts s.workers := by
        rw [hIH]
        exact List.mem_append_right _ (List.mem_append_left _ (by simp [phaseHost]))
      have hh_take : h ∈ hosts.take s.cursor := hA7 h hh_in
      have hLnodup : (s.discovered.map (·.host) ++ inflightHosts s.workers).Nodup := by
        have h5 := hA5
        rw [← mcoe_append] at h5
        exact Multiset.coe_nodup.mp h5
      have hmid : h ∉ s.discovered.map (·.host) := by
        have h5 := hLnodup
        rw [hIH] at h5
        simp only [phaseHost, Option.toList, List.singleton_append] at h5
        rw [show s.discovered.map (·.host) ++
            (inflightHosts (s.workers.take i) ++
              (h :: inflightHosts (s.workers.drop (i + 1)))) =
            (s.discovered.map (·.host) ++ inflightHosts (s.workers.take i)) ++
              (h :: inflightHosts (s.workers.drop (i + 1))) from by
          simp [List.append_assoc]] at h5
        have h6 := List.nodup_middle.mp h5
        have h7 := List.nodup_cons.mp h6
        intro hmem
        exact h7.1 (by simpa [List.append_assoc] using
          (List.mem_append_left _ (List.mem_append_left _ hmem) :
            h ∈ (s.discovered.map (·.host) ++ inflightHosts (s.workers.take i)) ++
              inflightHosts (s.workers.drop (i + 1))))
      have hIH0 : inflightHosts s.workers =
          inflightHosts (s.workers.take i) ++
            (h :: inflightHosts (s.workers.drop (i + 1))) := by
        rw [hIH]
        simp [phaseHost]
      cases hg : generic h with
      | some found =>
        simp only []
        have hfh : found.host = h := hgen h found hg
        have hseen : ¬(found.host ∈ s.seen) := by
          rw [hA3, hfh]
          exact hmid
        rw [if_neg hseen]
        have hIHn : inflightHosts (s.workers.set i WPhase.idle) =
            inflightHosts (s.workers.take i) ++
              inflightHosts (s.workers.drop (i + 1)) := by
          rw [hIHx]
          simp [phaseHost]
        have hIOn : inflightOut probe generic ie (s.workers.set i WPhase.idle) =
            inflightOut probe generic ie (s.workers.take i) ++
              inflightOut probe generic ie (s.workers.drop (i + 1)) := by
          rw [hIOx]
          simp [phaseOut]
        have hIO1 : inflightOut probe generic ie s.workers =
            inflightOut probe generic ie (s.workers.take i) ++
              (found :: inflightOut probe generic ie (s.workers.drop (i + 1))) := by
          rw [hOutFlight]
          simp [phaseOut, hg]
        refine ⟨hA1, hA2, ?_, ?_, ?_, ?_, ?_, ?_⟩
        · simp [hA3]
        · rw [hIOn]
          rw [hIO1] at hA4
          simp only [mcoe_append, mcoe_cons, mcoe_nil] at hA4 ⊢
          rw [← hA4]
          abel
        · rw [hIHn]
          rw [hIH0] at hA5
          have heq : (↑((s.discovered ++ [found]).map (·.host)) +
              ↑(inflightHosts (s.workers.take i) ++
                inflightHosts (s.workers.drop (i + 1))) : Multiset String) =
              ↑(s.discovered.map (·.host)) +
                ↑(inflightHosts (s.workers.take i) ++
                  (h :: inflightHosts (s.workers.drop (i + 1)))) := by
            simp only [List.map_append, List.map_cons, List.map_nil, hfh,
              mcoe_append, mcoe_cons, mcoe_nil]
            abel
          rw [heq]
          exact hA5
        · intro x hx
          simp only [List.map_append, List.map_cons, List.map_nil, hfh] at hx
          rcases List.mem_append.mp hx with h1 | h1
          · exact hA6 x h1
          · rw [List.mem_singleton.mp h1]
            exact hh_take
        · intro x hx
          rw [hIHn] at hx
          refine hA7 x ?_
          rw [hIH0]
          rcases List.mem_append.mp hx with h1 | h1
          · exact List.mem_append_left _ h1
          · exact List.mem_append_right _ (List.mem_cons_of_mem _ h1)
        · intro hdone
          exact hA8 (hdone_mem WPhase.idle (by simp) hdone)
      | none =>
        simp only []
        have hIHn : inflightHosts (s.workers.set i WPhase.idle) =
            inflightHosts (s.workers.take i) ++
              inflightHosts (s.workers.drop (i + 1)) := by
          rw [hIHx]
          simp [phaseHost]
        have hIOn : inflightOut probe generic ie (s.workers.set i WPhase.idle) =
            inflightOut probe generic ie s.workers := by
          rw [hIOx, hOutFlight]
          simp [phaseOut, hg]
        refine ⟨hA1, hA2, hA3, ?_, ?_, hA6, ?_, ?_⟩
        · rw [hIOn]
          exact hA4
        · rw [hIHn]
          rw [hIH0] at hA5
          refine Multiset.nodup_of_le ?_ hA5
          have heq : (↑(s.discovered.map (·.host)) +
              ↑(inflightHosts (s.workers.take i) ++
                (h :: inflightHosts (s.workers.drop (i + 1)))) : Multiset String) =
              (↑(s.discovered.map (·.host)) +
                ↑(inflightHosts (s.workers.take i) ++
                  inflightHosts (s.workers.drop (i + 1)))) + {h} := by
            simp only [mcoe_append, mcoe_cons, mcoe_nil]
            abel
          rw [heq]
          exact Multiset.le_add_right _ _
        · intro x hx
          rw [hIHn] at hx
          refine hA7 x ?_
          rw [hIH0]
          rcases List.mem_append.mp hx with h1 | h1
          · exact List.mem_append_left _ h1
          · exact List.mem_append_right _ (List.mem_cons_of_mem _ h1)
        · intro hdone
          exact hA8 (hdone_mem WPhase.idle (by simp) hdone)

/-- The invariant persists along any schedule that never signals abort. -/
theorem runSched_inv (probe generic : String → Option DiscoveredTV) (ie : String → Bool)
    (hosts : List String) (hnodup : hosts.Nodup) (hne : "" ∉ hosts)
    (hprobe : ∀ h tv, probe h = some tv → tv.host = h)
    (hgen : ∀ h tv, generic h = some tv → tv.host = h) :
    ∀ (sch : List SchedItem), SchedItem.abortSig ∉ sch →
    ∀ (s : ScanState), ScanInv probe generic ie hosts s →
      ScanInv probe generic ie hosts (runSched probe generic ie hosts sch s).1 := by
  intro sch
  induction sch with
  | nil => intro _ s hinv; exact hinv
  | cons item rest ih =>
    intro hna s hinv
    have hna2 : SchedItem.abortSig ∉ rest := fun hm => hna (List.mem_cons_of_mem _ hm)
    cases item with
    | work i =>
      unfold runSched
      simp only [scanStep]
      exact ih hna2 _ (workerStep_inv probe generic ie hosts hnodup hne hprobe hgen s i hinv)
    | abortSig => exact absurd (List.mem_cons_self _ _) hna

/-- The invariant holds initially when the abort signal is not yet set. -/
theorem initScanState_inv (probe generic : String → Option DiscoveredTV) (ie : String → Bool)
    (hosts : List String) (c : Nat) :
    ScanInv probe generic ie hosts (initScanState c false) := by
  refine ⟨rfl, Nat.zero_le _, rfl, ?_, ?_, ?_, ?_, ?_⟩
  · simp [initScanState, inflightOut_replicate_idle, mcoe_nil]
  · simp [initScanState, inflightHosts_replicate_idle, mcoe_nil]
  · intro x hx
    simp [initScanState] at hx
  · intro x hx
    rw [initScanState, inflightHosts_replicate_idle] at hx
    exact absurd hx (List.not_mem_nil x)
  · intro hdone
    rw [initScanState] at hdone
    simp only [] at hdone
    have := List.eq_of_mem_replicate hdone
    exact absurd this (by simp)

/-- Any completed, never-aborted run discovers exactly the full outcomes of
the whole host list, as a multiset — independent of the schedule and of the
worker-pool size. -/
theorem runSched_complete_discovered (probe generic : String → Option DiscoveredTV)
    (ie : String → Bool) (hosts : List String)
    (hnodup : hosts.Nodup) (hne : "" ∉ hosts)
    (hprobe : ∀ h tv, probe h = some tv → tv.host = h)
    (hgen : ∀ h tv, generic h = some tv → tv.host = h)
    (c : Nat) (hc : 0 < c) (sch : List SchedItem) (hna : SchedItem.abortSig ∉ sch)
    (hdone : allDoneB (runSched probe generic ie hosts sch (initScanState c false)).1 = true) :
    ((↑(runSched probe generic ie hosts sch (initScanState c false)).1.discovered :
        Multiset DiscoveredTV) =
      ↑(hosts.filterMap (probeFullFn probe generic ie))) ∧
    ((runSched probe generic ie hosts sch (initScanState c false)).1.discovered.map
      (·.host)).Nodup := by
  have hinv := runSched_inv probe generic ie hosts hnodup hne hprobe hgen sch hna
    (initScanState c false) (initScanState_inv probe generic ie hosts c)
  obtain ⟨hA1, hA2, hA3, hA4, hA5, hA6, hA7, hA8⟩ := hinv
  have hlen : (runSched probe generic ie hosts sch (initScanState c false)).1.workers.length
      = c := by
    rw [runSched_workers_length]
    simp [initScanState]
  have hwne : (runSched probe generic ie hosts sch (initScanState c false)).1.workers ≠ [] := by
    intro hnil
    rw [hnil] at hlen
    simp at hlen
    omega
  have hdmem : WPhase.done ∈
      (runSched probe generic ie hosts sch (initScanState c false)).1.workers := by
    obtain ⟨x, hx⟩ := List.exists_mem_of_ne_nil _ hwne
    have := List.all_eq_true.mp hdone x hx
    simp only [decide_eq_true_eq] at this
    exact this ▸ hx
  have hcur := hA8 hdmem
  have hIOnil := inflightOut_all_done probe generic ie _ hdone
  rw [hIOnil] at hA4
  rw [hcur, List.take_length] at hA4
  constructor
  · rw [← hA4]
    simp [mcoe_nil]
  · have hIHnil : inflightHosts
        (runSched probe generic ie hosts sch (initScanState c false)).1.workers = [] :=
      inflightHosts_all_done _ hdone
    have h5 := hA5
    rw [hIHnil, mcoe_nil, add_zero] at h5
    exact Multiset.coe_nodup.mp h5

theorem empty_not_mem_normalizeHosts (hs : Option (List String)) :
    "" ∉ normalizeHosts hs := by
  intro hmem
  unfold normalizeHosts at hmem
  cases hs with
  | none => exact absurd hmem (List.not_mem_nil "")
  | some l =>
    simp only [] at hmem
    by_cases hemp : l.isEmpty
    · rw [if_pos hemp] at hmem
      exact absurd hmem (List.not_mem_nil "")
    · rw [if_neg hemp] at hmem
      have h2 := (dedupFirst_sound _).2 "" hmem
      have h3 := List.mem_filter.mp (List.mem_filter.mp h2).1
      exact absurd h3.2 (by simp)

theorem empty_not_mem_buildHosts (prefixes : List String) (a b : Int) :
    "" ∉ buildHosts prefixes a b := by
  intro hmem
  unfold buildHosts at hmem
  rw [List.mem_flatMap] at hmem
  obtain ⟨pfx, _, h4⟩ := hmem
  rw [List.mem_map] at h4
  obtain ⟨i, _, h5⟩ := h4
  have hlen : (pfx ++ "." ++ toString (a + (i : Int))).length = 0 := by
    rw [h5]
    rfl
  rw [String.length_append, String.length_append] at hlen
  have hdot : ("." : String).length = 1 := rfl
  omega

theorem empty_not_mem_scanHostList (env : Env) (options : ScanOptions) :
    "" ∉ scanHostList env options := by
  intro hmem
  have h2 := (dedupFirst_sound _).2 "" hmem
  rcases List.mem_append.mp h2 with h3 | h3
  · exact empty_not_mem_normalizeHosts options.hosts h3
  · exact empty_not_mem_buildHosts _ _ _ h3

/-- Claim C7: scanner determinism under concurrency. For a fixed environment
(fixed host list and fixed probe responses), any two completed, never-aborted
scan runs — any worker-pool sizes, any interleavings — discover the same
multiset of `DiscoveredTV` values, and the result never contains two entries
with the same host. -/
theorem scanner_deterministic_under_concurrency (env : Env) (options : ScanOptions)
    (c1 c2 : Nat) (sch1 sch2 : List SchedItem)
    (hc1 : 0 < c1) (hc2 : 0 < c2)
    (hna1 : SchedItem.abortSig ∉ sch1) (hna2 : SchedItem.abortSig ∉ sch2)
    (hab : options.abortSignalAborted ≠ some true)
    (hdone1 : allDoneB (scanRunN env options c1 sch1).1 = true)
    (hdone2 : allDoneB (scanRunN env options c2 sch2).1 = true) :
    ((↑(scanRunN env options c1 sch1).1.discovered : Multiset DiscoveredTV) =
      ↑(scanRunN env options c2 sch2).1.discovered) ∧
    ((scanRunN env options c1 sch1).1.discovered.map (·.host)).Nodup := by
  have hnodup : (scanHostList env options).Nodup := (dedupFirst_sound _).1
  have hne' : "" ∉ scanHostList env options := empty_not_mem_scanHostList env options
  have hd : decide (options.abortSignalAborted = some true) = false := by
    simp [hab]
  have hrw1 : scanRunN env options c1 sch1 =
      runSched (scanProbeFn env options) (probeGenericHostPure env)
        (scanIsExplicit options) (scanHostList env options) sch1
        (initScanState c1 false) := by
    unfold scanRunN
    rw [hd]
  have hrw2 : scanRunN env options c2 sch2 =
      runSched (scanProbeFn env options) (probeGenericHostPure env)
        (scanIsExplicit options) (scanHostList env options) sch2
        (initScanState c2 false) := by
    unfold scanRunN
    rw [hd]
  rw [hrw1] at hdone1
  rw [hrw2] at hdone2
  have h1 := runSched_complete_discovered (scanProbeFn env options)
    (probeGenericHostPure env) (scanIsExplicit options) (scanHostList env options)
    hnodup hne' (fun h tv hp => probeHostPure_host env h _ tv hp)
    (fun h tv hp => probeGenericHostPure_host env h tv hp) c1 hc1 sch1 hna1 hdone1
  have h2 := runSched_complete_discovered (scanProbeFn env options)
    (probeGenericHostPure env) (scanIsExplicit options) (scanHostList env options)
    hnodup hne' (fun h tv hp => probeHostPure_host env h _ tv hp)
    (fun h tv hp => probeGenericHostPure_host env h tv hp) c2 hc2 sch2 hna2 hdone2
  rw [hrw1, hrw2]
  exact ⟨h1.1.trans h2.1.symm, h1.2⟩

/-- Two explicit hosts, pool sizes 1 and 2. -/
def scanOptsW : ScanOptions :=
  { prefixes := some [], hosts := some ["10.0.0.5", "10.0.0.6"] }

def schedW1 : List SchedItem := List.replicate 7 (SchedItem.work 0)

def schedW2 : List SchedItem :=
  List.replicate 7 (SchedItem.work 0) ++ [SchedItem.work 1]

/-- Completed single-worker and two-worker runs over the same two hosts agree. -/
theorem scanner_deterministic_under_concurrency_witness :
    ((↑(scanRunN envOffline scanOptsW 1 schedW1).1.discovered : Multiset DiscoveredTV) =
      ↑(scanRunN envOffline scanOptsW 2 schedW2).1.discovered) ∧
    ((scanRunN envOffline scanOptsW 1 schedW1).1.discovered.map (·.host)).Nodup :=
  scanner_deterministic_under_concurrency envOffline scanOptsW 1 2 schedW1 schedW2
    (by decide) (by decide) (by decide) (by decide) (by decide) (by decide) (by decide)

/-- In an aborted state no worker step issues an event, and the abort flag
stays set. -/
theorem workerStep_aborted_no_events (probe generic : String → Option DiscoveredTV)
    (ie : String → Bool) (hosts : List String) (s : ScanState) (i : Nat)
    (hab : s.aborted = true) :
    (workerStep probe generic ie hosts s i).2 = [] ∧
    (workerStep probe generic ie hosts s i).1.aborted = true := by
  unfold workerStep
  repeat' split
  all_goals try (by_cases hh : hosts[s.cursor]?.getD "" = "" <;> simp_all)
  all_goals simp_all

/-- After the abort signal, a run issues no probe events at all — whatever the
workers were doing. -/
theorem runSched_aborted_no_events (probe generic : String → Option DiscoveredTV)
    (ie : String → Bool) (hosts : List String) :
    ∀ (sch : List SchedItem) (s : ScanState), s.aborted = true →
      (runSched probe generic ie hosts sch s).2 = [] := by
  intro sch
  induction sch with
  | nil => intro s _; rfl
  | cons item rest ih =>
    intro s hab
    unfold runSched
    cases item with
    | work i =>
      simp only [scanStep]
      have h := workerStep_aborted_no_events probe generic ie hosts s i hab
      rw [h.1, ih _ h.2]
      rfl
    | abortSig =>
      simp only [scanStep]
      rw [ih { s with aborted := true } rfl]
      rfl

/-- In an aborted state with only idle or finished workers, a worker step
freezes the result: nothing is discovered and workers only retire. -/
theorem workerStep_aborted_frozen (probe generic : String → Option DiscoveredTV)
    (ie : String → Bool) (hosts : List String) (s : ScanState) (i : Nat)
    (hab : s.aborted = true)
    (hw : ∀ w ∈ s.workers, w = WPhase.idle ∨ w = WPhase.done) :
    (workerStep probe generic ie hosts s i).1.aborted = true ∧
    (workerStep probe generic ie hosts s i).1.discovered = s.discovered ∧
    (∀ w ∈ (workerStep probe generic ie hosts s i).1.workers,
      w = WPhase.idle ∨ w = WPhase.done) := by
  unfold workerStep
  cases hget : s.workers.get? i with
  | none => exact ⟨hab, rfl, hw⟩
  | some ph =>
    have hmem : ph ∈ s.workers := List.get?_mem hget
    have hset_mem : ∀ (x : WPhase), (x = WPhase.idle ∨ x = WPhase.done) →
        ∀ w ∈ s.workers.set i x, w = WPhase.idle ∨ w = WPhase.done := by
      intro x hx w hwmem
      rcases List.mem_or_eq_of_mem_set hwmem with h1 | h1
      · exact hw w h1
      · exact h1 ▸ hx
    rcases hw ph hmem with hph | hph <;> subst hph
    · simp only []
      by_cases hcur : s.cursor < hosts.length
      · rw [if_pos hcur, if_pos hab]
        exact ⟨hab, rfl, hset_mem WPhase.done (Or.inr rfl)⟩
      · rw [if_neg hcur]
        exact ⟨hab, rfl, hset_mem WPhase.done (Or.inr rfl)⟩
    · exact ⟨hab, rfl, hw⟩

/-- A run that starts aborted (with fresh workers) finishes with nothing
discovered, whatever the schedule does. -/
theorem runSched_aborted_frozen (probe generic : String → Option DiscoveredTV)
    (ie : String → Bool) (hosts : List String) :
    ∀ (sch : List SchedItem) (s : ScanState), s.aborted = true →
      (∀ w ∈ s.workers, w = WPhase.idle ∨ w = WPhase.done) →
      (runSched probe generic ie hosts sch s).1.discovered = s.discovered := by
  intro sch
  induction sch with
  | nil => intro s _ _; rfl
  | cons item rest ih =>
    intro s hab hw
    unfold runSched
    cases item with
    | work i =>
      simp only [scanStep]
      have h := workerStep_aborted_frozen probe generic ie hosts s i hab hw
      rw [ih _ h.1 h.2.2, h.2.1]
    | abortSig =>
      simp only [scanStep]
      exact ih { s with aborted := true } rfl hw

/-- Working each index once drives an aborted pool (idle or done workers,
every index outside `idxs` already done) to full completion. -/
theorem runSched_work_all_done (probe generic : String → Option DiscoveredTV)
    (ie : String → Bool) (hosts : List String) :
    ∀ (idxs : List Nat) (s : ScanState), s.aborted = true →
      (∀ w ∈ s.workers, w = WPhase.idle ∨ w = WPhase.done) →
      (∀ j, j < s.workers.length → j ∉ idxs → s.workers.get? j = some WPhase.done) →
      allDoneB (runSched probe generic ie hosts (idxs.map SchedItem.work) s).1 = true := by
  intro idxs
  induction idxs with
  | nil =>
    intro s _ _ hdone
    rw [List.map_nil]
    unfold runSched allDoneB
    rw [List.all_eq_true]
    intro w hwmem
    simp only [decide_eq_true_eq]
    obtain ⟨j, hje⟩ := List.mem_iff_get.mp hwmem
    have hj2 : (j : Nat) < s.workers.length := j.2
    have hd := hdone j hj2 (List.not_mem_nil _)
    rw [List.get?_eq_get hj2] at hd
    rw [← hje]
    exact Option.some_inj.mp hd
  | cons i rest ih =>
    intro s hab hw hdone
    rw [List.map_cons]
    unfold runSched
    simp only [scanStep]
    cases hget : s.workers.get? i with
    | none =>
      have hstep : workerStep probe generic ie hosts s i = (s, []) := by
        unfold workerStep
        rw [hget]
      rw [hstep]
      refine ih s hab hw ?_
      intro j hj hjrest
      by_cases hji : j = i
      · subst hji
        rw [List.get?_eq_get hj] at hget
        exact absurd hget (by simp)
      · exact hdone j hj (by simp [hji, hjrest])
    | some ph =>
      have hn : i < s.workers.length := by
        have h2 := hget
        simp only [List.get?_eq_getElem?] at h2
        exact (List.getElem?_eq_some.mp h2).1
      have hmem : ph ∈ s.workers := List.get?_mem hget
      have hget_set_self : ∀ (x : WPhase), (s.workers.set i x).get? i = some x := by
        intro x
        simp [List.get?_eq_getElem?, List.getElem?_set_self, hn]
      have hget_set_ne : ∀ (x : WPhase) (j : Nat), j ≠ i →
          (s.workers.set i x).get? j = s.workers.get? j := by
        intro x j hji
        simp [List.get?_eq_getElem?, List.getElem?_set_ne (fun he => hji he.symm)]
      have hrec : ∀ (s2 : ScanState), s2.aborted = true →
          (∀ w ∈ s2.workers, w = WPhase.idle ∨ w = WPhase.done) →
          s2.workers.length = s.workers.length →
          (∀ j, j < s.workers.length → j ≠ i → s2.workers.get? j = s.workers.get? j) →
          s2.workers.get? i = some WPhase.done →
          allDoneB (runSched probe generic ie hosts (rest.map SchedItem.work) s2).1
            = true := by
        intro s2 h1 h2 h3 h4 h5
        refine ih s2 h1 h2 ?_
        intro j hj hjrest
        by_cases hji : j = i
        · subst hji
          exact h5
        · rw [h3] at hj
          rw [h4 j hj hji]
          exact hdone j hj (by simp [hji, hjrest])
      rcases hw ph hmem with hph | hph <;> subst hph
      · have hstep : workerStep probe generic ie hosts s i =
            ({ s with workers := s.workers.set i WPhase.done }, []) := by
          unfold workerStep
          rw [hget]
          simp only []
          by_cases hcur : s.cursor < hosts.length
          · rw [if_pos hcur, if_pos hab]
          · rw [if_neg hcur]
        rw [hstep]
        refine hrec _ hab ?_ (by simp) ?_ (hget_set_self WPhase.done)
        · intro w hwmem
          rcases List.mem_or_eq_of_mem_set hwmem with h1 | h1
          · exact hw w h1
          · exact Or.inr h1
        · intro j _ hji
          exact hget_set_ne WPhase.done j hji
      · have hstep : workerStep probe generic ie hosts s i = (s, []) := by
          unfold workerStep
          rw [hget]
        rw [hstep]
        exact hrec s hab hw rfl (fun _ _ _ => rfl) hget

/-- Claim C9: scan cancellation is clean. (1) If the abort signal is already
aborted when `scanNetworkForTVs` is called, every run returns the empty result
and issues no probe at all, for every schedule. (2) From the moment the state
is aborted, no further probe events are issued — in-flight or not, for every
schedule. (3) The scan still resolves normally under cancellation: working
each worker once drives the aborted pool to completion, so the promise settles
with a result rather than an error. -/
theorem scan_cancellation_clean :
    (∀ (env : Env) (options : ScanOptions) (sch : List SchedItem),
      options.abortSignalAborted = some true →
      (scanRun env options sch).1.discovered = [] ∧ (scanRun env options sch).2 = []) ∧
    (∀ (probe generic : String → Option DiscoveredTV) (ie : String → Bool)
        (hosts : List String) (sch : List SchedItem) (s : ScanState),
      s.aborted = true → (runSched probe generic ie hosts sch s).2 = []) ∧
    (∀ (env : Env) (options : ScanOptions),
      options.abortSignalAborted = some true →
      allDoneB (scanRun env options
        ((List.range (scanConcurrency options).toNat).map SchedItem.work)).1 = true) := by
  have hinitw : ∀ (c : Nat) (w : WPhase),
      w ∈ (initScanState c true).workers → w = WPhase.idle ∨ w = WPhase.done := by
    intro c w hw
    exact Or.inl (List.eq_of_mem_replicate hw)
  refine ⟨?_, ?_, ?_⟩
  · intro env options sch hab
    have hd : decide (options.abortSignalAborted = some true) = true := by simp [hab]
    have hrw : scanRun env options sch =
        runSched (scanProbeFn env options) (probeGenericHostPure env)
          (scanIsExplicit options) (scanHostList env options) sch
          (initScanState (scanConcurrency options).toNat true) := by
      unfold scanRun scanRunN
      rw [hd]
    rw [hrw]
    constructor
    · exact runSched_aborted_frozen _ _ _ _ sch _ rfl (hinitw _)
    · exact runSched_aborted_no_events _ _ _ _ sch _ rfl
  · intro probe generic ie hosts sch s hab
    exact runSched_aborted_no_events probe generic ie hosts sch s hab
  · intro env options hab
    have hd : decide (options.abortSignalAborted = some true) = true := by simp [hab]
    have hrw : scanRun env options
        ((List.range (scanConcurrency options).toNat).map SchedItem.work) =
        runSched (scanProbeFn env options) (probeGenericHostPure env)
          (scanIsExplicit options) (scanHostList env options)
          ((List.range (scanConcurrency options).toNat).map SchedItem.work)
          (initScanState (scanConcurrency options).toNat true) := by
      unfold scanRun scanRunN
      rw [hd]
    rw [hrw]
    refine runSched_work_all_done _ _ _ _ _ _ rfl (hinitw _) ?_
    intro j hj hjnot
    exfalso
    refine hjnot (List.mem_range.mpr ?_)
    simpa [initScanState] using hj

/-- An already-fired cancellation signal. -/
def scanOptsAb : ScanOptions :=
  { hosts := some ["10.0.0.5"], abortSignalAborted := some true }

/-- Concrete cancellations: an already-aborted scan returns empty with no
probes under an adversarial schedule; an aborted mid-probe state emits no
events; the aborted pool runs to completion. -/
theorem scan_cancellation_clean_witness :
    ((scanRun envOffline scanOptsAb
        [SchedItem.work 0, SchedItem.abortSig, SchedItem.work 0]).1.discovered = [] ∧
      (scanRun envOffline scanOptsAb
        [SchedItem.work 0, SchedItem.abortSig, SchedItem.work 0]).2 = []) ∧
    (runSched (fun _ => none) (fun _ => none) (fun _ => false) []
      [SchedItem.work 0]
      (ScanState.mk 0 [] [] true [WPhase.probing "10.0.0.9"])).2 = [] ∧
    allDoneB (scanRun envOffline scanOptsAb
      ((List.range (scanConcurrency scanOptsAb).toNat).map SchedItem.work)).1 = true :=
  ⟨scan_cancellation_clean.1 envOffline scanOptsAb _ rfl,
    scan_cancellation_clean.2.1 _ _ _ _ _ _ rfl,
    scan_cancellation_clean.2.2 envOffline scanOptsAb rfl⟩
